import Mathlib

/-!
# OS Coord: grid references and coordinate transforms

A shallow embedding of `src/os_coord_ordinance_survey.cpp` and
`src/os_coord_transform.cpp`.

Conventions of the embedding

* A C `double` is an element of an ordered field `K` with a floor function
  (exact arithmetic; `ℚ` when a value is to be computed, `ℝ` where the
  trigonometric functions are needed).  Rounding of IEEE arithmetic is not
  modelled, except in `os_lat_lon_to_tm_eas_nor_fl`, the projection as the
  machine runs it, where every operation is followed by a rounding to a double.
* A C `unsigned int` is an `Int` in `[0, 2^32)`; every unsigned operation is
  followed by `u32`, reduction modulo `2^32`.
* A C `int` is an `Int` (no overflow occurs for the values handled here).
* A `char` is the `Int` value of its byte.
* A conversion whose behaviour the C standard leaves undefined yields `none`.
-/

namespace OsCoord

/-! ## C arithmetic helpers -/

/-- The integer value of a character constant such as `'A'`. -/
def chr (c : Char) : Int := (c.toNat : Int)

/-- Wrap-around of `unsigned int` arithmetic (32 bits). -/
def u32 (z : Int) : Int := z % 4294967296

/-- Storing an integer value into a `char`: the low byte is kept. -/
def toChar (z : Int) : Int := z % 256

section Real

variable {K : Type} [LinearOrderedField K] [FloorRing K]

/-- Truncation toward zero, the rounding of a C floating-to-integer conversion. -/
def trunc (v : K) : Int := if 0 ≤ v then ⌊v⌋ else ⌈v⌉

/-- Conversion `double -> unsigned int`: the value is truncated toward zero; the
behaviour is undefined (`none`) when the truncated value is not representable,
that is unless `-1 < v < 2^32`. -/
def toUnsigned (v : K) : Option Int :=
  if -1 < v ∧ v < 4294967296 then some (trunc v) else none

/-- The C library function `fmod`: `x - k*y` where `k` is `x/y` truncated toward
zero, so the result has the sign of `x`. -/
def fmod (x y : K) : K := x - y * ((trunc (x / y) : Int) : K)

end Real

/-! ## The 5x5 letter-square macros

The macros are type generic in C.  `w` is the wrap-around of the integer type
they are expanded at: `id` for `int`, `u32` for `unsigned int`. -/

/-- Macro `C2I(c)`: `((c) - 'A' - (((c) > 'I') ? 1 : 0))`. -/
def C2I (w : Int → Int) (c : Int) : Int :=
  w (w (c - chr 'A') - (if c > chr 'I' then 1 else 0))

/-- Macro `I2C(i)`: `('A' + (((i) >= 8) ? (i)+1 : (i)))`. -/
def I2C (w : Int → Int) (i : Int) : Int :=
  w (chr 'A' + (if i ≥ 8 then w (i + 1) else i))

/-- Macro `I2X(i)`: `((i)%5)`, with the truncating remainder of C. -/
def I2X (w : Int → Int) (i : Int) : Int := w (Int.tmod i 5)

/-- Macro `I2Y(i)`: `(4 - ((i)/5))`, with the truncating division of C. -/
def I2Y (w : Int → Int) (i : Int) : Int := w (4 - w (Int.tdiv i 5))

/-- Macro `XY2I(x,y)`: `((x) + ((4-(y)) * 5))`. -/
def XY2I (w : Int → Int) (x y : Int) : Int := w (x + w (w (4 - y) * 5))

/-! ## Data model -/

/-- Easting, northing and height (`os_eas_nor_t`). -/
structure os_eas_nor_t (K : Type) where
  e : K
  n : K
  h : K

/-- Modelled from the spec: the declaration of `os_grid_t` (header `os_coord.h`)
is missing; the fields are those the code reads, with the meaning the data model
gives them: number of letters of the code, letter of the square holding the
origin, and the extent of the grid in 100 km squares. -/
structure os_grid_t where
  num_digits : Nat
  bottom_left_first_char : Int
  width : Nat
  height : Nat

/-- Modelled from the spec: the declaration of `os_grid_ref_t` (header
`os_coord.h`) is missing; `code` is the character buffer, indexed from 0 and
long enough for every letter written, then the remainders and the height. -/
structure os_grid_ref_t (K : Type) where
  code : Nat → Int
  e : K
  n : K
  h : K

/-- The initial value `{.code={'\0','\0','\0'}}`: every character and every other
member is zero. -/
def invalid_grid_ref (K : Type) [Zero K] : os_grid_ref_t K :=
  { code := fun _ => chr '\x00', e := 0, n := 0, h := 0 }

/-- The British national grid of the tests. -/
def OS_GR_NATIONAL_GRID : os_grid_t :=
  { num_digits := 2, bottom_left_first_char := chr 'S', width := 7, height := 13 }

/-! ## `os_eas_nor_to_grid_ref` -/

/-- The letter written to `code[i]` in one pass of the loop body, for the current
`sq_x`, `sq_y` (both `unsigned int`). -/
def digit_letter (grid : os_grid_t) (i : Nat) (sq_x sq_y : Int) : Int :=
  let off_x : Int := if i = 0 then I2X id (C2I id grid.bottom_left_first_char) else 0
  let off_y : Int := if i = 0 then I2Y id (C2I id grid.bottom_left_first_char) else 0
  toChar (I2C u32 (XY2I u32 (u32 (off_x + u32 (sq_x % 5))) (u32 (off_y + u32 (sq_y % 5)))))

/-- The loop `for (int i = grid.num_digits - 1; i >= 0; i--)`: `k` is the number
of passes left, so the pass at hand has `i = k - 1`. -/
def digit_loop (grid : os_grid_t) : Nat → Int → Int → (Nat → Int) → (Nat → Int)
  | 0, _, _, code => code
  | k + 1, sq_x, sq_y, code =>
    digit_loop grid k (u32 (sq_x / 5)) (u32 (sq_y / 5))
      (fun j => if j = k then digit_letter grid k sq_x sq_y else code j)

section Real

variable {K : Type} [LinearOrderedField K] [FloorRing K]

/-- Function `os_eas_nor_to_grid_ref`. -/
def os_eas_nor_to_grid_ref (point : os_eas_nor_t K) (grid : os_grid_t) :
    Option (os_grid_ref_t K) :=
  match toUnsigned (point.e / 100000), toUnsigned (point.n / 100000) with
  | some sq_x, some sq_y =>
    if sq_x < 0 ∨ sq_y < 0 ∨ sq_x ≥ grid.width ∨ sq_y ≥ grid.height then
      some (invalid_grid_ref K)
    else
      some { code := digit_loop grid grid.num_digits sq_x sq_y (invalid_grid_ref K).code
             e := fmod point.e 100000
             n := fmod point.n 100000
             h := point.h }
  | _, _ => none

end Real

/-! ## Test data and side conditions -/

/-- An integer type of at least 32 bits leaves the small non-negative values
alone; this is all the letter macros need of it. -/
def WideEnough (w : Int → Int) : Prop := ∀ z : Int, 0 ≤ z → z < 2147483648 → w z = z

/-- The worked example of the Ordnance Survey guide: easting 651409.903,
northing 313177.270. -/
def TG_POINT : os_eas_nor_t ℚ := { e := 651409903 / 1000, n := 313177270 / 1000, h := 0 }

/-- A grid of one letter, 5 x 5 squares, whose origin square is lettered `'A'`
(the top row of the letter square). -/
def GRID_A : os_grid_t :=
  { num_digits := 1, bottom_left_first_char := chr 'A', width := 5, height := 5 }


/-! ## The transforms of `os_coord_transform.cpp` -/

/-- Latitude, longitude (radians) and ellipsoidal height (`os_lat_lon_t`). -/
structure os_lat_lon_t (K : Type) where
  lat : K
  lon : K
  eh : K

/-- Geocentric cartesian coordinates (`os_cartesian_t`). -/
structure os_cartesian_t (K : Type) where
  x : K
  y : K
  z : K

/-- Semi-major and semi-minor axis of an ellipsoid (`os_ellipsoid_t`). -/
structure os_ellipsoid_t (K : Type) where
  a : K
  b : K

/-- The seven parameters of a Helmert transform (`os_helmert_t`): translations in
metres, rotations in arc-seconds, scale in parts per million. -/
structure os_helmert_t (K : Type) where
  tx : K
  ty : K
  tz : K
  rx : K
  ry : K
  rz : K
  s : K

/-- Modelled from the spec: the macro `DEG_2_RAD` (header `os_coord_math.h`) is
missing; degrees are converted to radians, `x * PI / 180`, where `PI` is the
constant of the same header. -/
def DEG_2_RAD {K : Type} [Field K] (PI : K) (x : K) : K := x * PI / 180

/-- Function `os_helmert_transform`.  The constant `PI` of the missing header is a
parameter here, so that the function runs over any field. -/
def os_helmert_transform {K : Type} [Field K] (PI : K) (point : os_cartesian_t K)
    (helmert : os_helmert_t K) : os_cartesian_t K :=
  let rx := DEG_2_RAD PI (helmert.rx / 3600)
  let ry := DEG_2_RAD PI (helmert.ry / 3600)
  let rz := DEG_2_RAD PI (helmert.rz / 3600)
  let s1 := 1 + helmert.s / 1000000
  { x := helmert.tx + point.x * s1 - point.y * rz + point.z * ry
    y := helmert.ty + point.x * rz + point.y * s1 - point.z * rx
    z := helmert.tz - point.x * ry + point.y * rx + point.z * s1 }

/-- Modelled from the spec: the constant `PI` (header `os_coord_math.h`) is
missing; it is the number π. -/
noncomputable def PI : ℝ := Real.pi

/-- The C library function `atan2(y, x)`: the angle in `(-π, π]` of the point
`(x, y)`, and 0 at the origin. -/
noncomputable def atan2 (y x : ℝ) : ℝ := Complex.arg ⟨x, y⟩

/-- Function `os_lat_lon_to_cartesian`. -/
noncomputable def os_lat_lon_to_cartesian (point : os_lat_lon_t ℝ)
    (ellipsoid : os_ellipsoid_t ℝ) : os_cartesian_t ℝ :=
  let sinPhi := Real.sin point.lat
  let cosPhi := Real.cos point.lat
  let sinLambda := Real.sin point.lon
  let cosLambda := Real.cos point.lon
  let eSq := ((ellipsoid.a * ellipsoid.a) - (ellipsoid.b * ellipsoid.b))
    / (ellipsoid.a * ellipsoid.a)
  let nu := ellipsoid.a / Real.sqrt (1 - (eSq * (sinPhi * sinPhi)))
  { x := (nu + point.eh) * cosPhi * cosLambda
    y := (nu + point.eh) * cosPhi * sinLambda
    z := ((1 - eSq) * nu + point.eh) * sinPhi }

/-- The variables the loop of `os_cartesian_to_lat_lon` changes.  `nu` is declared
without a value, so it holds none until the body has run. -/
structure lat_loop_state where
  phi : ℝ
  phiP : ℝ
  nu : Option ℝ

/-- The loop body of `os_cartesian_to_lat_lon`. -/
noncomputable def lat_loop_body (a eSq z p : ℝ) (s : lat_loop_state) : lat_loop_state :=
  let nu := a / Real.sqrt (1 - eSq * (Real.sin s.phi * Real.sin s.phi))
  { nu := some nu
    phiP := s.phi
    phi := atan2 (z + eSq * nu * Real.sin s.phi) p }

/-- The loop `while (fabs(phi-phiP) > precision)`, run for at most `fuel` tests:
`none` when the test still holds after the last of them. -/
noncomputable def lat_loop (precision a eSq z p : ℝ) :
    Nat → lat_loop_state → Option lat_loop_state
  | 0, _ => none
  | fuel + 1, s =>
    if |s.phi - s.phiP| > precision then
      lat_loop precision a eSq z p fuel (lat_loop_body a eSq z p s)
    else some s

/-- The latitude that one pass of the loop body of `os_cartesian_to_lat_lon`
computes from the latitude `phi`, for the given point and ellipsoid. -/
noncomputable def lat_step (point : os_cartesian_t ℝ) (ellipsoid : os_ellipsoid_t ℝ)
    (phi : ℝ) : ℝ :=
  let eSq := ((ellipsoid.a * ellipsoid.a) - (ellipsoid.b * ellipsoid.b))
    / (ellipsoid.a * ellipsoid.a)
  let p := Real.sqrt ((point.x * point.x) + (point.y * point.y))
  (lat_loop_body ellipsoid.a eSq point.z p { phi := phi, phiP := phi, nu := none }).phi

/-- What can go wrong in a run of `os_cartesian_to_lat_lon`. -/
inductive fault where
  | out_of_fuel : fault
  | indeterminate_nu : fault

/-- Function `os_cartesian_to_lat_lon`, run with `fuel` loop tests.
`OS_CART_TO_LAT_LON_PRECISION` is a constant of the missing header `os_coord.h`
and is taken as a parameter.  The result is
`fault.out_of_fuel` when the loop has not ended, `fault.indeterminate_nu` when the
loop ends without having assigned `nu`, which the height formula reads. -/
noncomputable def os_cartesian_to_lat_lon (OS_CART_TO_LAT_LON_PRECISION : ℝ) (fuel : Nat)
    (point : os_cartesian_t ℝ) (ellipsoid : os_ellipsoid_t ℝ) :
    Except fault (os_lat_lon_t ℝ) :=
  let precision := OS_CART_TO_LAT_LON_PRECISION / ellipsoid.a
  let eSq := ((ellipsoid.a * ellipsoid.a) - (ellipsoid.b * ellipsoid.b))
    / (ellipsoid.a * ellipsoid.a)
  let p := Real.sqrt ((point.x * point.x) + (point.y * point.y))
  let phi := atan2 point.z (p * (1 - eSq))
  let phiP := 2 * PI
  match lat_loop precision ellipsoid.a eSq point.z p fuel
      { phi := phi, phiP := phiP, nu := none } with
  | none => Except.error fault.out_of_fuel
  | some s =>
    match s.nu with
    | none => Except.error fault.indeterminate_nu
    | some nu =>
      Except.ok { lat := s.phi, lon := atan2 point.y point.x, eh := p / Real.cos s.phi - nu }

/-- Parameters of a transverse Mercator projection (`os_tm_projection_t`), with
the fields the code reads: the ellipsoid, the easting and northing of the true
origin, the scale factor on the central meridian, and the latitude and longitude
of the true origin in degrees. -/
structure os_tm_projection_t (K : Type) where
  ellipsoid : os_ellipsoid_t K
  e0 : K
  n0 : K
  f0 : K
  lat0 : K
  lon0 : K

/-- Function `os_lat_lon_to_tm_eas_nor`.  `pow(x, 1.5)` is the real power
`x ^ (3/2)`. -/
noncomputable def os_lat_lon_to_tm_eas_nor (point : os_lat_lon_t ℝ)
    (projection : os_tm_projection_t ℝ) : os_eas_nor_t ℝ :=
  let lat0 := DEG_2_RAD PI projection.lat0
  let lon0 := DEG_2_RAD PI projection.lon0
  let lat := point.lat
  let lon := point.lon
  let a := projection.ellipsoid.a
  let b := projection.ellipsoid.b
  let e2 := 1 - (b * b) / (a * a)
  let n := (a - b) / (a + b)
  let n2 := n * n
  let n3 := n * n * n
  let cosLat := Real.cos lat
  let sinLat := Real.sin lat
  let nu := a * projection.f0 / Real.sqrt (1 - e2 * sinLat * sinLat)
  let rho := a * projection.f0 * (1 - e2) / (1 - e2 * sinLat * sinLat) ^ ((3 : ℝ) / 2)
  let eta2 := nu / rho - 1
  let Ma := (1 + n + (5 / 4) * n2 + (5 / 4) * n3) * (lat - lat0)
  let Mb := (3 * n + 3 * n * n + (21 / 8) * n3) * Real.sin (lat - lat0) * Real.cos (lat + lat0)
  let Mc := ((15 / 8) * n2 + (15 / 8) * n3) * Real.sin (2 * (lat - lat0))
    * Real.cos (2 * (lat + lat0))
  let Md := (35 / 24) * n3 * Real.sin (3 * (lat - lat0)) * Real.cos (3 * (lat + lat0))
  let M := b * projection.f0 * (Ma - Mb + Mc - Md)
  let cos3lat := cosLat * cosLat * cosLat
  let cos5lat := cos3lat * cosLat * cosLat
  let tan2lat := Real.tan lat * Real.tan lat
  let tan4lat := tan2lat * tan2lat
  let I := M + projection.n0
  let II := (nu / 2) * sinLat * cosLat
  let III := (nu / 24) * sinLat * cos3lat * (5 - tan2lat + 9 * eta2)
  let IIIA := (nu / 720) * sinLat * cos5lat * (61 - 58 * tan2lat + tan4lat)
  let IV := nu * cosLat
  let V := (nu / 6) * cos3lat * (nu / rho - tan2lat)
  let VI := (nu / 120) * cos5lat
    * (5 - 18 * tan2lat + tan4lat + 14 * eta2 - 58 * tan2lat * eta2)
  let dLon := lon - lon0
  let dLon2 := dLon * dLon
  let dLon3 := dLon2 * dLon
  let dLon4 := dLon3 * dLon
  let dLon5 := dLon4 * dLon
  let dLon6 := dLon5 * dLon
  { n := I + II * dLon2 + III * dLon4 + IIIA * dLon6
    e := projection.e0 + IV * dLon + V * dLon3 + VI * dLon5
    h := point.eh }

/-- The Airy 1830 ellipsoid, `a = 6377563.396`, `b = 6356256.909` metres. -/
noncomputable def AIRY_1830 : os_ellipsoid_t ℝ :=
  { a := 6377563396 / 1000, b := 6356256909 / 1000 }

/-- A geodetic test point: latitude 1/2 rad, longitude 1 rad, height 100 m. -/
noncomputable def TEST_LAT_LON : os_lat_lon_t ℝ := { lat := 1 / 2, lon := 1, eh := 100 }

/-- The projection of the British national grid: Airy 1830 ellipsoid, true origin
at latitude 49 and longitude -2 degrees with easting 400000 and northing -100000,
scale factor 0.9996012717. -/
noncomputable def OS_TM_NATIONAL_GRID : os_tm_projection_t ℝ :=
  { ellipsoid := AIRY_1830, e0 := 400000, n0 := -100000, f0 := 9996012717 / 10000000000,
    lat0 := 49, lon0 := -2 }

/-- A sphere of radius 6371000 metres. -/
noncomputable def TEST_SPHERE : os_ellipsoid_t ℝ := { a := 6371000, b := 6371000 }

/-! ## The projection in double arithmetic -/

/-- A finite number of the C type `double` (IEEE 754 binary64): an integer `m`
with `|m| < 2 ^ 53` times a power of two from `2 ^ (-1074)` to `2 ^ 971`, written
`m * 2 ^ e / 2 ^ 1074` with `0 ≤ e ≤ 2045`. -/
def IsDouble (x : ℝ) : Prop :=
  ∃ (m : ℤ) (e : ℕ), |m| < 2 ^ 53 ∧ e ≤ 2045 ∧ x = (m : ℝ) * 2 ^ e / 2 ^ 1074

/-- The rounding of the default IEEE 754 mode: `fl x` is a double nearest to the
real number `x` (how ties are broken is left open; infinities and NaN are not
represented). -/
def RoundsToNearest (fl : ℝ → ℝ) : Prop :=
  ∀ x : ℝ, IsDouble (fl x) ∧ ∀ y : ℝ, IsDouble y → |x - fl x| ≤ |x - y|

/-- The functions of `math.h` called by `os_lat_lon_to_tm_eas_nor`, as functions
on doubles; nothing is assumed of their accuracy. -/
structure math_h (K : Type) where
  sin : K → K
  cos : K → K
  tan : K → K
  sqrt : K → K
  pow : K → K → K

/-- Modelled from the spec: the macro `DEG_2_RAD` (header `os_coord_math.h`),
`x * PI / 180`, evaluated in doubles: every operation is followed by the rounding
`fl`. -/
def DEG_2_RAD_fl {K : Type} [Field K] (fl : K → K) (PI : K) (x : K) : K :=
  fl (fl (x * PI) / 180)

/-- Function `os_lat_lon_to_tm_eas_nor` as the machine runs it: the same
statements as `os_lat_lon_to_tm_eas_nor`, in the evaluation order of C, with the
result of every arithmetic operation rounded to a double by `fl` (no operation is
fused and none is kept in a wider format) and the library functions taken from
`m`.  The integral literals and `1.5` are doubles and are written as they are; the
constant quotients `5.0/4.0`, `21.0/8.0`, `15.0/8.0` and `35.0/24.0` are rounded.
The function is stated over any field, so that it runs on rational numbers. -/
def os_lat_lon_to_tm_eas_nor_fl {K : Type} [Field K] (fl : K → K) (m : math_h K) (PI : K)
    (point : os_lat_lon_t K) (projection : os_tm_projection_t K) : os_eas_nor_t K :=
  let add := fun x y : K => fl (x + y)
  let sub := fun x y : K => fl (x - y)
  let mul := fun x y : K => fl (x * y)
  let div := fun x y : K => fl (x / y)
  let lat0 := DEG_2_RAD_fl fl PI projection.lat0
  let lon0 := DEG_2_RAD_fl fl PI projection.lon0
  let lat := point.lat
  let lon := point.lon
  let a := projection.ellipsoid.a
  let b := projection.ellipsoid.b
  let e2 := sub 1 (div (mul b b) (mul a a))
  let n := div (sub a b) (add a b)
  let n2 := mul n n
  let n3 := mul (mul n n) n
  let cosLat := m.cos lat
  let sinLat := m.sin lat
  let nu := div (mul a projection.f0) (m.sqrt (sub 1 (mul (mul e2 sinLat) sinLat)))
  let rho := div (mul (mul a projection.f0) (sub 1 e2))
    (m.pow (sub 1 (mul (mul e2 sinLat) sinLat)) (3 / 2))
  let eta2 := sub (div nu rho) 1
  let Ma := mul (add (add (add 1 n) (mul (fl (5 / 4)) n2)) (mul (fl (5 / 4)) n3)) (sub lat lat0)
  let Mb := mul (mul (add (add (mul 3 n) (mul (mul 3 n) n)) (mul (fl (21 / 8)) n3))
    (m.sin (sub lat lat0))) (m.cos (add lat lat0))
  let Mc := mul (mul (add (mul (fl (15 / 8)) n2) (mul (fl (15 / 8)) n3))
    (m.sin (mul 2 (sub lat lat0)))) (m.cos (mul 2 (add lat lat0)))
  let Md := mul (mul (mul (fl (35 / 24)) n3) (m.sin (mul 3 (sub lat lat0))))
    (m.cos (mul 3 (add lat lat0)))
  let M := mul (mul b projection.f0) (sub (add (sub Ma Mb) Mc) Md)
  let cos3lat := mul (mul cosLat cosLat) cosLat
  let cos5lat := mul (mul cos3lat cosLat) cosLat
  let tan2lat := mul (m.tan lat) (m.tan lat)
  let tan4lat := mul tan2lat tan2lat
  let I := add M projection.n0
  let II := mul (mul (div nu 2) sinLat) cosLat
  let III := mul (mul (mul (div nu 24) sinLat) cos3lat) (add (sub 5 tan2lat) (mul 9 eta2))
  let IIIA := mul (mul (mul (div nu 720) sinLat) cos5lat)
    (add (sub 61 (mul 58 tan2lat)) tan4lat)
  let IV := mul nu cosLat
  let V := mul (mul (div nu 6) cos3lat) (sub (div nu rho) tan2lat)
  let VI := mul (mul (div nu 120) cos5lat)
    (sub (add (add (sub 5 (mul 18 tan2lat)) tan4lat) (mul 14 eta2))
      (mul (mul 58 tan2lat) eta2))
  let dLon := sub lon lon0
  let dLon2 := mul dLon dLon
  let dLon3 := mul dLon2 dLon
  let dLon4 := mul dLon3 dLon
  let dLon5 := mul dLon4 dLon
  let dLon6 := mul dLon5 dLon
  { n := add (add (add I (mul II dLon2)) (mul III dLon4)) (mul IIIA dLon6)
    e := add (add (add projection.e0 (mul IV dLon)) (mul V dLon3)) (mul VI dLon5)
    h := point.eh }

/-- A projection of the unit sphere: `a = b = 1`, scale factor 1, true origin at
latitude and longitude 0 with easting 0 and northing 1. -/
noncomputable def UNIT_SPHERE_TM : os_tm_projection_t ℝ :=
  { ellipsoid := { a := 1, b := 1 }, e0 := 0, n0 := 1, f0 := 1, lat0 := 0, lon0 := 0 }

/-! # Theorems -/

/-! ## Character constants -/

theorem chr_A : chr 'A' = 65 := by decide
theorem chr_I : chr 'I' = 73 := by decide
theorem chr_J : chr 'J' = 74 := by decide
theorem chr_Z : chr 'Z' = 90 := by decide
theorem chr_NUL : chr '\x00' = 0 := by decide

theorem wideEnough_id : WideEnough id := fun _ _ _ => rfl

theorem wideEnough_u32 : WideEnough u32 := by
  intro z h0 h1
  unfold u32
  omega

/-- Value of `I2C` on a 5x5 index. -/
theorem I2C_eq (w : Int → Int) (hw : WideEnough w) (i : Int) (h0 : 0 ≤ i) (h24 : i ≤ 24) :
    I2C w i = if i ≥ 8 then 66 + i else 65 + i := by
  unfold I2C
  rw [chr_A]
  split_ifs with h
  · rw [hw (i + 1) (by omega) (by omega), hw _ (by omega) (by omega)]; ring
  · rw [hw _ (by omega) (by omega)]

/-- Value of `C2I` on an upper-case letter. -/
theorem C2I_eq (w : Int → Int) (hw : WideEnough w) (c : Int) (h0 : 65 ≤ c) (h1 : c ≤ 90) :
    C2I w c = if c > 73 then c - 66 else c - 65 := by
  unfold C2I
  rw [chr_A, chr_I, hw (c - 65) (by omega) (by omega)]
  split_ifs with h
  · rw [hw _ (by omega) (by omega)]; ring
  · rw [hw _ (by omega) (by omega)]; ring

/-- **C6**: for every index `0 <= i <= 24` of the 5x5 square the letter `I2C(i)`
is never `'I'`; it is `'A' + i` for `i <= 7` and `'J' + (i - 8)` for `i >= 8`, and
`I2C(24) = 'Z'`.  This holds for the macro expanded at `int` and at
`unsigned int` (any integer type `w` wide enough). -/
theorem I2C_skips_I (w : Int → Int) (hw : WideEnough w) (i : Int) (h0 : 0 ≤ i) (h24 : i ≤ 24) :
    I2C w i ≠ chr 'I' ∧ (i ≤ 7 → I2C w i = chr 'A' + i) ∧
      (8 ≤ i → I2C w i = chr 'J' + (i - 8)) ∧ I2C w 24 = chr 'Z' := by
  rw [I2C_eq w hw i h0 h24, I2C_eq w hw 24 (by norm_num) (by norm_num), chr_A, chr_I, chr_J,
    chr_Z]
  refine ⟨?_, ?_, ?_, ?_⟩
  · split_ifs <;> omega
  · intro h; rw [if_neg (by omega)]
  · intro h; rw [if_pos (by omega)]; ring
  · norm_num

theorem I2C_skips_I_witness :
    WideEnough u32 ∧ (0 : Int) ≤ 17 ∧ (17 : Int) ≤ 24 ∧ I2C u32 17 ≠ chr 'I' ∧
      ((17 : Int) ≤ 7 → I2C u32 17 = chr 'A' + 17) ∧
      ((8 : Int) ≤ 17 → I2C u32 17 = chr 'J' + (17 - 8)) ∧ I2C u32 24 = chr 'Z' :=
  ⟨wideEnough_u32, by decide, by decide,
    I2C_skips_I u32 wideEnough_u32 17 (by decide) (by decide)⟩

/-- **C7**: `C2I` is the exact inverse of `I2C`: `C2I(I2C(i)) = i` for every index
`0 <= i <= 24`, and for every upper-case letter `c` other than `'I'` the index
`C2I(c)` lies in `0..24` and `I2C(C2I(c)) = c`. -/
theorem C2I_I2C_inverse (w : Int → Int) (hw : WideEnough w) :
    (∀ i : Int, 0 ≤ i → i ≤ 24 → C2I w (I2C w i) = i) ∧
      (∀ c : Int, chr 'A' ≤ c → c ≤ chr 'Z' → c ≠ chr 'I' →
        0 ≤ C2I w c ∧ C2I w c ≤ 24 ∧ I2C w (C2I w c) = c) := by
  rw [chr_A, chr_I, chr_Z]
  constructor
  · intro i h0 h24
    rw [I2C_eq w hw i h0 h24]
    split_ifs with h
    · rw [C2I_eq w hw _ (by omega) (by omega), if_pos (by omega)]; ring
    · rw [C2I_eq w hw _ (by omega) (by omega), if_neg (by omega)]; ring
  · intro c hA hZ hI
    rw [C2I_eq w hw c hA hZ]
    split_ifs with h
    · refine ⟨by omega, by omega, ?_⟩
      rw [I2C_eq w hw _ (by omega) (by omega), if_pos (by omega)]; ring
    · refine ⟨by omega, by omega, ?_⟩
      rw [I2C_eq w hw _ (by omega) (by omega), if_neg (by omega)]; ring

theorem C2I_I2C_inverse_witness :
    WideEnough id ∧ (∀ i : Int, 0 ≤ i → i ≤ 24 → C2I id (I2C id i) = i) ∧
      (∀ c : Int, chr 'A' ≤ c → c ≤ chr 'Z' → c ≠ chr 'I' →
        0 ≤ C2I id c ∧ C2I id c ≤ 24 ∧ I2C id (C2I id c) = c) :=
  ⟨wideEnough_id, C2I_I2C_inverse id wideEnough_id⟩

/-! ## The conversion to `unsigned int` -/

section Real

variable {K : Type} [LinearOrderedField K] [FloorRing K]

theorem toUnsigned_of_nonneg (v : K) (h0 : 0 ≤ v) (h1 : v < 4294967296) :
    toUnsigned v = some ⌊v⌋ := by
  have : (-1 : K) < v := lt_of_lt_of_le (by norm_num) h0
  simp [toUnsigned, trunc, this, h0, h1]

omit [FloorRing K] in
theorem div_lt_range (e : K) (h1 : e < 4294967296 * 100000) : e / 100000 < 4294967296 := by
  rw [div_lt_iff₀ (by norm_num)]
  exact h1

/-- **C1**: for a point with `0 <= e, n < 2^32 * 100000` whose 100 km square
`sq_x = floor(e/100000)`, `sq_y = floor(n/100000)` has `sq_x >= grid.width` or
`sq_y >= grid.height`, the result is the invalid sentinel: every character of the
code is `'\0'` and the remainders `e`, `n` and the height `h` are all 0 (the
height of the point is not copied).  The hypotheses `width > 0`, `height > 0` of
the data model are not needed. -/
theorem grid_ref_out_of_grid (point : os_eas_nor_t K) (grid : os_grid_t)
    (he0 : 0 ≤ point.e) (he1 : point.e < 4294967296 * 100000)
    (hn0 : 0 ≤ point.n) (hn1 : point.n < 4294967296 * 100000)
    (hout : (grid.width : Int) ≤ ⌊point.e / 100000⌋ ∨
      (grid.height : Int) ≤ ⌊point.n / 100000⌋) :
    ∃ r, os_eas_nor_to_grid_ref point grid = some r ∧
      (∀ i, r.code i = chr '\x00') ∧ r.e = 0 ∧ r.n = 0 ∧ r.h = 0 := by
  refine ⟨invalid_grid_ref K, ?_, fun _ => rfl, rfl, rfl, rfl⟩
  unfold os_eas_nor_to_grid_ref
  rw [toUnsigned_of_nonneg _ (div_nonneg he0 (by norm_num)) (div_lt_range _ he1),
    toUnsigned_of_nonneg _ (div_nonneg hn0 (by norm_num)) (div_lt_range _ hn1)]
  have : ⌊point.e / 100000⌋ < 0 ∨ ⌊point.n / 100000⌋ < 0 ∨
      ⌊point.e / 100000⌋ ≥ (grid.width : Int) ∨ ⌊point.n / 100000⌋ ≥ (grid.height : Int) := by
    rcases hout with h | h
    · exact Or.inr (Or.inr (Or.inl h))
    · exact Or.inr (Or.inr (Or.inr h))
  simp only [this, if_true]

theorem grid_ref_out_of_grid_witness :
    ((0 : ℚ) ≤ 700000 ∧ (700000 : ℚ) < 4294967296 * 100000 ∧
      (0 : ℚ) ≤ 100000 ∧ (100000 : ℚ) < 4294967296 * 100000 ∧
      ((OS_GR_NATIONAL_GRID.width : Int) ≤ ⌊(700000 : ℚ) / 100000⌋ ∨
        (OS_GR_NATIONAL_GRID.height : Int) ≤ ⌊(100000 : ℚ) / 100000⌋)) ∧
    ∃ r, os_eas_nor_to_grid_ref ({ e := 700000, n := 100000, h := 25 } : os_eas_nor_t ℚ)
        OS_GR_NATIONAL_GRID = some r ∧
      (∀ i, r.code i = chr '\x00') ∧ r.e = 0 ∧ r.n = 0 ∧ r.h = 0 :=
  have hout : (OS_GR_NATIONAL_GRID.width : Int) ≤ ⌊(700000 : ℚ) / 100000⌋ ∨
      (OS_GR_NATIONAL_GRID.height : Int) ≤ ⌊(100000 : ℚ) / 100000⌋ := by
    left
    have h7 : ⌊(700000 : ℚ) / 100000⌋ = 7 := by
      rw [Int.floor_eq_iff]; norm_num
    rw [h7]
    decide
  ⟨⟨by norm_num, by norm_num, by norm_num, by norm_num, hout⟩,
   grid_ref_out_of_grid ({ e := 700000, n := 100000, h := 25 } : os_eas_nor_t ℚ)
    OS_GR_NATIONAL_GRID (by norm_num) (by norm_num) (by norm_num) (by norm_num) hout⟩

/-- The result for a point whose two conversions are defined and whose square
passes the bounds check. -/
theorem grid_ref_of_square (point : os_eas_nor_t K) (grid : os_grid_t) (sq_x sq_y : Int)
    (hx : toUnsigned (point.e / 100000) = some sq_x)
    (hy : toUnsigned (point.n / 100000) = some sq_y)
    (hx0 : 0 ≤ sq_x) (hy0 : 0 ≤ sq_y) (hxw : sq_x < grid.width) (hyh : sq_y < grid.height) :
    os_eas_nor_to_grid_ref point grid =
      some { code := digit_loop grid grid.num_digits sq_x sq_y (invalid_grid_ref K).code
             e := fmod point.e 100000
             n := fmod point.n 100000
             h := point.h } := by
  unfold os_eas_nor_to_grid_ref
  rw [hx, hy]
  have : ¬ (sq_x < 0 ∨ sq_y < 0 ∨ sq_x ≥ (grid.width : Int) ∨ sq_y ≥ (grid.height : Int)) := by
    omega
  simp only [this, if_false]

/-- **C4**: on the British national grid (2 letters, 7 x 13 squares, first letter
`'S'`) the point with easting 651409.903 and northing 313177.270 gets the code
`"TG"` (`code[0] = 'T'`, `code[1] = 'G'`, then the terminator), the remainders
51409.903 and 13177.270, and its height unchanged. -/
theorem grid_ref_TG (h : K) :
    ∃ r, os_eas_nor_to_grid_ref ⟨651409903 / 1000, 313177270 / 1000, h⟩ OS_GR_NATIONAL_GRID
        = some r ∧
      r.code 0 = chr 'T' ∧ r.code 1 = chr 'G' ∧ r.code 2 = chr '\x00' ∧
      r.e = 51409903 / 1000 ∧ r.n = 13177270 / 1000 ∧ r.h = h := by
  have hx : toUnsigned ((651409903 / 1000 : K) / 100000) = some 6 := by
    rw [toUnsigned_of_nonneg _ (by norm_num) (by norm_num)]
    congr 1
    rw [Int.floor_eq_iff]
    norm_num
  have hy : toUnsigned ((313177270 / 1000 : K) / 100000) = some 3 := by
    rw [toUnsigned_of_nonneg _ (by norm_num) (by norm_num)]
    congr 1
    rw [Int.floor_eq_iff]
    norm_num
  have hfx : trunc ((651409903 / 1000 : K) / 100000) = 6 := by
    unfold trunc
    rw [if_pos (by norm_num), Int.floor_eq_iff]
    norm_num
  have hfy : trunc ((313177270 / 1000 : K) / 100000) = 3 := by
    unfold trunc
    rw [if_pos (by norm_num), Int.floor_eq_iff]
    norm_num
  refine ⟨_, grid_ref_of_square _ OS_GR_NATIONAL_GRID 6 3 hx hy (by decide) (by decide)
    (by decide) (by decide), ?_, ?_, ?_, ?_, ?_, rfl⟩
  · show digit_loop OS_GR_NATIONAL_GRID 2 6 3 (fun _ => chr '\x00') 0 = chr 'T'
    decide
  · show digit_loop OS_GR_NATIONAL_GRID 2 6 3 (fun _ => chr '\x00') 1 = chr 'G'
    decide
  · show digit_loop OS_GR_NATIONAL_GRID 2 6 3 (fun _ => chr '\x00') 2 = chr '\x00'
    decide
  · show fmod (651409903 / 1000 : K) 100000 = 51409903 / 1000
    unfold fmod
    rw [hfx]
    norm_num
  · show fmod (313177270 / 1000 : K) 100000 = 13177270 / 1000
    unfold fmod
    rw [hfy]
    norm_num

end Real

/-! ## The letters written by the loop -/

/-- A cell `(x, y)` of the 5x5 square is lettered with an upper-case letter other
than `'I'`. -/
theorem cell_letter (x y : Int) (hx0 : 0 ≤ x) (hx4 : x ≤ 4) (hy0 : 0 ≤ y) (hy4 : y ≤ 4) :
    chr 'A' ≤ toChar (I2C u32 (XY2I u32 x y)) ∧ toChar (I2C u32 (XY2I u32 x y)) ≤ chr 'Z' ∧
      toChar (I2C u32 (XY2I u32 x y)) ≠ chr 'I' := by
  have hi : XY2I u32 x y = x + (4 - y) * 5 := by
    unfold XY2I u32
    omega
  have h0 : 0 ≤ x + (4 - y) * 5 := by omega
  have h24 : x + (4 - y) * 5 ≤ 24 := by omega
  rw [hi, I2C_eq u32 wideEnough_u32 _ h0 h24, chr_A, chr_Z, chr_I]
  unfold toChar
  split_ifs <;> omega

/-- The offsets of the first letter lie in the 5x5 square. -/
theorem first_char_offsets (c : Int) (hA : chr 'A' ≤ c) (hZ : c ≤ chr 'Z') :
    0 ≤ I2X id (C2I id c) ∧ I2X id (C2I id c) ≤ 4 ∧
      0 ≤ I2Y id (C2I id c) ∧ I2Y id (C2I id c) ≤ 4 := by
  rw [chr_A] at hA
  rw [chr_Z] at hZ
  have h0 : 0 ≤ C2I id c := by
    rw [C2I_eq id wideEnough_id c hA hZ]; split_ifs <;> omega
  have h24 : C2I id c ≤ 24 := by
    rw [C2I_eq id wideEnough_id c hA hZ]; split_ifs <;> omega
  unfold I2X I2Y
  simp only [id]
  rw [Int.tmod_eq_emod h0 (by norm_num), Int.tdiv_eq_ediv h0 (by norm_num)]
  omega

/-- Two successive integer divisions of a non-negative value. -/
theorem ediv_ediv_of_nonneg (a b c : Int) (ha : 0 ≤ a) (hb : 0 ≤ b) (hc : 0 ≤ c) :
    a / b / c = a / (b * c) := by
  lift a to ℕ using ha
  lift b to ℕ using hb
  lift c to ℕ using hc
  norm_cast
  exact Nat.div_div_eq_div_mul a b c

/-- Closed form of the loop: `code[j]` for `j < k` is the letter of the `j`-th
base-5 digit pair counted from the most significant of `k`, the rest of the
buffer is untouched. -/
theorem digit_loop_spec (grid : os_grid_t) :
    ∀ (k : Nat) (sq_x sq_y : Int) (code : Nat → Int),
      0 ≤ sq_x → sq_x < 4294967296 → 0 ≤ sq_y → sq_y < 4294967296 →
      ∀ j : Nat, digit_loop grid k sq_x sq_y code j =
        if j < k then digit_letter grid j (sq_x / 5 ^ (k - 1 - j)) (sq_y / 5 ^ (k - 1 - j))
        else code j := by
  intro k
  induction k with
  | zero => intro sq_x sq_y code _ _ _ _ j; simp [digit_loop]
  | succ k ih =>
    intro sq_x sq_y code hx0 hx1 hy0 hy1 j
    have ux : u32 (sq_x / 5) = sq_x / 5 := by unfold u32; omega
    have uy : u32 (sq_y / 5) = sq_y / 5 := by unfold u32; omega
    rw [digit_loop, ux, uy, ih (sq_x / 5) (sq_y / 5) _ (by omega) (by omega) (by omega)
      (by omega) j]
    by_cases hjk : j < k
    · have e1 : k + 1 - 1 - j = (k - 1 - j) + 1 := by omega
      have h5 : (0 : Int) ≤ 5 ^ (k - 1 - j) := by positivity
      rw [if_pos hjk, if_pos (by omega), e1, pow_succ, mul_comm,
        ediv_ediv_of_nonneg _ 5 _ hx0 (by norm_num) h5,
        ediv_ediv_of_nonneg _ 5 _ hy0 (by norm_num) h5]
    · rw [if_neg hjk]
      by_cases hj : j = k
      · subst hj
        simp
      · rw [if_neg hj, if_neg (by omega)]

/-- The letter of one pass of the loop is an upper-case letter other than `'I'`
as soon as the offset cell stays inside the 5x5 square. -/
theorem digit_letter_is_letter (grid : os_grid_t) (i : Nat) (sq_x sq_y : Int)
    (hA : chr 'A' ≤ grid.bottom_left_first_char) (hZ : grid.bottom_left_first_char ≤ chr 'Z')
    (hfx : i = 0 → I2X id (C2I id grid.bottom_left_first_char) + sq_x % 5 ≤ 4)
    (hfy : i = 0 → I2Y id (C2I id grid.bottom_left_first_char) + sq_y % 5 ≤ 4) :
    chr 'A' ≤ digit_letter grid i sq_x sq_y ∧ digit_letter grid i sq_x sq_y ≤ chr 'Z' ∧
      digit_letter grid i sq_x sq_y ≠ chr 'I' := by
  obtain ⟨ox0, _, oy0, _⟩ := first_char_offsets grid.bottom_left_first_char hA hZ
  have mx0 : 0 ≤ sq_x % 5 := Int.emod_nonneg _ (by norm_num)
  have mx4 : sq_x % 5 < 5 := Int.emod_lt_of_pos _ (by norm_num)
  have my0 : 0 ≤ sq_y % 5 := Int.emod_nonneg _ (by norm_num)
  have my4 : sq_y % 5 < 5 := Int.emod_lt_of_pos _ (by norm_num)
  unfold digit_letter
  by_cases hi : i = 0
  · have hx := hfx hi
    have hy := hfy hi
    simp only [hi, if_true]
    have ex : u32 (I2X id (C2I id grid.bottom_left_first_char) + u32 (sq_x % 5)) =
        I2X id (C2I id grid.bottom_left_first_char) + sq_x % 5 := by
      unfold u32; omega
    have ey : u32 (I2Y id (C2I id grid.bottom_left_first_char) + u32 (sq_y % 5)) =
        I2Y id (C2I id grid.bottom_left_first_char) + sq_y % 5 := by
      unfold u32; omega
    rw [ex, ey]
    exact cell_letter _ _ (by omega) hx (by omega) hy
  · simp only [hi, if_false]
    have ex : u32 (0 + u32 (sq_x % 5)) = sq_x % 5 := by unfold u32; omega
    have ey : u32 (0 + u32 (sq_y % 5)) = sq_y % 5 := by unfold u32; omega
    rw [ex, ey]
    exact cell_letter _ _ mx0 (by omega) my0 (by omega)

section Real

variable {K : Type} [LinearOrderedField K] [FloorRing K]

/-- The square of a point with non-negative coordinates that passes the bounds
check, and the result of the function there. -/
theorem grid_ref_in_grid (point : os_eas_nor_t K) (grid : os_grid_t)
    (hW : grid.width < 4294967296) (hH : grid.height < 4294967296)
    (he0 : 0 ≤ point.e) (hn0 : 0 ≤ point.n)
    (hx : ⌊point.e / 100000⌋ < (grid.width : Int))
    (hy : ⌊point.n / 100000⌋ < (grid.height : Int)) :
    os_eas_nor_to_grid_ref point grid =
      some { code := digit_loop grid grid.num_digits ⌊point.e / 100000⌋ ⌊point.n / 100000⌋
               (invalid_grid_ref K).code
             e := fmod point.e 100000
             n := fmod point.n 100000
             h := point.h } := by
  have ex0 : (0 : K) ≤ point.e / 100000 := div_nonneg he0 (by norm_num)
  have ey0 : (0 : K) ≤ point.n / 100000 := div_nonneg hn0 (by norm_num)
  have ex1 : point.e / 100000 < 4294967296 := by
    have : ⌊point.e / 100000⌋ < (4294967296 : Int) := by omega
    have := Int.floor_lt.mp this
    exact_mod_cast this
  have ey1 : point.n / 100000 < 4294967296 := by
    have : ⌊point.n / 100000⌋ < (4294967296 : Int) := by omega
    have := Int.floor_lt.mp this
    exact_mod_cast this
  exact grid_ref_of_square point grid _ _ (toUnsigned_of_nonneg _ ex0 ex1)
    (toUnsigned_of_nonneg _ ey0 ey1) (Int.floor_nonneg.mpr ex0) (Int.floor_nonneg.mpr ey0) hx hy

/-- **C3** (amended): for every grid (`width`, `height` in the range of
`unsigned int`) whose `bottom_left_first_char` is an upper-case letter, and every
point with `e, n >= 0` whose square passes the bounds check and whose leading
base-5 digits, moved by the offsets of the first letter, stay inside the 5x5
letter square (`off_x + (sq_x / 5^(d-1)) % 5 <= 4` and the same for `y`), the first
`num_digits` characters of the code are upper-case letters other than `'I'`. -/
theorem grid_ref_letters (point : os_eas_nor_t K) (grid : os_grid_t)
    (hW : grid.width < 4294967296) (hH : grid.height < 4294967296)
    (hA : chr 'A' ≤ grid.bottom_left_first_char) (hZ : grid.bottom_left_first_char ≤ chr 'Z')
    (he0 : 0 ≤ point.e) (hn0 : 0 ≤ point.n)
    (hx : ⌊point.e / 100000⌋ < (grid.width : Int))
    (hy : ⌊point.n / 100000⌋ < (grid.height : Int))
    (hfx : I2X id (C2I id grid.bottom_left_first_char) +
      ⌊point.e / 100000⌋ / 5 ^ (grid.num_digits - 1) % 5 ≤ 4)
    (hfy : I2Y id (C2I id grid.bottom_left_first_char) +
      ⌊point.n / 100000⌋ / 5 ^ (grid.num_digits - 1) % 5 ≤ 4) :
    ∃ r, os_eas_nor_to_grid_ref point grid = some r ∧
      ∀ i, i < grid.num_digits →
        chr 'A' ≤ r.code i ∧ r.code i ≤ chr 'Z' ∧ r.code i ≠ chr 'I' := by
  refine ⟨_, grid_ref_in_grid point grid hW hH he0 hn0 hx hy, ?_⟩
  intro i hi
  have sx0 : 0 ≤ ⌊point.e / 100000⌋ := Int.floor_nonneg.mpr (div_nonneg he0 (by norm_num))
  have sy0 : 0 ≤ ⌊point.n / 100000⌋ := Int.floor_nonneg.mpr (div_nonneg hn0 (by norm_num))
  show chr 'A' ≤ digit_loop grid grid.num_digits _ _ _ i ∧
    digit_loop grid grid.num_digits _ _ _ i ≤ chr 'Z' ∧
    digit_loop grid grid.num_digits _ _ _ i ≠ chr 'I'
  rw [digit_loop_spec grid grid.num_digits _ _ _ sx0 (by omega) sy0 (by omega) i, if_pos hi]
  apply digit_letter_is_letter grid i _ _ hA hZ
  · intro h0
    subst h0
    exact hfx
  · intro h0
    subst h0
    exact hfy

end Real

/-! ## Evaluation at concrete points -/

theorem TG_POINT_square :
    ⌊TG_POINT.e / 100000⌋ = 6 ∧ ⌊TG_POINT.n / 100000⌋ = 3 := by
  constructor
  · rw [Int.floor_eq_iff]; norm_num [TG_POINT]
  · rw [Int.floor_eq_iff]; norm_num [TG_POINT]

theorem grid_ref_letters_witness :
    (0 ≤ TG_POINT.e ∧ 0 ≤ TG_POINT.n ∧
      ⌊TG_POINT.e / 100000⌋ < (OS_GR_NATIONAL_GRID.width : Int) ∧
      ⌊TG_POINT.n / 100000⌋ < (OS_GR_NATIONAL_GRID.height : Int)) ∧
    ∃ r, os_eas_nor_to_grid_ref TG_POINT OS_GR_NATIONAL_GRID = some r ∧
      ∀ i, i < OS_GR_NATIONAL_GRID.num_digits →
        chr 'A' ≤ r.code i ∧ r.code i ≤ chr 'Z' ∧ r.code i ≠ chr 'I' :=
  have he0 : 0 ≤ TG_POINT.e := by norm_num [TG_POINT]
  have hn0 : 0 ≤ TG_POINT.n := by norm_num [TG_POINT]
  have hx : ⌊TG_POINT.e / 100000⌋ < (OS_GR_NATIONAL_GRID.width : Int) := by
    rw [TG_POINT_square.1]; decide
  have hy : ⌊TG_POINT.n / 100000⌋ < (OS_GR_NATIONAL_GRID.height : Int) := by
    rw [TG_POINT_square.2]; decide
  ⟨⟨he0, hn0, hx, hy⟩,
   grid_ref_letters TG_POINT OS_GR_NATIONAL_GRID (by decide) (by decide) (by decide) (by decide)
    he0 hn0 hx hy (by rw [TG_POINT_square.1]; decide) (by rw [TG_POINT_square.2]; decide)⟩

/-- Counterexample to **C3** as stated: the grid `GRID_A` satisfies the invariants
of the data model and its first character is a letter other than `'I'`; the
point `e = 0`, `n = 100000` lies in square `(0, 1)`, inside the grid; the function
returns the character `'='` as `code[0]`, which is not an upper-case letter. -/
theorem grid_ref_letters_counterexample :
    (1 ≤ GRID_A.num_digits ∧ 0 < GRID_A.width ∧ 0 < GRID_A.height ∧
      chr 'A' ≤ GRID_A.bottom_left_first_char ∧ GRID_A.bottom_left_first_char ≤ chr 'Z' ∧
      GRID_A.bottom_left_first_char ≠ chr 'I' ∧
      ⌊(0 : ℚ) / 100000⌋ = 0 ∧ ⌊(100000 : ℚ) / 100000⌋ = 1) ∧
    ∃ r, os_eas_nor_to_grid_ref ({ e := 0, n := 100000, h := 0 } : os_eas_nor_t ℚ) GRID_A
        = some r ∧
      r.code 0 = chr '=' ∧ ¬ (chr 'A' ≤ r.code 0 ∧ r.code 0 ≤ chr 'Z') := by
  have f0 : ⌊(0 : ℚ) / 100000⌋ = 0 := by norm_num
  have f1 : ⌊(100000 : ℚ) / 100000⌋ = 1 := by norm_num
  refine ⟨⟨by decide, by decide, by decide, by decide, by decide, by decide, f0, f1⟩, ?_⟩
  have hr := grid_ref_in_grid ({ e := 0, n := 100000, h := 0 } : os_eas_nor_t ℚ) GRID_A
    (by decide) (by decide) (by norm_num) (by norm_num)
    (by show ⌊(0 : ℚ) / 100000⌋ < _; rw [f0]; decide)
    (by show ⌊(100000 : ℚ) / 100000⌋ < _; rw [f1]; decide)
  refine ⟨_, hr, ?_, ?_⟩
  · show digit_loop GRID_A 1 ⌊(0 : ℚ) / 100000⌋ ⌊(100000 : ℚ) / 100000⌋
      (fun _ => chr '\x00') 0 = chr '='
    rw [f0, f1]
    decide
  · show ¬ (chr 'A' ≤ digit_loop GRID_A 1 ⌊(0 : ℚ) / 100000⌋ ⌊(100000 : ℚ) / 100000⌋
        (fun _ => chr '\x00') 0 ∧
      digit_loop GRID_A 1 ⌊(0 : ℚ) / 100000⌋ ⌊(100000 : ℚ) / 100000⌋
        (fun _ => chr '\x00') 0 ≤ chr 'Z')
    rw [f0, f1]
    decide

theorem toUnsigned_neg_half : toUnsigned ((-50000 : ℚ) / 100000) = some 0 := by
  have h : ⌈(-50000 : ℚ) / 100000⌉ = 0 := by
    rw [Int.ceil_eq_iff]; norm_num
  have h1 : (-1 : ℚ) < -50000 / 100000 ∧ (-50000 : ℚ) / 100000 < 4294967296 := by
    constructor <;> norm_num
  have h2 : ¬ ((0 : ℚ) ≤ -50000 / 100000) := by norm_num
  unfold toUnsigned trunc
  rw [if_pos h1, if_neg h2, h]

theorem toUnsigned_neg_quarter : toUnsigned ((-25000 : ℚ) / 100000) = some 0 := by
  have h : ⌈(-25000 : ℚ) / 100000⌉ = 0 := by
    rw [Int.ceil_eq_iff]; norm_num
  have h1 : (-1 : ℚ) < -25000 / 100000 ∧ (-25000 : ℚ) / 100000 < 4294967296 := by
    constructor <;> norm_num
  have h2 : ¬ ((0 : ℚ) ≤ -25000 / 100000) := by norm_num
  unfold toUnsigned trunc
  rw [if_pos h1, if_neg h2, h]

theorem toUnsigned_zero : toUnsigned ((0 : ℚ) / 100000) = some 0 := by
  rw [toUnsigned_of_nonneg _ (by norm_num) (by norm_num)]
  norm_num

theorem fmod_neg_half : fmod (-50000 : ℚ) 100000 = -50000 := by
  have h : ⌈(-50000 : ℚ) / 100000⌉ = 0 := by
    rw [Int.ceil_eq_iff]; norm_num
  have h2 : ¬ ((0 : ℚ) ≤ -50000 / 100000) := by norm_num
  unfold fmod trunc
  rw [if_neg h2, h]
  norm_num

theorem fmod_neg_quarter : fmod (-25000 : ℚ) 100000 = -25000 := by
  have h : ⌈(-25000 : ℚ) / 100000⌉ = 0 := by
    rw [Int.ceil_eq_iff]; norm_num
  have h2 : ¬ ((0 : ℚ) ≤ -25000 / 100000) := by norm_num
  unfold fmod trunc
  rw [if_neg h2, h]
  norm_num

/-- **C2** (the code at the failing input): on the British national grid the
point with easting -50000 and northing 0 does not get the invalid sentinel: the
conversion to `unsigned int` truncates `-0.5` to 0, the test `sq_x < 0` never
holds, and the code `"SV"` of square `(0, 0)` is returned. -/
theorem grid_ref_negative_easting :
    ∃ r, os_eas_nor_to_grid_ref ({ e := -50000, n := 0, h := 0 } : os_eas_nor_t ℚ)
        OS_GR_NATIONAL_GRID = some r ∧
      r.code 0 = chr 'S' ∧ r.code 1 = chr 'V' ∧ r.code 0 ≠ chr '\x00' := by
  refine ⟨_, grid_ref_of_square _ OS_GR_NATIONAL_GRID 0 0 toUnsigned_neg_half toUnsigned_zero
    (by decide) (by decide) (by decide) (by decide), ?_, ?_, ?_⟩
  · show digit_loop OS_GR_NATIONAL_GRID 2 0 0 (fun _ => chr '\x00') 0 = chr 'S'
    decide
  · show digit_loop OS_GR_NATIONAL_GRID 2 0 0 (fun _ => chr '\x00') 1 = chr 'V'
    decide
  · show digit_loop OS_GR_NATIONAL_GRID 2 0 0 (fun _ => chr '\x00') 0 ≠ chr '\x00'
    decide

/-- **C5** (the code at the failing input): on the British national grid the
point with easting -50000 and northing -25000 gets a valid code (`code[0] = 'S'`)
and the remainders -50000 and -25000, both negative: `fmod` keeps the sign of its
first argument. -/
theorem grid_ref_negative_remainder :
    ∃ r, os_eas_nor_to_grid_ref ({ e := -50000, n := -25000, h := 0 } : os_eas_nor_t ℚ)
        OS_GR_NATIONAL_GRID = some r ∧
      r.code 0 = chr 'S' ∧ r.e = -50000 ∧ r.n = -25000 ∧ r.e < 0 ∧ r.n < 0 := by
  refine ⟨_, grid_ref_of_square _ OS_GR_NATIONAL_GRID 0 0 toUnsigned_neg_half
    toUnsigned_neg_quarter (by decide) (by decide) (by decide) (by decide), ?_, ?_, ?_, ?_, ?_⟩
  · show digit_loop OS_GR_NATIONAL_GRID 2 0 0 (fun _ => chr '\x00') 0 = chr 'S'
    decide
  · exact fmod_neg_half
  · exact fmod_neg_quarter
  · show fmod (-50000 : ℚ) 100000 < 0
    rw [fmod_neg_half]; norm_num
  · show fmod (-25000 : ℚ) 100000 < 0
    rw [fmod_neg_quarter]; norm_num

/-! ## Further facts on the grid reference -/

section Real

variable {K : Type} [LinearOrderedField K] [FloorRing K]

/-- For a non-negative coordinate the remainder `fmod(x, 100000)` lies in
`[0, 100000)`. -/
theorem fmod_range_of_nonneg (x : K) (hx : 0 ≤ x) :
    0 ≤ fmod x 100000 ∧ fmod x 100000 < 100000 := by
  have h0 : (0 : K) ≤ x / 100000 := div_nonneg hx (by norm_num)
  have h1 := Int.floor_le (x / 100000)
  have h2 := Int.lt_floor_add_one (x / 100000)
  unfold fmod trunc
  rw [if_pos h0]
  constructor
  · nlinarith
  · nlinarith

end Real

/-- A grid that fits into the letter square to the right of and above its first
letter keeps the leading digit of every square of the grid inside the 5x5 square. -/
theorem leading_digit_fits (d : Nat) (off extent sq : Int) (hoff : 0 ≤ off)
    (hsq0 : 0 ≤ sq) (hsq : sq < extent) (hext : extent ≤ 5 ^ (d - 1) * (5 - off)) :
    off + sq / 5 ^ (d - 1) % 5 ≤ 4 := by
  have hpow : (0 : Int) < 5 ^ (d - 1) := by positivity
  have hq0 : 0 ≤ sq / 5 ^ (d - 1) := Int.ediv_nonneg hsq0 hpow.le
  have hlt : sq < (5 - off) * 5 ^ (d - 1) := by
    rw [mul_comm]; exact lt_of_lt_of_le hsq hext
  have hq : sq / 5 ^ (d - 1) < 5 - off := Int.ediv_lt_of_lt_mul hpow hlt
  have hmod : sq / 5 ^ (d - 1) % 5 = sq / 5 ^ (d - 1) :=
    Int.emod_eq_of_lt hq0 (by omega)
  rw [hmod]
  omega

/-! ## The Helmert transform -/

/-- **C8**: a Helmert transform whose seven parameters are all zero returns the
point unchanged. -/
theorem helmert_zero_identity {K : Type} [Field K] (PI : K) (p : os_cartesian_t K) :
    os_helmert_transform PI p { tx := 0, ty := 0, tz := 0, rx := 0, ry := 0, rz := 0, s := 0 }
      = p := by
  cases p
  simp [os_helmert_transform, DEG_2_RAD]

/-- **C9**: `os_helmert_transform` returns
`(tx + x*s1 - y*rz' + z*ry', ty + x*rz' + y*s1 - z*rx', tz - x*ry' + y*rx' + z*s1)`
where `s1 = 1 + s/1000000` and `rx', ry', rz'` are the rotations converted from
arc-seconds to radians, `r * PI / 648000`. -/
theorem helmert_formula {K : Type} [Field K] (PI : K) (p : os_cartesian_t K)
    (t : os_helmert_t K) :
    os_helmert_transform PI p t =
      { x := t.tx + p.x * (1 + t.s / 1000000) - p.y * (t.rz * PI / 648000)
          + p.z * (t.ry * PI / 648000)
        y := t.ty + p.x * (t.rz * PI / 648000) + p.y * (1 + t.s / 1000000)
          - p.z * (t.rx * PI / 648000)
        z := t.tz - p.x * (t.ry * PI / 648000) + p.y * (t.rx * PI / 648000)
          + p.z * (1 + t.s / 1000000) } := by
  have h : ∀ r : K, DEG_2_RAD PI (r / 3600) = r * PI / 648000 := by
    intro r
    unfold DEG_2_RAD
    rw [div_mul_eq_mul_div, div_div]
    norm_num
  simp only [os_helmert_transform, h]

/-! ## The ellipsoid conversions -/

/-- The value of `atan2` at a point of the half-line of angle `θ`. -/
theorem atan2_polar (r θ : ℝ) (hr : 0 < r) (h0 : -Real.pi < θ) (h1 : θ ≤ Real.pi) :
    atan2 (r * Real.sin θ) (r * Real.cos θ) = θ := by
  unfold atan2
  have h : (⟨r * Real.cos θ, r * Real.sin θ⟩ : ℂ) =
      (r : ℂ) * (Complex.cos θ + Complex.sin θ * Complex.I) := by
    apply Complex.ext
    · simp [← Complex.ofReal_cos, ← Complex.ofReal_sin]
    · simp [← Complex.ofReal_cos, ← Complex.ofReal_sin]
  rw [h]
  exact Complex.arg_mul_cos_add_sin_mul_I hr ⟨h0, h1⟩

/-- With a positive first coordinate `atan2` is the arc tangent of the quotient. -/
theorem atan2_of_pos (y x : ℝ) (hx : 0 < x) : atan2 y x = Real.arctan (y / x) := by
  unfold atan2
  have h := Complex.tan_arg (⟨x, y⟩ : ℂ)
  have hlt : |Complex.arg (⟨x, y⟩ : ℂ)| < Real.pi / 2 :=
    Complex.abs_arg_lt_pi_div_two_iff.mpr (Or.inl hx)
  rw [abs_lt] at hlt
  have := Real.arctan_tan hlt.1 hlt.2
  rw [h] at this
  exact this.symm

/-- A monotone self-map of a bounded interval, iterated, has two successive
iterates within any positive distance. -/
theorem monotone_iteration_stalls (F : ℝ → ℝ) (lo hi τ : ℝ) (hτ : 0 < τ)
    (hF : ∀ x, lo ≤ F x ∧ F x ≤ hi)
    (hmono : ∀ x y, lo ≤ x → x ≤ y → y ≤ hi → F x ≤ F y)
    (u0 : ℝ) (h0 : lo ≤ u0 ∧ u0 ≤ hi) :
    ∃ n : Nat, |F^[n + 1] u0 - F^[n] u0| ≤ τ := by
  have hin : ∀ n : Nat, lo ≤ F^[n] u0 ∧ F^[n] u0 ≤ hi := by
    intro n
    cases n with
    | zero => exact h0
    | succ k => rw [Function.iterate_succ_apply']; exact hF _
  by_contra hcon
  push_neg at hcon
  obtain ⟨N, hN⟩ := exists_nat_gt ((hi - lo) / τ)
  have hNτ : hi - lo < N * τ := by
    rw [div_lt_iff₀ hτ] at hN
    exact hN
  rcases le_total u0 (F u0) with hle | hle
  · have hinc : ∀ n : Nat, F^[n] u0 ≤ F^[n + 1] u0 := by
      intro n
      induction n with
      | zero => exact hle
      | succ k ih =>
        have e1 := Function.iterate_succ_apply' F (k + 1) u0
        have e2 := Function.iterate_succ_apply' F k u0
        calc F^[k + 1] u0 = F (F^[k] u0) := e2
          _ ≤ F (F^[k + 1] u0) := hmono _ _ (hin k).1 ih (hin (k + 1)).2
          _ = F^[k + 1 + 1] u0 := e1.symm
    have hgrow : ∀ n : Nat, u0 + n * τ ≤ F^[n] u0 := by
      intro n
      induction n with
      | zero => simp
      | succ k ih =>
        have h1 := hcon k
        rw [abs_of_nonneg (sub_nonneg.mpr (hinc k))] at h1
        push_cast
        linarith
    have := hgrow N
    have := (hin N).2
    linarith [h0.1]
  · have hdec : ∀ n : Nat, F^[n + 1] u0 ≤ F^[n] u0 := by
      intro n
      induction n with
      | zero => exact hle
      | succ k ih =>
        have e1 := Function.iterate_succ_apply' F (k + 1) u0
        have e2 := Function.iterate_succ_apply' F k u0
        calc F^[k + 1 + 1] u0 = F (F^[k + 1] u0) := e1
          _ ≤ F (F^[k] u0) := hmono _ _ (hin (k + 1)).1 ih (hin k).2
          _ = F^[k + 1] u0 := e2.symm
    have hfall : ∀ n : Nat, F^[n] u0 ≤ u0 - n * τ := by
      intro n
      induction n with
      | zero => simp
      | succ k ih =>
        have h1 := hcon k
        rw [abs_of_nonpos (sub_nonpos.mpr (hdec k))] at h1
        push_cast
        linarith
    have := hfall N
    have := (hin N).1
    linarith [h0.2]

/-- The loop returns the first iterate of the body at which the test fails. -/
theorem lat_loop_returns (precision a eSq z p : ℝ) :
    ∀ (n : Nat) (s : lat_loop_state),
      (∀ k, k < n → |((lat_loop_body a eSq z p)^[k] s).phi
        - ((lat_loop_body a eSq z p)^[k] s).phiP| > precision) →
      ¬ (|((lat_loop_body a eSq z p)^[n] s).phi
        - ((lat_loop_body a eSq z p)^[n] s).phiP| > precision) →
      lat_loop precision a eSq z p (n + 1) s = some ((lat_loop_body a eSq z p)^[n] s) := by
  intro n
  induction n with
  | zero =>
    intro s _ hstop
    rw [Function.iterate_zero, id] at hstop
    rw [lat_loop, if_neg hstop, Function.iterate_zero, id]
  | succ k ih =>
    intro s hgo hstop
    have h0 := hgo 0 (Nat.succ_pos k)
    rw [Function.iterate_zero, id] at h0
    rw [lat_loop, if_pos h0, Function.iterate_succ_apply]
    apply ih
    · intro j hj
      have := hgo (j + 1) (Nat.succ_lt_succ hj)
      rw [Function.iterate_succ_apply] at this
      exact this
    · rw [Function.iterate_succ_apply] at hstop
      exact hstop
/-- The squared eccentricity of an ellipsoid with `0 < b <= a` lies in `[0, 1)`. -/
theorem eSq_bounds (a b : ℝ) (hb : 0 < b) (hab : b ≤ a) :
    0 ≤ (a * a - b * b) / (a * a) ∧ (a * a - b * b) / (a * a) < 1 ∧
      1 - (a * a - b * b) / (a * a) = b * b / (a * a) := by
  have ha : 0 < a := lt_of_lt_of_le hb hab
  have haa : 0 < a * a := mul_pos ha ha
  have hbb : 0 < b * b := mul_pos hb hb
  have hle : b * b ≤ a * a := mul_le_mul hab hab hb.le ha.le
  refine ⟨div_nonneg (by linarith) haa.le, ?_, ?_⟩
  · rw [div_lt_one haa]; linarith
  · field_simp

/-- The quantity under the square root of `nu` is positive. -/
theorem one_sub_eSq_sin_pos (e s : ℝ) (he0 : 0 ≤ e) (he1 : e < 1) (hs : s * s ≤ 1) :
    0 < 1 - e * (s * s) := by
  have hss : 0 ≤ s * s := mul_self_nonneg s
  nlinarith

theorem sin_mul_self_le_one (x : ℝ) : Real.sin x * Real.sin x ≤ 1 := by
  have := Real.sin_sq_le_one x
  nlinarith [sq (Real.sin x)]

/-- The radius `nu` is at least the semi-major axis. -/
theorem nu_ge (a e s : ℝ) (ha : 0 < a) (he0 : 0 ≤ e) (he1 : e < 1) (hs : s * s ≤ 1) :
    a ≤ a / Real.sqrt (1 - e * (s * s)) := by
  have hpos := one_sub_eSq_sin_pos e s he0 he1 hs
  have hsq : 0 < Real.sqrt (1 - e * (s * s)) := Real.sqrt_pos.mpr hpos
  have hle : Real.sqrt (1 - e * (s * s)) ≤ 1 := by
    have h1 : 1 - e * (s * s) ≤ 1 := by nlinarith [mul_self_nonneg s]
    calc Real.sqrt (1 - e * (s * s)) ≤ Real.sqrt 1 := Real.sqrt_le_sqrt h1
      _ = 1 := Real.sqrt_one
  rw [le_div_iff₀ hsq]
  nlinarith

/-- The map `s ↦ a / sqrt (1 - e s²) * s` is monotone on `[-1, 1]`. -/
theorem nu_mul_mono (a e s t : ℝ) (ha : 0 < a) (he0 : 0 ≤ e) (he1 : e < 1)
    (hs : -1 ≤ s) (hst : s ≤ t) (ht : t ≤ 1) :
    a / Real.sqrt (1 - e * (s * s)) * s ≤ a / Real.sqrt (1 - e * (t * t)) * t := by
  have hss : s * s ≤ 1 := by nlinarith
  have htt : t * t ≤ 1 := by nlinarith
  have hws := Real.sqrt_pos.mpr (one_sub_eSq_sin_pos e s he0 he1 hss)
  have hwt := Real.sqrt_pos.mpr (one_sub_eSq_sin_pos e t he0 he1 htt)
  have hqs : 0 < a / Real.sqrt (1 - e * (s * s)) := div_pos ha hws
  have hqt : 0 < a / Real.sqrt (1 - e * (t * t)) := div_pos ha hwt
  rcases le_or_lt 0 s with h0 | h0
  · have hsq : s * s ≤ t * t := mul_le_mul hst hst h0 (le_trans h0 hst)
    have hw : Real.sqrt (1 - e * (t * t)) ≤ Real.sqrt (1 - e * (s * s)) :=
      Real.sqrt_le_sqrt (by nlinarith)
    have hq : a / Real.sqrt (1 - e * (s * s)) ≤ a / Real.sqrt (1 - e * (t * t)) :=
      div_le_div_of_nonneg_left ha.le hwt hw
    exact mul_le_mul hq hst h0 hqt.le
  · rcases le_or_lt t 0 with h1 | h1
    · have hsq : t * t ≤ s * s := by nlinarith
      have hw : Real.sqrt (1 - e * (s * s)) ≤ Real.sqrt (1 - e * (t * t)) :=
        Real.sqrt_le_sqrt (by nlinarith)
      have hq : a / Real.sqrt (1 - e * (t * t)) ≤ a / Real.sqrt (1 - e * (s * s)) :=
        div_le_div_of_nonneg_left ha.le hws hw
      calc a / Real.sqrt (1 - e * (s * s)) * s
          ≤ a / Real.sqrt (1 - e * (s * s)) * t := mul_le_mul_of_nonneg_left hst hqs.le
        _ ≤ a / Real.sqrt (1 - e * (t * t)) * t := mul_le_mul_of_nonpos_right hq h1
    · have h2 : a / Real.sqrt (1 - e * (s * s)) * s ≤ 0 :=
        mul_nonpos_of_nonneg_of_nonpos hqs.le h0.le
      have h3 : 0 ≤ a / Real.sqrt (1 - e * (t * t)) * t := mul_nonneg hqt.le h1.le
      linarith

/-- With a positive first coordinate `atan2` stays inside `(-π/2, π/2)`. -/
theorem atan2_mem_of_pos (y x : ℝ) (hx : 0 < x) :
    -(Real.pi / 2) < atan2 y x ∧ atan2 y x < Real.pi / 2 := by
  rw [atan2_of_pos y x hx]
  exact ⟨Real.neg_pi_div_two_lt_arctan _, Real.arctan_lt_pi_div_two _⟩

theorem atan2_mono_of_pos (y1 y2 x : ℝ) (hx : 0 < x) (hy : y1 ≤ y2) :
    atan2 y1 x ≤ atan2 y2 x := by
  rw [atan2_of_pos y1 x hx, atan2_of_pos y2 x hx]
  exact Real.arctan_strictMono.monotone (div_le_div_of_nonneg_right hy hx.le)

/-- The latitude computed by one pass of the loop body is a monotone function of
the latitude it starts from, on `[-π/2, π/2]`. -/
theorem lat_loop_body_mono (a e z p : ℝ) (ha : 0 < a) (he0 : 0 ≤ e) (he1 : e < 1)
    (hp : 0 < p) (s t : lat_loop_state)
    (hs : -(Real.pi / 2) ≤ s.phi) (hst : s.phi ≤ t.phi) (ht : t.phi ≤ Real.pi / 2) :
    (lat_loop_body a e z p s).phi ≤ (lat_loop_body a e z p t).phi := by
  unfold lat_loop_body
  apply atan2_mono_of_pos _ _ _ hp
  have hsin : Real.sin s.phi ≤ Real.sin t.phi :=
    Real.sin_le_sin_of_le_of_le_pi_div_two hs ht hst
  have := nu_mul_mono a e _ _ ha he0 he1 (Real.neg_one_le_sin s.phi) hsin (Real.sin_le_one t.phi)
  have h2 : ∀ x : ℝ, e * (a / Real.sqrt (1 - e * (x * x))) * x
      = e * (a / Real.sqrt (1 - e * (x * x)) * x) := fun x => by ring
  simp only [h2]
  have := mul_le_mul_of_nonneg_left this he0
  linarith
/-- The latitude after `n` passes of the loop body depends on the starting
latitude alone. -/
theorem lat_loop_body_iterate_phi (a e z p : ℝ) (s : lat_loop_state) (n : Nat) :
    ((lat_loop_body a e z p)^[n] s).phi
      = (fun x => (lat_loop_body a e z p { phi := x, phiP := x, nu := none }).phi)^[n] s.phi := by
  induction n with
  | zero => rfl
  | succ k ih =>
    rw [Function.iterate_succ_apply', Function.iterate_succ_apply', ← ih]
    rfl

/-- The result of `os_cartesian_to_lat_lon` once the loop has ended with `nu`
assigned. -/
theorem os_cartesian_to_lat_lon_of_loop (PREC : ℝ) (fuel : Nat) (point : os_cartesian_t ℝ)
    (E : os_ellipsoid_t ℝ) (s : lat_loop_state) (nu : ℝ)
    (hloop : lat_loop (PREC / E.a) E.a ((E.a * E.a - E.b * E.b) / (E.a * E.a)) point.z
      (Real.sqrt (point.x * point.x + point.y * point.y)) fuel
      { phi := atan2 point.z (Real.sqrt (point.x * point.x + point.y * point.y)
          * (1 - (E.a * E.a - E.b * E.b) / (E.a * E.a)))
        phiP := 2 * PI, nu := none } = some s)
    (hnu : s.nu = some nu) :
    os_cartesian_to_lat_lon PREC fuel point E =
      Except.ok { lat := s.phi, lon := atan2 point.y point.x
                  eh := Real.sqrt (point.x * point.x + point.y * point.y) / Real.cos s.phi - nu } := by
  unfold os_cartesian_to_lat_lon
  simp only [hloop, hnu]

/-- The loop of `os_cartesian_to_lat_lon` ends, after at least one pass, whenever
the point is off the axis (`p > 0`) and the tolerance is positive and below `π`. -/
theorem lat_loop_terminates (τ a e z p : ℝ) (hτ0 : 0 < τ) (hτ1 : τ < Real.pi)
    (ha : 0 < a) (he0 : 0 ≤ e) (he1 : e < 1) (hp : 0 < p) (phi0 : ℝ)
    (h0 : -(Real.pi / 2) < phi0) (h1 : phi0 < Real.pi / 2) :
    ∃ (fuel : Nat) (s : lat_loop_state),
      lat_loop τ a e z p fuel { phi := phi0, phiP := 2 * Real.pi, nu := none }
        = some (lat_loop_body a e z p s) ∧
      |(lat_loop_body a e z p s).phi - s.phi| ≤ τ ∧
      (|(lat_loop_body a e z p { phi := phi0, phiP := 2 * Real.pi, nu := none }).phi - phi0| ≤ τ →
        s = { phi := phi0, phiP := 2 * Real.pi, nu := none }) := by
  classical
  have hpi := Real.pi_pos
  let body := lat_loop_body a e z p
  let s0 : lat_loop_state := { phi := phi0, phiP := 2 * Real.pi, nu := none }
  let F : ℝ → ℝ := fun x => (body { phi := x, phiP := x, nu := none }).phi
  have hFmem : ∀ x, -(Real.pi / 2) ≤ F x ∧ F x ≤ Real.pi / 2 := by
    intro x
    have := atan2_mem_of_pos
      (z + e * (a / Real.sqrt (1 - e * (Real.sin x * Real.sin x))) * Real.sin x) p hp
    exact ⟨this.1.le, this.2.le⟩
  have hFmono : ∀ x y, -(Real.pi / 2) ≤ x → x ≤ y → y ≤ Real.pi / 2 → F x ≤ F y := by
    intro x y hx hxy hy
    exact lat_loop_body_mono a e z p ha he0 he1 hp _ _ hx hxy hy
  obtain ⟨n, hn⟩ := monotone_iteration_stalls F _ _ τ hτ0 hFmem hFmono phi0 ⟨h0.le, h1.le⟩
  have hphi : ∀ k, (body^[k] s0).phi = F^[k] phi0 := fun k =>
    lat_loop_body_iterate_phi a e z p s0 k
  have hphiP : ∀ k, (body^[k + 1] s0).phiP = F^[k] phi0 := by
    intro k
    rw [Function.iterate_succ_apply', ← hphi k]
    rfl
  have hex : ∃ m, ¬ (|(body^[m] s0).phi - (body^[m] s0).phiP| > τ) := by
    refine ⟨n + 1, ?_⟩
    rw [hphi (n + 1), hphiP n]
    exact not_lt.mpr hn
  have hfirst : |(body^[0] s0).phi - (body^[0] s0).phiP| > τ := by
    show |phi0 - 2 * Real.pi| > τ
    rw [abs_of_neg (by linarith)]
    linarith
  have hm := Nat.find_spec hex
  have hmin : ∀ k, k < Nat.find hex → |(body^[k] s0).phi - (body^[k] s0).phiP| > τ := by
    intro k hk
    exact not_not.mp (Nat.find_min hex hk)
  have hpos : Nat.find hex ≠ 0 := by
    intro h
    rw [h] at hm
    exact hm hfirst
  obtain ⟨j, hj⟩ := Nat.exists_eq_succ_of_ne_zero hpos
  have hrun := lat_loop_returns τ a e z p (Nat.find hex) s0 hmin hm
  rw [hj, Function.iterate_succ_apply'] at hrun
  rw [hj, Function.iterate_succ_apply'] at hm
  refine ⟨j + 1 + 1, body^[j] s0, hrun, not_lt.mp hm, ?_⟩
  intro hstop
  have hj0 : j = 0 := by
    by_contra hne
    have h1lt : 1 < Nat.find hex := by rw [hj]; omega
    have := hmin 1 h1lt
    rw [Function.iterate_one] at this
    exact absurd hstop (not_le.mpr this)
  rw [hj0]
  rfl
/-- The cartesian image of a geodetic point: the distance from the axis is
`(nu + h) cos φ`, which is positive, and `atan2 y x` is the longitude. -/
theorem cartesian_polar (E : os_ellipsoid_t ℝ) (p : os_lat_lon_t ℝ)
    (hab : E.b ≤ E.a) (hb : 0 < E.b)
    (hlat0 : -(Real.pi / 2) < p.lat) (hlat1 : p.lat < Real.pi / 2)
    (hlon0 : -Real.pi < p.lon) (hlon1 : p.lon ≤ Real.pi) (hh : -E.b < p.eh) :
    0 < E.a / Real.sqrt (1 - (E.a * E.a - E.b * E.b) / (E.a * E.a)
        * (Real.sin p.lat * Real.sin p.lat)) + p.eh ∧
      Real.sqrt ((os_lat_lon_to_cartesian p E).x * (os_lat_lon_to_cartesian p E).x
          + (os_lat_lon_to_cartesian p E).y * (os_lat_lon_to_cartesian p E).y)
        = (E.a / Real.sqrt (1 - (E.a * E.a - E.b * E.b) / (E.a * E.a)
            * (Real.sin p.lat * Real.sin p.lat)) + p.eh) * Real.cos p.lat ∧
      atan2 (os_lat_lon_to_cartesian p E).y (os_lat_lon_to_cartesian p E).x = p.lon := by
  obtain ⟨he0, he1, -⟩ := eSq_bounds E.a E.b hb hab
  have ha : 0 < E.a := lt_of_lt_of_le hb hab
  have hnu := nu_ge E.a _ (Real.sin p.lat) ha he0 he1 (sin_mul_self_le_one p.lat)
  have hcos : 0 < Real.cos p.lat := Real.cos_pos_of_mem_Ioo ⟨hlat0, hlat1⟩
  have hr : 0 < E.a / Real.sqrt (1 - (E.a * E.a - E.b * E.b) / (E.a * E.a)
      * (Real.sin p.lat * Real.sin p.lat)) + p.eh := by linarith
  refine ⟨hr, ?_, ?_⟩
  · have hR := mul_pos hr hcos
    have hsq : (os_lat_lon_to_cartesian p E).x * (os_lat_lon_to_cartesian p E).x
        + (os_lat_lon_to_cartesian p E).y * (os_lat_lon_to_cartesian p E).y
        = ((E.a / Real.sqrt (1 - (E.a * E.a - E.b * E.b) / (E.a * E.a)
            * (Real.sin p.lat * Real.sin p.lat)) + p.eh) * Real.cos p.lat)
          * ((E.a / Real.sqrt (1 - (E.a * E.a - E.b * E.b) / (E.a * E.a)
            * (Real.sin p.lat * Real.sin p.lat)) + p.eh) * Real.cos p.lat) := by
      simp only [os_lat_lon_to_cartesian]
      have := Real.cos_sq_add_sin_sq p.lon
      linear_combination ((E.a / Real.sqrt (1 - (E.a * E.a - E.b * E.b) / (E.a * E.a)
            * (Real.sin p.lat * Real.sin p.lat)) + p.eh) * Real.cos p.lat) ^ 2 * this
    rw [hsq, Real.sqrt_mul_self hR.le]
  · have := atan2_polar _ p.lon (mul_pos hr hcos) hlon0 hlon1
    simpa [os_lat_lon_to_cartesian] using this

/-- The latitude of a geodetic point is a fixed point of the loop body run on
its cartesian image. -/
theorem lat_step_fixed (E : os_ellipsoid_t ℝ) (p : os_lat_lon_t ℝ)
    (hab : E.b ≤ E.a) (hb : 0 < E.b)
    (hlat0 : -(Real.pi / 2) < p.lat) (hlat1 : p.lat < Real.pi / 2)
    (hlon0 : -Real.pi < p.lon) (hlon1 : p.lon ≤ Real.pi) (hh : -E.b < p.eh) :
    lat_step (os_lat_lon_to_cartesian p E) E p.lat = p.lat := by
  obtain ⟨hr, hP, -⟩ := cartesian_polar E p hab hb hlat0 hlat1 hlon0 hlon1 hh
  have hpi := Real.pi_pos
  unfold lat_step lat_loop_body
  dsimp only
  rw [hP]
  have hz : (os_lat_lon_to_cartesian p E).z + (E.a * E.a - E.b * E.b) / (E.a * E.a)
      * (E.a / Real.sqrt (1 - (E.a * E.a - E.b * E.b) / (E.a * E.a)
        * (Real.sin p.lat * Real.sin p.lat))) * Real.sin p.lat
      = (E.a / Real.sqrt (1 - (E.a * E.a - E.b * E.b) / (E.a * E.a)
        * (Real.sin p.lat * Real.sin p.lat)) + p.eh) * Real.sin p.lat := by
    simp only [os_lat_lon_to_cartesian]
    ring
  rw [hz]
  exact atan2_polar _ p.lat hr (by linarith) (by linarith)
/-- Termination of the round trip on the whole domain: for every ellipsoid with
`a >= b > 0` whose angular tolerance `OS_CART_TO_LAT_LON_PRECISION / a` is
positive and below `π`, and every geodetic point with latitude in `(-π/2, π/2)`,
longitude in `(-π, π]` and height `h > -b`, the round trip through
`os_lat_lon_to_cartesian` and `os_cartesian_to_lat_lon` ends with a result `r`;
the longitude of `r` is the original longitude; the latitude of `r` is the image
under the loop body of a latitude within the tolerance of it, and the original
latitude is a fixed point of the loop body; for a point of height 0 the latitude
and the height are recovered exactly.  How close `r` is to the original point in
general is the subject of the sections on the accuracy of the round trip and on
points near the centre of the ellipsoid. -/
theorem round_trip_terminates (PREC : ℝ) (E : os_ellipsoid_t ℝ) (p : os_lat_lon_t ℝ)
    (hab : E.b ≤ E.a) (hb : 0 < E.b)
    (hτ0 : 0 < PREC / E.a) (hτ1 : PREC / E.a < Real.pi)
    (hlat0 : -(Real.pi / 2) < p.lat) (hlat1 : p.lat < Real.pi / 2)
    (hlon0 : -Real.pi < p.lon) (hlon1 : p.lon ≤ Real.pi) (hh : -E.b < p.eh) :
    ∃ fuel r, os_cartesian_to_lat_lon PREC fuel (os_lat_lon_to_cartesian p E) E
        = Except.ok r ∧
      r.lon = p.lon ∧
      (∃ phiP, r.lat = lat_step (os_lat_lon_to_cartesian p E) E phiP ∧
        |r.lat - phiP| ≤ PREC / E.a) ∧
      lat_step (os_lat_lon_to_cartesian p E) E p.lat = p.lat ∧
      (p.eh = 0 → r.lat = p.lat ∧ r.eh = 0) := by
  obtain ⟨he0, he1, -⟩ := eSq_bounds E.a E.b hb hab
  have ha : 0 < E.a := lt_of_lt_of_le hb hab
  obtain ⟨hr, hP, hlon⟩ := cartesian_polar E p hab hb hlat0 hlat1 hlon0 hlon1 hh
  have hfix := lat_step_fixed E p hab hb hlat0 hlat1 hlon0 hlon1 hh
  have hcos : 0 < Real.cos p.lat := Real.cos_pos_of_mem_Ioo ⟨hlat0, hlat1⟩
  have hPpos : 0 < Real.sqrt ((os_lat_lon_to_cartesian p E).x * (os_lat_lon_to_cartesian p E).x
      + (os_lat_lon_to_cartesian p E).y * (os_lat_lon_to_cartesian p E).y) := by
    rw [hP]; exact mul_pos hr hcos
  have hphi0 := atan2_mem_of_pos (os_lat_lon_to_cartesian p E).z _
    (mul_pos hPpos (by linarith : 0 < 1 - (E.a * E.a - E.b * E.b) / (E.a * E.a)))
  obtain ⟨fuel, s, hrun, hclose, hfirst⟩ := lat_loop_terminates (PREC / E.a) E.a
    ((E.a * E.a - E.b * E.b) / (E.a * E.a)) (os_lat_lon_to_cartesian p E).z _ hτ0 hτ1 ha he0 he1
    hPpos _ hphi0.1 hphi0.2
  refine ⟨fuel, _, os_cartesian_to_lat_lon_of_loop PREC fuel _ E _ _ hrun rfl, hlon,
    ⟨s.phi, rfl, hclose⟩, hfix, ?_⟩
  intro h0
  have hnu : 0 < E.a / Real.sqrt (1 - (E.a * E.a - E.b * E.b) / (E.a * E.a)
      * (Real.sin p.lat * Real.sin p.lat)) := by
    rw [h0, add_zero] at hr; exact hr
  have hpi := Real.pi_pos
  have hstart : atan2 (os_lat_lon_to_cartesian p E).z
      (Real.sqrt ((os_lat_lon_to_cartesian p E).x * (os_lat_lon_to_cartesian p E).x
          + (os_lat_lon_to_cartesian p E).y * (os_lat_lon_to_cartesian p E).y)
        * (1 - (E.a * E.a - E.b * E.b) / (E.a * E.a))) = p.lat := by
    rw [hP]
    have hz : (os_lat_lon_to_cartesian p E).z
        = ((1 - (E.a * E.a - E.b * E.b) / (E.a * E.a))
            * (E.a / Real.sqrt (1 - (E.a * E.a - E.b * E.b) / (E.a * E.a)
              * (Real.sin p.lat * Real.sin p.lat)))) * Real.sin p.lat := by
      simp only [os_lat_lon_to_cartesian, h0, add_zero]
    have hx : (E.a / Real.sqrt (1 - (E.a * E.a - E.b * E.b) / (E.a * E.a)
          * (Real.sin p.lat * Real.sin p.lat)) + p.eh) * Real.cos p.lat
          * (1 - (E.a * E.a - E.b * E.b) / (E.a * E.a))
        = ((1 - (E.a * E.a - E.b * E.b) / (E.a * E.a))
            * (E.a / Real.sqrt (1 - (E.a * E.a - E.b * E.b) / (E.a * E.a)
              * (Real.sin p.lat * Real.sin p.lat)))) * Real.cos p.lat := by
      rw [h0]; ring
    rw [hz, hx]
    exact atan2_polar _ p.lat (mul_pos (by linarith) hnu) (by linarith) (by linarith)
  have hs := hfirst (by
    rw [hstart]
    have : (lat_loop_body E.a ((E.a * E.a - E.b * E.b) / (E.a * E.a))
        (os_lat_lon_to_cartesian p E).z
        (Real.sqrt ((os_lat_lon_to_cartesian p E).x * (os_lat_lon_to_cartesian p E).x
          + (os_lat_lon_to_cartesian p E).y * (os_lat_lon_to_cartesian p E).y))
        { phi := p.lat, phiP := 2 * Real.pi, nu := none }).phi = p.lat := hfix
    rw [this, sub_self, abs_zero]
    exact hτ0.le)
  rw [hs, hstart]
  have hlat : (lat_loop_body E.a ((E.a * E.a - E.b * E.b) / (E.a * E.a))
        (os_lat_lon_to_cartesian p E).z
        (Real.sqrt ((os_lat_lon_to_cartesian p E).x * (os_lat_lon_to_cartesian p E).x
          + (os_lat_lon_to_cartesian p E).y * (os_lat_lon_to_cartesian p E).y))
        { phi := p.lat, phiP := 2 * Real.pi, nu := none }).phi = p.lat := hfix
  refine ⟨hlat, ?_⟩
  show Real.sqrt ((os_lat_lon_to_cartesian p E).x * (os_lat_lon_to_cartesian p E).x
          + (os_lat_lon_to_cartesian p E).y * (os_lat_lon_to_cartesian p E).y)
        / Real.cos (lat_loop_body E.a ((E.a * E.a - E.b * E.b) / (E.a * E.a))
        (os_lat_lon_to_cartesian p E).z
        (Real.sqrt ((os_lat_lon_to_cartesian p E).x * (os_lat_lon_to_cartesian p E).x
          + (os_lat_lon_to_cartesian p E).y * (os_lat_lon_to_cartesian p E).y))
        { phi := p.lat, phiP := 2 * Real.pi, nu := none }).phi
      - E.a / Real.sqrt (1 - (E.a * E.a - E.b * E.b) / (E.a * E.a)
          * (Real.sin p.lat * Real.sin p.lat)) = 0
  rw [hlat, hP, h0, add_zero, mul_div_assoc, div_self hcos.ne', mul_one, sub_self]
theorem round_trip_terminates_witness :
    (AIRY_1830.b ≤ AIRY_1830.a ∧ 0 < AIRY_1830.b ∧ 0 < 4 / AIRY_1830.a ∧
      4 / AIRY_1830.a < Real.pi ∧ -AIRY_1830.b < TEST_LAT_LON.eh) ∧
    ∃ fuel r, os_cartesian_to_lat_lon 4 fuel (os_lat_lon_to_cartesian TEST_LAT_LON AIRY_1830)
        AIRY_1830 = Except.ok r ∧
      r.lon = TEST_LAT_LON.lon ∧
      (∃ phiP, r.lat = lat_step (os_lat_lon_to_cartesian TEST_LAT_LON AIRY_1830) AIRY_1830 phiP ∧
        |r.lat - phiP| ≤ 4 / AIRY_1830.a) ∧
      lat_step (os_lat_lon_to_cartesian TEST_LAT_LON AIRY_1830) AIRY_1830 TEST_LAT_LON.lat
        = TEST_LAT_LON.lat ∧
      (TEST_LAT_LON.eh = 0 → r.lat = TEST_LAT_LON.lat ∧ r.eh = 0) :=
  have h3 : (3 : ℝ) < Real.pi := Real.pi_gt_three
  have hab : AIRY_1830.b ≤ AIRY_1830.a := by norm_num [AIRY_1830]
  have hb : 0 < AIRY_1830.b := by norm_num [AIRY_1830]
  have hτ0 : 0 < 4 / AIRY_1830.a := by norm_num [AIRY_1830]
  have hτ1 : 4 / AIRY_1830.a < Real.pi := by
    have : 4 / AIRY_1830.a < 3 := by norm_num [AIRY_1830]
    linarith
  have hh : -AIRY_1830.b < TEST_LAT_LON.eh := by norm_num [AIRY_1830, TEST_LAT_LON]
  ⟨⟨hab, hb, hτ0, hτ1, hh⟩,
   round_trip_terminates 4 AIRY_1830 TEST_LAT_LON hab hb hτ0 hτ1
    (by norm_num [TEST_LAT_LON]; linarith) (by norm_num [TEST_LAT_LON]; linarith)
    (by norm_num [TEST_LAT_LON]; linarith) (by norm_num [TEST_LAT_LON]; linarith) hh⟩

/-! ## The transverse Mercator projection -/

/-- **C18**: every point on the central meridian (longitude `lon0` converted to
radians) is mapped to easting exactly `e0`, and the true origin (latitude `lat0`
and longitude `lon0`, both converted to radians) is mapped to exactly
`(e0, n0)`; the height is passed through unchanged.  No condition on the
ellipsoid is needed. -/
theorem tm_origin (proj : os_tm_projection_t ℝ) (lat h : ℝ) :
    (os_lat_lon_to_tm_eas_nor { lat := lat, lon := DEG_2_RAD PI proj.lon0, eh := h } proj).e
        = proj.e0 ∧
      (os_lat_lon_to_tm_eas_nor { lat := lat, lon := DEG_2_RAD PI proj.lon0, eh := h } proj).h
        = h ∧
      os_lat_lon_to_tm_eas_nor
          { lat := DEG_2_RAD PI proj.lat0, lon := DEG_2_RAD PI proj.lon0, eh := h } proj
        = { e := proj.e0, n := proj.n0, h := h } := by
  refine ⟨?_, rfl, ?_⟩
  · simp [os_lat_lon_to_tm_eas_nor]
  · simp [os_lat_lon_to_tm_eas_nor]

/-- **C19**: two points of the same latitude at longitude offsets `+d` and `-d`
from the central meridian are mapped to the same northing and to eastings
symmetric about `e0`: `easting(+d) - e0 = -(easting(-d) - e0)`. -/
theorem tm_mirror (proj : os_tm_projection_t ℝ) (lat d h : ℝ) :
    (os_lat_lon_to_tm_eas_nor { lat := lat, lon := DEG_2_RAD PI proj.lon0 + d, eh := h } proj).n
        = (os_lat_lon_to_tm_eas_nor
            { lat := lat, lon := DEG_2_RAD PI proj.lon0 - d, eh := h } proj).n ∧
      (os_lat_lon_to_tm_eas_nor { lat := lat, lon := DEG_2_RAD PI proj.lon0 + d, eh := h } proj).e
          - proj.e0
        = -((os_lat_lon_to_tm_eas_nor
            { lat := lat, lon := DEG_2_RAD PI proj.lon0 - d, eh := h } proj).e - proj.e0) := by
  constructor
  · simp only [os_lat_lon_to_tm_eas_nor]
    ring
  · simp only [os_lat_lon_to_tm_eas_nor]
    ring
/-- **C16**: for every ellipsoid with `a >= b > 0` and every latitude and longitude
the cartesian image `(x, y, z)` of the point of height 0 lies on the ellipsoid:
`(x^2 + y^2)/a^2 + z^2/b^2 = 1`. -/
theorem zero_height_on_ellipsoid (E : os_ellipsoid_t ℝ) (lat lon : ℝ)
    (hab : E.b ≤ E.a) (hb : 0 < E.b) :
    ((os_lat_lon_to_cartesian { lat := lat, lon := lon, eh := 0 } E).x ^ 2
        + (os_lat_lon_to_cartesian { lat := lat, lon := lon, eh := 0 } E).y ^ 2) / E.a ^ 2
      + (os_lat_lon_to_cartesian { lat := lat, lon := lon, eh := 0 } E).z ^ 2 / E.b ^ 2 = 1 := by
  obtain ⟨he0, he1, hsub⟩ := eSq_bounds E.a E.b hb hab
  have ha : 0 < E.a := lt_of_lt_of_le hb hab
  have hW := one_sub_eSq_sin_pos _ (Real.sin lat) he0 he1 (sin_mul_self_le_one lat)
  have hw2 : Real.sqrt (1 - (E.a * E.a - E.b * E.b) / (E.a * E.a)
      * (Real.sin lat * Real.sin lat)) ^ 2
      = 1 - (E.a * E.a - E.b * E.b) / (E.a * E.a) * (Real.sin lat * Real.sin lat) :=
    Real.sq_sqrt hW.le
  have hw0 : Real.sqrt (1 - (E.a * E.a - E.b * E.b) / (E.a * E.a)
      * (Real.sin lat * Real.sin lat)) ≠ 0 := (Real.sqrt_pos.mpr hW).ne'
  have hcs := Real.cos_sq_add_sin_sq lat
  have hcl := Real.cos_sq_add_sin_sq lon
  have he : (1 - (E.a * E.a - E.b * E.b) / (E.a * E.a)) * E.a ^ 2 = E.b ^ 2 := by
    rw [hsub]; field_simp; ring
  simp only [os_lat_lon_to_cartesian, add_zero]
  generalize Real.sqrt (1 - (E.a * E.a - E.b * E.b) / (E.a * E.a)
      * (Real.sin lat * Real.sin lat)) = w at hw2 hw0
  generalize (E.a * E.a - E.b * E.b) / (E.a * E.a) = e at he hw2
  have ha2 : E.a ^ 2 ≠ 0 := by positivity
  have hb2 : E.b ^ 2 ≠ 0 := by positivity
  have hww : w ^ 2 ≠ 0 := pow_ne_zero 2 hw0
  have h1 : ((E.a / w * Real.cos lat * Real.cos lon) ^ 2
      + (E.a / w * Real.cos lat * Real.sin lon) ^ 2) / E.a ^ 2 = Real.cos lat ^ 2 / w ^ 2 := by
    rw [div_eq_iff ha2]
    linear_combination (E.a ^ 2 * Real.cos lat ^ 2 / w ^ 2) * hcl
  have h2 : ((1 - e) * (E.a / w) * Real.sin lat) ^ 2 / E.b ^ 2
      = (1 - e) * Real.sin lat ^ 2 / w ^ 2 := by
    rw [div_eq_iff hb2]
    linear_combination ((1 - e) * Real.sin lat ^ 2 / w ^ 2) * he
  rw [h1, h2, ← add_div, div_eq_one_iff_eq hww]
  linear_combination hcs - hw2
/-! ## The loop of `os_cartesian_to_lat_lon` -/

/-- The angle `atan2` returns is at most `π`. -/
theorem atan2_le_pi (y x : ℝ) : atan2 y x ≤ Real.pi := Complex.arg_le_pi _

theorem atan2_zero_zero : atan2 0 0 = 0 := by
  unfold atan2
  have h : (⟨0, 0⟩ : ℂ) = 0 := rfl
  rw [h, Complex.arg_zero]

/-- A state reached by the loop holds a value of `nu` as soon as the starting
state does or the first test passes. -/
theorem lat_loop_nu_assigned (precision a eSq z p : ℝ) :
    ∀ (fuel : Nat) (s t : lat_loop_state),
      lat_loop precision a eSq z p fuel s = some t →
      (s.nu ≠ none ∨ |s.phi - s.phiP| > precision) → t.nu ≠ none := by
  intro fuel
  induction fuel with
  | zero => intro s t h; simp [lat_loop] at h
  | succ k ih =>
    intro s t h hs
    rw [lat_loop] at h
    by_cases htest : |s.phi - s.phiP| > precision
    · rw [if_pos htest] at h
      exact ih _ t h (Or.inl (by simp [lat_loop_body]))
    · rw [if_neg htest] at h
      cases h
      rcases hs with h1 | h1
      · exact h1
      · exact absurd h1 htest

/-- With a tolerance below `π` the first loop test holds, whatever the point. -/
theorem first_test_holds (τ y x : ℝ) (hτ : τ < Real.pi) : |atan2 y x - 2 * PI| > τ := by
  have h := atan2_le_pi y x
  have hpi := Real.pi_pos
  unfold PI
  rw [abs_of_neg (by linarith)]
  linarith

/-- When the first loop test holds, the loop has not ended after one test. -/
theorem lat_lon_after_one_test (PREC : ℝ) (point : os_cartesian_t ℝ) (E : os_ellipsoid_t ℝ)
    (htest : |atan2 point.z (Real.sqrt (point.x * point.x + point.y * point.y)
      * (1 - (E.a * E.a - E.b * E.b) / (E.a * E.a))) - 2 * PI| > PREC / E.a) :
    os_cartesian_to_lat_lon PREC 1 point E = Except.error fault.out_of_fuel := by
  simp only [os_cartesian_to_lat_lon, lat_loop, if_pos htest]

/-- When the first loop test holds and the second fails, the function returns
after one pass of the loop body. -/
theorem lat_lon_after_two_tests (PREC : ℝ) (point : os_cartesian_t ℝ) (E : os_ellipsoid_t ℝ)
    (phi0 : ℝ)
    (hphi0 : atan2 point.z (Real.sqrt (point.x * point.x + point.y * point.y)
      * (1 - (E.a * E.a - E.b * E.b) / (E.a * E.a))) = phi0)
    (htest1 : |phi0 - 2 * PI| > PREC / E.a)
    (htest2 : ¬ (|lat_step point E phi0 - phi0| > PREC / E.a)) :
    os_cartesian_to_lat_lon PREC 2 point E =
      Except.ok { lat := lat_step point E phi0, lon := atan2 point.y point.x
                  eh := Real.sqrt (point.x * point.x + point.y * point.y)
                      / Real.cos (lat_step point E phi0)
                    - E.a / Real.sqrt (1 - (E.a * E.a - E.b * E.b) / (E.a * E.a)
                        * (Real.sin phi0 * Real.sin phi0)) } := by
  have hloop : lat_loop (PREC / E.a) E.a ((E.a * E.a - E.b * E.b) / (E.a * E.a)) point.z
      (Real.sqrt (point.x * point.x + point.y * point.y)) 2
      { phi := atan2 point.z (Real.sqrt (point.x * point.x + point.y * point.y)
          * (1 - (E.a * E.a - E.b * E.b) / (E.a * E.a)))
        phiP := 2 * PI, nu := none }
      = some (lat_loop_body E.a ((E.a * E.a - E.b * E.b) / (E.a * E.a)) point.z
          (Real.sqrt (point.x * point.x + point.y * point.y))
          { phi := phi0, phiP := 2 * PI, nu := none }) := by
    rw [hphi0, lat_loop, if_pos htest1, lat_loop]
    exact if_neg htest2
  exact os_cartesian_to_lat_lon_of_loop PREC 2 point E _ _ hloop rfl

/-- **C14**: for every cartesian point and every ellipsoid whose angular tolerance
`OS_CART_TO_LAT_LON_PRECISION / a` is less than `π`, the loop body runs at least
once (after one test the loop has not ended), so no run reads `nu` unassigned.
The conditions `a >= b > 0` are not needed. -/
theorem nu_assigned_before_read (PREC : ℝ) (point : os_cartesian_t ℝ) (E : os_ellipsoid_t ℝ)
    (hτ : PREC / E.a < Real.pi) :
    os_cartesian_to_lat_lon PREC 1 point E = Except.error fault.out_of_fuel ∧
      ∀ fuel, os_cartesian_to_lat_lon PREC fuel point E
        ≠ Except.error fault.indeterminate_nu := by
  have htest := first_test_holds (PREC / E.a) point.z
    (Real.sqrt (point.x * point.x + point.y * point.y)
      * (1 - (E.a * E.a - E.b * E.b) / (E.a * E.a))) hτ
  refine ⟨lat_lon_after_one_test PREC point E htest, ?_⟩
  · intro fuel
    unfold os_cartesian_to_lat_lon
    dsimp only
    cases hloop : lat_loop (PREC / E.a) E.a ((E.a * E.a - E.b * E.b) / (E.a * E.a)) point.z
        (Real.sqrt (point.x * point.x + point.y * point.y)) fuel
        { phi := atan2 point.z (Real.sqrt (point.x * point.x + point.y * point.y)
            * (1 - (E.a * E.a - E.b * E.b) / (E.a * E.a)))
          phiP := 2 * PI, nu := none } with
    | none => simp
    | some t =>
      have hnu := lat_loop_nu_assigned _ _ _ _ _ fuel _ t hloop (Or.inr htest)
      cases hn : t.nu with
      | none => exact absurd hn hnu
      | some v => simp [hn]
/-- The run of `os_cartesian_to_lat_lon` at the geocentric origin: the starting
latitude is 0, one pass of the loop body gives latitude 0 again, and the second
test `|0 - 0| > precision` fails. -/
theorem lat_lon_at_origin (PREC : ℝ) (E : os_ellipsoid_t ℝ)
    (hτ0 : 0 ≤ PREC / E.a) (hτ1 : PREC / E.a < 2 * Real.pi) :
    os_cartesian_to_lat_lon PREC 1 { x := 0, y := 0, z := 0 } E
        = Except.error fault.out_of_fuel ∧
      os_cartesian_to_lat_lon PREC 2 { x := 0, y := 0, z := 0 } E
        = Except.ok { lat := 0, lon := 0, eh := -E.a } := by
  have hphi0 : atan2 ({ x := 0, y := 0, z := 0 } : os_cartesian_t ℝ).z
      (Real.sqrt (({ x := 0, y := 0, z := 0 } : os_cartesian_t ℝ).x
          * ({ x := 0, y := 0, z := 0 } : os_cartesian_t ℝ).x
        + ({ x := 0, y := 0, z := 0 } : os_cartesian_t ℝ).y
          * ({ x := 0, y := 0, z := 0 } : os_cartesian_t ℝ).y)
      * (1 - (E.a * E.a - E.b * E.b) / (E.a * E.a))) = 0 := by
    simp [atan2_zero_zero]
  have hstep : lat_step ({ x := 0, y := 0, z := 0 } : os_cartesian_t ℝ) E 0 = 0 := by
    simp [lat_step, lat_loop_body, atan2_zero_zero]
  have htest1 : |(0 : ℝ) - 2 * PI| > PREC / E.a := by
    have hpi := Real.pi_pos
    unfold PI
    rw [abs_of_neg (by linarith)]
    linarith
  have htest2 : ¬ (|lat_step ({ x := 0, y := 0, z := 0 } : os_cartesian_t ℝ) E 0 - 0|
      > PREC / E.a) := by
    rw [hstep, sub_zero, abs_zero]
    exact not_lt.mpr hτ0
  constructor
  · apply lat_lon_after_one_test
    rw [hphi0]
    exact htest1
  · rw [lat_lon_after_two_tests PREC { x := 0, y := 0, z := 0 } E 0 hphi0 htest1 htest2, hstep]
    simp [atan2_zero_zero]

/-- Counterexample to **C13** as stated.  Whatever non-negative value the constant
`OS_CART_TO_LAT_LON_PRECISION` has, the function does not loop for ever at the
geocentric origin: on the sphere of radius `PRECISION + 1` (tolerance in `[0, 1)`)
the starting latitude is `atan2(0, 0) = 0`, the loop body gives
`atan2(0 + eSq*nu*sin(0), 0) = 0` again, the second test `|0 - 0| > precision`
fails, and the run with two tests returns latitude 0, longitude 0, height `-a`. -/
theorem origin_loop_counterexample :
    ¬ ∃ PREC : ℝ, 0 ≤ PREC ∧
      ∀ E : os_ellipsoid_t ℝ, E.b ≤ E.a → 0 < E.b →
        ∀ fuel, os_cartesian_to_lat_lon PREC fuel { x := 0, y := 0, z := 0 } E
          = Except.error fault.out_of_fuel := by
  rintro ⟨PREC, hP, h⟩
  have ha : 0 < PREC + 1 := by linarith
  have hpi := Real.pi_gt_three
  have hτ1 : PREC / (PREC + 1) < 2 * Real.pi := by
    have : PREC / (PREC + 1) < 1 := by rw [div_lt_one ha]; linarith
    linarith
  have h2 := (lat_lon_at_origin PREC { a := PREC + 1, b := PREC + 1 }
    (div_nonneg hP ha.le) hτ1).2
  have h3 := h { a := PREC + 1, b := PREC + 1 } le_rfl ha 2
  rw [h2] at h3
  cases h3

/-- **C13** (amended): for the cartesian point at the geocentric origin and every
ellipsoid whose angular tolerance `OS_CART_TO_LAT_LON_PRECISION / a` lies in
`[0, 2π)`, the loop of `os_cartesian_to_lat_lon` runs its body exactly once (it
has not ended after one test and has ended after two): the stopping test
`|phi - phiP| <= tolerance` holds with `phi = phiP = 0`, and the function returns
latitude 0, longitude 0 and height `-a`. -/
theorem origin_terminates (PREC : ℝ) (E : os_ellipsoid_t ℝ)
    (hτ0 : 0 ≤ PREC / E.a) (hτ1 : PREC / E.a < 2 * Real.pi) :
    os_cartesian_to_lat_lon PREC 1 { x := 0, y := 0, z := 0 } E
        = Except.error fault.out_of_fuel ∧
      os_cartesian_to_lat_lon PREC 2 { x := 0, y := 0, z := 0 } E
        = Except.ok { lat := 0, lon := 0, eh := -E.a } :=
  lat_lon_at_origin PREC E hτ0 hτ1
/-- **C17**: on a sphere (`a = b > 0`) whose angular tolerance
`OS_CART_TO_LAT_LON_PRECISION / a` is non-negative and below `π`, for every point
`p` with latitude in `(-π/2, π/2)`, longitude in `(-π, π]` and height `h > -a`, the
round trip runs the loop body exactly once (the loop has not ended after one test
and has ended after two) and returns exactly `p`. -/
theorem sphere_round_trip (PREC : ℝ) (E : os_ellipsoid_t ℝ) (p : os_lat_lon_t ℝ)
    (hab : E.a = E.b) (ha : 0 < E.a)
    (hτ0 : 0 ≤ PREC / E.a) (hτ1 : PREC / E.a < Real.pi)
    (hlat0 : -(Real.pi / 2) < p.lat) (hlat1 : p.lat < Real.pi / 2)
    (hlon0 : -Real.pi < p.lon) (hlon1 : p.lon ≤ Real.pi) (hh : -E.a < p.eh) :
    os_cartesian_to_lat_lon PREC 1 (os_lat_lon_to_cartesian p E) E
        = Except.error fault.out_of_fuel ∧
      os_cartesian_to_lat_lon PREC 2 (os_lat_lon_to_cartesian p E) E = Except.ok p := by
  have hb : 0 < E.b := hab ▸ ha
  have hle : E.b ≤ E.a := hab.ge
  have hh' : -E.b < p.eh := hab ▸ hh
  obtain ⟨hr, hP, hlon⟩ := cartesian_polar E p hle hb hlat0 hlat1 hlon0 hlon1 hh'
  have hfix := lat_step_fixed E p hle hb hlat0 hlat1 hlon0 hlon1 hh'
  have hcos : 0 < Real.cos p.lat := Real.cos_pos_of_mem_Ioo ⟨hlat0, hlat1⟩
  have hpi := Real.pi_pos
  have he : (E.a * E.a - E.b * E.b) / (E.a * E.a) = 0 := by
    rw [hab, sub_self, zero_div]
  have he1 : 1 - (E.a * E.a - E.b * E.b) / (E.a * E.a) = 1 := by rw [he, sub_zero]
  have hz : (os_lat_lon_to_cartesian p E).z
      = (E.a / Real.sqrt (1 - (E.a * E.a - E.b * E.b) / (E.a * E.a)
          * (Real.sin p.lat * Real.sin p.lat)) + p.eh) * Real.sin p.lat := by
    simp only [os_lat_lon_to_cartesian]
    rw [he1, one_mul]
  have hphi0 : atan2 (os_lat_lon_to_cartesian p E).z
      (Real.sqrt ((os_lat_lon_to_cartesian p E).x * (os_lat_lon_to_cartesian p E).x
          + (os_lat_lon_to_cartesian p E).y * (os_lat_lon_to_cartesian p E).y)
        * (1 - (E.a * E.a - E.b * E.b) / (E.a * E.a))) = p.lat := by
    rw [hP, he1, mul_one, hz]
    exact atan2_polar _ p.lat hr (by linarith) (by linarith)
  have htest1 : |p.lat - 2 * PI| > PREC / E.a := by
    have := first_test_holds (PREC / E.a) (os_lat_lon_to_cartesian p E).z
      (Real.sqrt ((os_lat_lon_to_cartesian p E).x * (os_lat_lon_to_cartesian p E).x
          + (os_lat_lon_to_cartesian p E).y * (os_lat_lon_to_cartesian p E).y)
        * (1 - (E.a * E.a - E.b * E.b) / (E.a * E.a))) hτ1
    rw [hphi0] at this
    exact this
  have htest2 : ¬ (|lat_step (os_lat_lon_to_cartesian p E) E p.lat - p.lat| > PREC / E.a) := by
    rw [hfix, sub_self, abs_zero]
    exact not_lt.mpr hτ0
  constructor
  · apply lat_lon_after_one_test
    rw [hphi0]
    exact htest1
  · rw [lat_lon_after_two_tests PREC (os_lat_lon_to_cartesian p E) E p.lat hphi0 htest1 htest2,
      hfix, hlon, hP]
    have heh : (E.a / Real.sqrt (1 - (E.a * E.a - E.b * E.b) / (E.a * E.a)
          * (Real.sin p.lat * Real.sin p.lat)) + p.eh) * Real.cos p.lat / Real.cos p.lat
        - E.a / Real.sqrt (1 - (E.a * E.a - E.b * E.b) / (E.a * E.a)
          * (Real.sin p.lat * Real.sin p.lat)) = p.eh := by
      rw [mul_div_assoc, div_self hcos.ne', mul_one]
      ring
    rw [heh]
/-! ## Injectivity of the grid code -/

/-- The letter of a cell of the 5x5 square, as a number. -/
theorem cell_letter_value (x y : Int) (hx0 : 0 ≤ x) (hx4 : x ≤ 4) (hy0 : 0 ≤ y) (hy4 : y ≤ 4) :
    toChar (I2C u32 (XY2I u32 x y))
      = if x + (4 - y) * 5 ≥ 8 then 66 + (x + (4 - y) * 5) else 65 + (x + (4 - y) * 5) := by
  have hi : XY2I u32 x y = x + (4 - y) * 5 := by
    unfold XY2I u32
    omega
  rw [hi, I2C_eq u32 wideEnough_u32 _ (by omega) (by omega)]
  unfold toChar
  split_ifs <;> omega

/-- Different cells of the 5x5 square have different letters. -/
theorem cell_letter_inj (x y x' y' : Int) (hx0 : 0 ≤ x) (hx4 : x ≤ 4) (hy0 : 0 ≤ y)
    (hy4 : y ≤ 4) (hx0' : 0 ≤ x') (hx4' : x' ≤ 4) (hy0' : 0 ≤ y') (hy4' : y' ≤ 4)
    (h : toChar (I2C u32 (XY2I u32 x y)) = toChar (I2C u32 (XY2I u32 x' y'))) :
    x = x' ∧ y = y' := by
  rw [cell_letter_value x y hx0 hx4 hy0 hy4, cell_letter_value x' y' hx0' hx4' hy0' hy4'] at h
  split_ifs at h <;> omega

/-- Two passes of the loop that write the same letter at position `i` saw the same
pair of base-5 digits, provided the offset cells stay inside the 5x5 square. -/
theorem digit_letter_inj (grid : os_grid_t) (i : Nat) (x y x' y' : Int)
    (hA : chr 'A' ≤ grid.bottom_left_first_char) (hZ : grid.bottom_left_first_char ≤ chr 'Z')
    (hfx : i = 0 → I2X id (C2I id grid.bottom_left_first_char) + x % 5 ≤ 4)
    (hfy : i = 0 → I2Y id (C2I id grid.bottom_left_first_char) + y % 5 ≤ 4)
    (hfx' : i = 0 → I2X id (C2I id grid.bottom_left_first_char) + x' % 5 ≤ 4)
    (hfy' : i = 0 → I2Y id (C2I id grid.bottom_left_first_char) + y' % 5 ≤ 4)
    (h : digit_letter grid i x y = digit_letter grid i x' y') :
    x % 5 = x' % 5 ∧ y % 5 = y' % 5 := by
  obtain ⟨ox0, _, oy0, _⟩ := first_char_offsets grid.bottom_left_first_char hA hZ
  have mx0 : 0 ≤ x % 5 := Int.emod_nonneg _ (by norm_num)
  have mx4 : x % 5 < 5 := Int.emod_lt_of_pos _ (by norm_num)
  have my0 : 0 ≤ y % 5 := Int.emod_nonneg _ (by norm_num)
  have my4 : y % 5 < 5 := Int.emod_lt_of_pos _ (by norm_num)
  have mx0' : 0 ≤ x' % 5 := Int.emod_nonneg _ (by norm_num)
  have mx4' : x' % 5 < 5 := Int.emod_lt_of_pos _ (by norm_num)
  have my0' : 0 ≤ y' % 5 := Int.emod_nonneg _ (by norm_num)
  have my4' : y' % 5 < 5 := Int.emod_lt_of_pos _ (by norm_num)
  unfold digit_letter at h
  by_cases hi : i = 0
  · have h1 := hfx hi
    have h2 := hfy hi
    have h3 := hfx' hi
    have h4 := hfy' hi
    simp only [hi, if_true] at h
    have ex : ∀ t : Int, 0 ≤ t → I2X id (C2I id grid.bottom_left_first_char) + t ≤ 4 →
        u32 (I2X id (C2I id grid.bottom_left_first_char) + u32 t) =
        I2X id (C2I id grid.bottom_left_first_char) + t := by
      intro t ht0 ht; unfold u32; omega
    have ey : ∀ t : Int, 0 ≤ t → I2Y id (C2I id grid.bottom_left_first_char) + t ≤ 4 →
        u32 (I2Y id (C2I id grid.bottom_left_first_char) + u32 t) =
        I2Y id (C2I id grid.bottom_left_first_char) + t := by
      intro t ht0 ht; unfold u32; omega
    rw [ex _ mx0 h1, ey _ my0 h2, ex _ mx0' h3, ey _ my0' h4] at h
    have := cell_letter_inj _ _ _ _ (by omega) h1 (by omega) h2 (by omega) h3 (by omega) h4 h
    omega
  · simp only [hi, if_false] at h
    have ez : ∀ t : Int, 0 ≤ t → t < 5 → u32 (0 + u32 t) = t := by
      intro t ht0 ht; unfold u32; omega
    rw [ez _ mx0 mx4, ez _ my0 my4, ez _ mx0' mx4', ez _ my0' my4'] at h
    exact cell_letter_inj _ _ _ _ mx0 (by omega) my0 (by omega) mx0' (by omega) my0'
      (by omega) h

/-- A number below `5^d` is determined by its `d` base-5 digits. -/
theorem base5_digits_inj :
    ∀ (d : Nat) (a b : Int), 0 ≤ a → a < 5 ^ d → 0 ≤ b → b < 5 ^ d →
      (∀ i, i < d → a / 5 ^ (d - 1 - i) % 5 = b / 5 ^ (d - 1 - i) % 5) → a = b := by
  intro d
  induction d with
  | zero =>
    intro a b ha0 ha hb0 hb _
    simp at ha hb
    omega
  | succ k ih =>
    intro a b ha0 ha hb0 hb h
    have hlast := h k (Nat.lt_succ_self k)
    simp at hlast
    have hdiv : a / 5 = b / 5 := by
      apply ih (a / 5) (b / 5) (by omega) _ (by omega) _
      · intro i hi
        have hi' := h i (Nat.lt_succ_of_lt hi)
        have e1 : k + 1 - 1 - i = (k - 1 - i) + 1 := by omega
        have h5 : (0 : Int) ≤ 5 ^ (k - 1 - i) := by positivity
        rw [e1, pow_succ, mul_comm] at hi'
        rw [ediv_ediv_of_nonneg _ 5 _ ha0 (by norm_num) h5,
          ediv_ediv_of_nonneg _ 5 _ hb0 (by norm_num) h5]
        exact hi'
      · rw [pow_succ] at ha
        exact Int.ediv_lt_of_lt_mul (by norm_num) ha
      · rw [pow_succ] at hb
        exact Int.ediv_lt_of_lt_mul (by norm_num) hb
    omega
/-- A square inside a grid that fits the letter square lies below `5^d`. -/
theorem square_lt_pow (d : Nat) (hd : 1 ≤ d) (off extent sq : Int) (hoff : 0 ≤ off)
    (hsq : sq < extent) (hext : extent ≤ 5 ^ (d - 1) * (5 - off)) : sq < 5 ^ d := by
  have hpow : (0 : Int) < 5 ^ (d - 1) := by positivity
  have h1 : (5 : Int) ^ d = 5 ^ (d - 1) * 5 := by
    rw [← pow_succ]
    congr 1
    omega
  have h2 : (5 : Int) ^ (d - 1) * (5 - off) ≤ 5 ^ (d - 1) * 5 :=
    mul_le_mul_of_nonneg_left (by omega) hpow.le
  rw [h1]
  omega

section Real

variable {K : Type} [LinearOrderedField K] [FloorRing K]

/-- **C15**: let `off_x = I2X(C2I(bottom_left_first_char))` and
`off_y = I2Y(C2I(bottom_left_first_char))` for a grid with `num_digits = d >= 1`
whose first character is an upper-case letter, and whose extent (`width`, `height`,
values of `unsigned int`) satisfies `width <= 5^(d-1) * (5 - off_x)` and
`height <= 5^(d-1) * (5 - off_y)`.  Two points with non-negative coordinates inside
the grid that lie in different 100 km squares get codes that differ in one of
their first `d` characters. -/
theorem grid_ref_injective (p1 p2 : os_eas_nor_t K) (grid : os_grid_t)
    (hW : grid.width < 4294967296) (hH : grid.height < 4294967296)
    (hd : 1 ≤ grid.num_digits)
    (hA : chr 'A' ≤ grid.bottom_left_first_char) (hZ : grid.bottom_left_first_char ≤ chr 'Z')
    (hfw : (grid.width : Int) ≤ 5 ^ (grid.num_digits - 1)
      * (5 - I2X id (C2I id grid.bottom_left_first_char)))
    (hfh : (grid.height : Int) ≤ 5 ^ (grid.num_digits - 1)
      * (5 - I2Y id (C2I id grid.bottom_left_first_char)))
    (h1e : 0 ≤ p1.e) (h1n : 0 ≤ p1.n) (h2e : 0 ≤ p2.e) (h2n : 0 ≤ p2.n)
    (h1x : ⌊p1.e / 100000⌋ < (grid.width : Int))
    (h1y : ⌊p1.n / 100000⌋ < (grid.height : Int))
    (h2x : ⌊p2.e / 100000⌋ < (grid.width : Int))
    (h2y : ⌊p2.n / 100000⌋ < (grid.height : Int))
    (hne : ⌊p1.e / 100000⌋ ≠ ⌊p2.e / 100000⌋ ∨ ⌊p1.n / 100000⌋ ≠ ⌊p2.n / 100000⌋) :
    ∃ r1 r2, os_eas_nor_to_grid_ref p1 grid = some r1 ∧
      os_eas_nor_to_grid_ref p2 grid = some r2 ∧
      ∃ i, i < grid.num_digits ∧ r1.code i ≠ r2.code i := by
  obtain ⟨ox0, _, oy0, _⟩ := first_char_offsets grid.bottom_left_first_char hA hZ
  have x1 : 0 ≤ ⌊p1.e / 100000⌋ := Int.floor_nonneg.mpr (div_nonneg h1e (by norm_num))
  have y1 : 0 ≤ ⌊p1.n / 100000⌋ := Int.floor_nonneg.mpr (div_nonneg h1n (by norm_num))
  have x2 : 0 ≤ ⌊p2.e / 100000⌋ := Int.floor_nonneg.mpr (div_nonneg h2e (by norm_num))
  have y2 : 0 ≤ ⌊p2.n / 100000⌋ := Int.floor_nonneg.mpr (div_nonneg h2n (by norm_num))
  refine ⟨_, _, grid_ref_in_grid p1 grid hW hH h1e h1n h1x h1y,
    grid_ref_in_grid p2 grid hW hH h2e h2n h2x h2y, ?_⟩
  by_contra hall
  push_neg at hall
  have hdig : ∀ i, i < grid.num_digits →
      ⌊p1.e / 100000⌋ / 5 ^ (grid.num_digits - 1 - i) % 5
        = ⌊p2.e / 100000⌋ / 5 ^ (grid.num_digits - 1 - i) % 5 ∧
      ⌊p1.n / 100000⌋ / 5 ^ (grid.num_digits - 1 - i) % 5
        = ⌊p2.n / 100000⌋ / 5 ^ (grid.num_digits - 1 - i) % 5 := by
    intro i hi
    have h := hall i hi
    change digit_loop grid grid.num_digits ⌊p1.e / 100000⌋ ⌊p1.n / 100000⌋ _ i
      = digit_loop grid grid.num_digits ⌊p2.e / 100000⌋ ⌊p2.n / 100000⌋ _ i at h
    rw [digit_loop_spec grid grid.num_digits _ _ _ x1 (by omega) y1 (by omega) i, if_pos hi,
      digit_loop_spec grid grid.num_digits _ _ _ x2 (by omega) y2 (by omega) i, if_pos hi] at h
    apply digit_letter_inj grid i _ _ _ _ hA hZ _ _ _ _ h
    · intro h0; subst h0
      exact leading_digit_fits _ _ _ _ ox0 x1 h1x hfw
    · intro h0; subst h0
      exact leading_digit_fits _ _ _ _ oy0 y1 h1y hfh
    · intro h0; subst h0
      exact leading_digit_fits _ _ _ _ ox0 x2 h2x hfw
    · intro h0; subst h0
      exact leading_digit_fits _ _ _ _ oy0 y2 h2y hfh
  have ex : ⌊p1.e / 100000⌋ = ⌊p2.e / 100000⌋ :=
    base5_digits_inj grid.num_digits _ _ x1
      (square_lt_pow _ hd _ _ _ ox0 h1x hfw) x2 (square_lt_pow _ hd _ _ _ ox0 h2x hfw)
      (fun i hi => (hdig i hi).1)
  have ey : ⌊p1.n / 100000⌋ = ⌊p2.n / 100000⌋ :=
    base5_digits_inj grid.num_digits _ _ y1
      (square_lt_pow _ hd _ _ _ oy0 h1y hfh) y2 (square_lt_pow _ hd _ _ _ oy0 h2y hfh)
      (fun i hi => (hdig i hi).2)
  rcases hne with h | h
  · exact h ex
  · exact h ey

end Real

/-! ## Monotonicity of the meridional arc -/

theorem abs_sin_sub_sin_le (u v : ℝ) : |Real.sin u - Real.sin v| ≤ |u - v| := by
  rw [Real.sin_sub_sin, abs_mul, abs_mul]
  have h1 : |Real.sin ((u - v) / 2)| ≤ |(u - v) / 2| := Real.abs_sin_le_abs
  have h2 : |Real.cos ((u + v) / 2)| ≤ 1 := Real.abs_cos_le_one _
  have h3 : |(u - v) / 2| = |u - v| / 2 := by rw [abs_div]; norm_num
  have h4 : (0 : ℝ) ≤ |Real.sin ((u - v) / 2)| := abs_nonneg _
  have h5 : (0 : ℝ) ≤ |Real.cos ((u + v) / 2)| := abs_nonneg _
  have h6 : |(2 : ℝ)| = 2 := by norm_num
  rw [h6]
  nlinarith

/-- The terms `sin(k(φ - φ0)) cos(k(φ + φ0))` of the meridional arc change by at
most `k` times the change of `φ`. -/
theorem arc_term_lipschitz (k φ0 l1 l2 : ℝ) (hk : 0 ≤ k) (hl : l1 ≤ l2) :
    |Real.sin (k * (l2 - φ0)) * Real.cos (k * (l2 + φ0))
      - Real.sin (k * (l1 - φ0)) * Real.cos (k * (l1 + φ0))| ≤ k * (l2 - l1) := by
  have hps : ∀ l : ℝ, Real.sin (k * (l - φ0)) * Real.cos (k * (l + φ0))
      = (Real.sin (2 * (k * l)) - Real.sin (2 * (k * φ0))) / 2 := by
    intro l
    rw [Real.sin_sub_sin]
    have e1 : (2 * (k * l) - 2 * (k * φ0)) / 2 = k * (l - φ0) := by ring
    have e2 : (2 * (k * l) + 2 * (k * φ0)) / 2 = k * (l + φ0) := by ring
    rw [e1, e2]
    ring
  rw [hps l2, hps l1]
  have h := abs_sin_sub_sin_le (2 * (k * l2)) (2 * (k * l1))
  have e3 : 2 * (k * l2) - 2 * (k * l1) = 2 * (k * (l2 - l1)) := by ring
  have hnn : 0 ≤ 2 * (k * (l2 - l1)) := by
    have : 0 ≤ l2 - l1 := by linarith
    positivity
  rw [e3, abs_of_nonneg hnn] at h
  have e4 : (Real.sin (2 * (k * l2)) - Real.sin (2 * (k * φ0))) / 2
      - (Real.sin (2 * (k * l1)) - Real.sin (2 * (k * φ0))) / 2
      = (Real.sin (2 * (k * l2)) - Real.sin (2 * (k * l1))) / 2 := by ring
  rw [e4, abs_div]
  have h2 : |(2 : ℝ)| = 2 := by norm_num
  rw [h2, div_le_iff₀ (by norm_num)]
  linarith

/-- The series of the meridional arc is strictly increasing in the latitude when
the third flattening `n` lies in `[0, 1/100]`. -/
theorem meridional_series_strictMono (n φ0 l1 l2 : ℝ) (hn0 : 0 ≤ n) (hn1 : n ≤ 1 / 100)
    (hl : l1 < l2) :
    (1 + n + (5 / 4) * (n * n) + (5 / 4) * (n * n * n)) * (l1 - φ0)
        - (3 * n + 3 * n * n + (21 / 8) * (n * n * n)) * Real.sin (l1 - φ0) * Real.cos (l1 + φ0)
        + ((15 / 8) * (n * n) + (15 / 8) * (n * n * n)) * Real.sin (2 * (l1 - φ0))
          * Real.cos (2 * (l1 + φ0))
        - (35 / 24) * (n * n * n) * Real.sin (3 * (l1 - φ0)) * Real.cos (3 * (l1 + φ0))
      < (1 + n + (5 / 4) * (n * n) + (5 / 4) * (n * n * n)) * (l2 - φ0)
        - (3 * n + 3 * n * n + (21 / 8) * (n * n * n)) * Real.sin (l2 - φ0) * Real.cos (l2 + φ0)
        + ((15 / 8) * (n * n) + (15 / 8) * (n * n * n)) * Real.sin (2 * (l2 - φ0))
          * Real.cos (2 * (l2 + φ0))
        - (35 / 24) * (n * n * n) * Real.sin (3 * (l2 - φ0)) * Real.cos (3 * (l2 + φ0)) := by
  have t1 := arc_term_lipschitz 1 φ0 l1 l2 (by norm_num) hl.le
  have t2 := arc_term_lipschitz 2 φ0 l1 l2 (by norm_num) hl.le
  have t3 := arc_term_lipschitz 3 φ0 l1 l2 (by norm_num) hl.le
  simp only [one_mul] at t1
  rw [abs_le] at t1 t2 t3
  have hd : 0 < l2 - l1 := by linarith
  have hB : 0 ≤ 3 * n + 3 * n * n + (21 / 8) * (n * n * n) := by positivity
  have hC : 0 ≤ (15 / 8) * (n * n) + (15 / 8) * (n * n * n) := by positivity
  have hD : 0 ≤ (35 / 24) * (n * n * n) := by positivity
  have b1 := mul_le_mul_of_nonneg_left t1.2 hB
  have b2 := mul_le_mul_of_nonneg_left t2.1 hC
  have b3 := mul_le_mul_of_nonneg_left t3.2 hD
  have hn2 : n * n ≤ 1 / 100 * n := by nlinarith
  have hn3 : n * n * n ≤ 1 / 10000 * n := by nlinarith
  have hpos : 0 < (1 + n + (5 / 4) * (n * n) + (5 / 4) * (n * n * n))
      - (3 * n + 3 * n * n + (21 / 8) * (n * n * n))
      - 2 * ((15 / 8) * (n * n) + (15 / 8) * (n * n * n))
      - 3 * ((35 / 24) * (n * n * n)) := by nlinarith
  have hfin := mul_pos hpos hd
  linarith
/-- **C12** (amended): in exact real arithmetic, for a projection with `f0 > 0` on
an ellipsoid with `a >= b > 0` whose third flattening `n = (a-b)/(a+b)` is at most
`1/100`, with the longitude held at the central meridian, the northing is strictly
increasing in the latitude: `lat1 < lat2` gives `northing(lat1) < northing(lat2)`.
This holds for all real latitudes, in particular on `[-π/2, π/2]`.  For the
doubles the machine computes the strict inequality fails, see the section on the
northing in double arithmetic. -/
theorem tm_northing_strictMono (proj : os_tm_projection_t ℝ) (lat1 lat2 h1 h2 : ℝ)
    (hf0 : 0 < proj.f0) (hb : 0 < proj.ellipsoid.b) (hab : proj.ellipsoid.b ≤ proj.ellipsoid.a)
    (hn : (proj.ellipsoid.a - proj.ellipsoid.b) / (proj.ellipsoid.a + proj.ellipsoid.b)
      ≤ 1 / 100)
    (hl : lat1 < lat2) :
    (os_lat_lon_to_tm_eas_nor { lat := lat1, lon := DEG_2_RAD PI proj.lon0, eh := h1 } proj).n
      < (os_lat_lon_to_tm_eas_nor
          { lat := lat2, lon := DEG_2_RAD PI proj.lon0, eh := h2 } proj).n := by
  have ha : 0 < proj.ellipsoid.a := lt_of_lt_of_le hb hab
  have hn0 : 0 ≤ (proj.ellipsoid.a - proj.ellipsoid.b)
      / (proj.ellipsoid.a + proj.ellipsoid.b) :=
    div_nonneg (by linarith) (by linarith)
  have hbf : 0 < proj.ellipsoid.b * proj.f0 := mul_pos hb hf0
  have key := meridional_series_strictMono _ (DEG_2_RAD PI proj.lat0) lat1 lat2 hn0 hn hl
  have := mul_lt_mul_of_pos_left key hbf
  simp only [os_lat_lon_to_tm_eas_nor, sub_self, mul_zero, zero_mul, add_zero]
  linarith

/-! ## Instances of the theorems at concrete data -/

theorem tm_northing_strictMono_witness :
    (0 < OS_TM_NATIONAL_GRID.f0 ∧ 0 < OS_TM_NATIONAL_GRID.ellipsoid.b ∧
      OS_TM_NATIONAL_GRID.ellipsoid.b ≤ OS_TM_NATIONAL_GRID.ellipsoid.a ∧
      (OS_TM_NATIONAL_GRID.ellipsoid.a - OS_TM_NATIONAL_GRID.ellipsoid.b)
        / (OS_TM_NATIONAL_GRID.ellipsoid.a + OS_TM_NATIONAL_GRID.ellipsoid.b) ≤ 1 / 100 ∧
      (0 : ℝ) < 1 / 2) ∧
    (os_lat_lon_to_tm_eas_nor
        { lat := 0, lon := DEG_2_RAD PI OS_TM_NATIONAL_GRID.lon0, eh := 0 }
        OS_TM_NATIONAL_GRID).n
      < (os_lat_lon_to_tm_eas_nor
        { lat := 1 / 2, lon := DEG_2_RAD PI OS_TM_NATIONAL_GRID.lon0, eh := 0 }
        OS_TM_NATIONAL_GRID).n :=
  have hf0 : 0 < OS_TM_NATIONAL_GRID.f0 := by norm_num [OS_TM_NATIONAL_GRID]
  have hb : 0 < OS_TM_NATIONAL_GRID.ellipsoid.b := by norm_num [OS_TM_NATIONAL_GRID, AIRY_1830]
  have hab : OS_TM_NATIONAL_GRID.ellipsoid.b ≤ OS_TM_NATIONAL_GRID.ellipsoid.a := by
    norm_num [OS_TM_NATIONAL_GRID, AIRY_1830]
  have hn : (OS_TM_NATIONAL_GRID.ellipsoid.a - OS_TM_NATIONAL_GRID.ellipsoid.b)
      / (OS_TM_NATIONAL_GRID.ellipsoid.a + OS_TM_NATIONAL_GRID.ellipsoid.b) ≤ 1 / 100 := by
    norm_num [OS_TM_NATIONAL_GRID, AIRY_1830]
  have hl : (0 : ℝ) < 1 / 2 := by norm_num
  ⟨⟨hf0, hb, hab, hn, hl⟩,
   tm_northing_strictMono OS_TM_NATIONAL_GRID 0 (1 / 2) 0 0 hf0 hb hab hn hl⟩

theorem origin_terminates_witness :
    (0 ≤ 4 / AIRY_1830.a ∧ 4 / AIRY_1830.a < 2 * Real.pi) ∧
    os_cartesian_to_lat_lon 4 1 { x := 0, y := 0, z := 0 } AIRY_1830
        = Except.error fault.out_of_fuel ∧
      os_cartesian_to_lat_lon 4 2 { x := 0, y := 0, z := 0 } AIRY_1830
        = Except.ok { lat := 0, lon := 0, eh := -AIRY_1830.a } :=
  have h3 : (3 : ℝ) < Real.pi := Real.pi_gt_three
  have hτ0 : 0 ≤ 4 / AIRY_1830.a := by norm_num [AIRY_1830]
  have hτ1 : 4 / AIRY_1830.a < 2 * Real.pi := by
    have : 4 / AIRY_1830.a < 3 := by norm_num [AIRY_1830]
    linarith
  ⟨⟨hτ0, hτ1⟩, origin_terminates 4 AIRY_1830 hτ0 hτ1⟩

theorem nu_assigned_before_read_witness :
    4 / AIRY_1830.a < Real.pi ∧
    os_cartesian_to_lat_lon 4 1 { x := 3874938, y := 116218, z := 5047168 } AIRY_1830
        = Except.error fault.out_of_fuel ∧
      ∀ fuel, os_cartesian_to_lat_lon 4 fuel { x := 3874938, y := 116218, z := 5047168 }
        AIRY_1830 ≠ Except.error fault.indeterminate_nu :=
  have h3 : (3 : ℝ) < Real.pi := Real.pi_gt_three
  have hτ1 : 4 / AIRY_1830.a < Real.pi := by
    have : 4 / AIRY_1830.a < 3 := by norm_num [AIRY_1830]
    linarith
  ⟨hτ1, nu_assigned_before_read 4 { x := 3874938, y := 116218, z := 5047168 } AIRY_1830 hτ1⟩

theorem zero_height_on_ellipsoid_witness :
    (AIRY_1830.b ≤ AIRY_1830.a ∧ 0 < AIRY_1830.b) ∧
    ((os_lat_lon_to_cartesian { lat := 1 / 2, lon := 1, eh := 0 } AIRY_1830).x ^ 2
        + (os_lat_lon_to_cartesian { lat := 1 / 2, lon := 1, eh := 0 } AIRY_1830).y ^ 2)
          / AIRY_1830.a ^ 2
      + (os_lat_lon_to_cartesian { lat := 1 / 2, lon := 1, eh := 0 } AIRY_1830).z ^ 2
          / AIRY_1830.b ^ 2 = 1 :=
  have hab : AIRY_1830.b ≤ AIRY_1830.a := by norm_num [AIRY_1830]
  have hb : 0 < AIRY_1830.b := by norm_num [AIRY_1830]
  ⟨⟨hab, hb⟩, zero_height_on_ellipsoid AIRY_1830 (1 / 2) 1 hab hb⟩

theorem sphere_round_trip_witness :
    (TEST_SPHERE.a = TEST_SPHERE.b ∧ 0 < TEST_SPHERE.a ∧ 0 ≤ 4 / TEST_SPHERE.a ∧
      4 / TEST_SPHERE.a < Real.pi ∧ -TEST_SPHERE.a < TEST_LAT_LON.eh) ∧
    os_cartesian_to_lat_lon 4 1 (os_lat_lon_to_cartesian TEST_LAT_LON TEST_SPHERE) TEST_SPHERE
        = Except.error fault.out_of_fuel ∧
      os_cartesian_to_lat_lon 4 2 (os_lat_lon_to_cartesian TEST_LAT_LON TEST_SPHERE) TEST_SPHERE
        = Except.ok TEST_LAT_LON :=
  have h3 : (3 : ℝ) < Real.pi := Real.pi_gt_three
  have hab : TEST_SPHERE.a = TEST_SPHERE.b := rfl
  have ha : 0 < TEST_SPHERE.a := by norm_num [TEST_SPHERE]
  have hτ0 : 0 ≤ 4 / TEST_SPHERE.a := by norm_num [TEST_SPHERE]
  have hτ1 : 4 / TEST_SPHERE.a < Real.pi := by
    have : 4 / TEST_SPHERE.a < 3 := by norm_num [TEST_SPHERE]
    linarith
  have hh : -TEST_SPHERE.a < TEST_LAT_LON.eh := by norm_num [TEST_SPHERE, TEST_LAT_LON]
  ⟨⟨hab, ha, hτ0, hτ1, hh⟩,
   sphere_round_trip 4 TEST_SPHERE TEST_LAT_LON hab ha hτ0 hτ1
    (by norm_num [TEST_LAT_LON]; linarith) (by norm_num [TEST_LAT_LON]; linarith)
    (by norm_num [TEST_LAT_LON]; linarith) (by norm_num [TEST_LAT_LON]; linarith) hh⟩

theorem grid_ref_injective_witness :
    (⌊TG_POINT.e / 100000⌋ ≠ ⌊(250000 : ℚ) / 100000⌋ ∨
      ⌊TG_POINT.n / 100000⌋ ≠ ⌊(1250000 : ℚ) / 100000⌋) ∧
    ∃ r1 r2, os_eas_nor_to_grid_ref TG_POINT OS_GR_NATIONAL_GRID = some r1 ∧
      os_eas_nor_to_grid_ref ({ e := 250000, n := 1250000, h := 0 } : os_eas_nor_t ℚ)
        OS_GR_NATIONAL_GRID = some r2 ∧
      ∃ i, i < OS_GR_NATIONAL_GRID.num_digits ∧ r1.code i ≠ r2.code i :=
  have f2 : ⌊(250000 : ℚ) / 100000⌋ = 2 := by
    rw [Int.floor_eq_iff]; norm_num
  have f12 : ⌊(1250000 : ℚ) / 100000⌋ = 12 := by
    rw [Int.floor_eq_iff]; norm_num
  have hne : ⌊TG_POINT.e / 100000⌋ ≠ ⌊(250000 : ℚ) / 100000⌋ ∨
      ⌊TG_POINT.n / 100000⌋ ≠ ⌊(1250000 : ℚ) / 100000⌋ := by
    left
    rw [TG_POINT_square.1, f2]
    decide
  ⟨hne,
   grid_ref_injective TG_POINT ({ e := 250000, n := 1250000, h := 0 } : os_eas_nor_t ℚ)
    OS_GR_NATIONAL_GRID (by decide) (by decide) (by decide) (by decide) (by decide)
    (by decide) (by decide)
    (by norm_num [TG_POINT]) (by norm_num [TG_POINT]) (by norm_num) (by norm_num)
    (by rw [TG_POINT_square.1]; decide) (by rw [TG_POINT_square.2]; decide)
    (by show ⌊(250000 : ℚ) / 100000⌋ < _; rw [f2]; decide)
    (by show ⌊(1250000 : ℚ) / 100000⌋ < _; rw [f12]; decide) hne⟩

/-! ## Interval arithmetic -/

theorem icc_self (q : ℝ) : q ∈ Set.Icc q q := ⟨le_rfl, le_rfl⟩

theorem icc_of_eq {x y lo hi : ℝ} (h : x = y) (hy : y ∈ Set.Icc lo hi) : x ∈ Set.Icc lo hi :=
  h ▸ hy

theorem icc_add (lo hi : ℝ) {x y a b c d : ℝ} (hx : x ∈ Set.Icc a b) (hy : y ∈ Set.Icc c d)
    (hlo : lo ≤ a + c) (hhi : b + d ≤ hi) : x + y ∈ Set.Icc lo hi :=
  ⟨by linarith [hx.1, hy.1], by linarith [hx.2, hy.2]⟩

theorem icc_sub (lo hi : ℝ) {x y a b c d : ℝ} (hx : x ∈ Set.Icc a b) (hy : y ∈ Set.Icc c d)
    (hlo : lo ≤ a - d) (hhi : b - c ≤ hi) : x - y ∈ Set.Icc lo hi :=
  ⟨by linarith [hx.1, hy.2], by linarith [hx.2, hy.1]⟩

/-- A product lies between the least and the greatest of the products of the
end points. -/
theorem icc_mul (lo hi : ℝ) {x y a b c d : ℝ} (hx : x ∈ Set.Icc a b) (hy : y ∈ Set.Icc c d)
    (h1 : lo ≤ a * c) (h2 : lo ≤ a * d) (h3 : lo ≤ b * c) (h4 : lo ≤ b * d)
    (h5 : a * c ≤ hi) (h6 : a * d ≤ hi) (h7 : b * c ≤ hi) (h8 : b * d ≤ hi) :
    x * y ∈ Set.Icc lo hi := by
  obtain ⟨hxa, hxb⟩ := hx
  obtain ⟨hyc, hyd⟩ := hy
  have hay_lo : lo ≤ a * y := by
    rcases le_total 0 a with h | h
    · exact le_trans h1 (mul_le_mul_of_nonneg_left hyc h)
    · exact le_trans h2 (mul_le_mul_of_nonpos_left hyd h)
  have hby_lo : lo ≤ b * y := by
    rcases le_total 0 b with h | h
    · exact le_trans h3 (mul_le_mul_of_nonneg_left hyc h)
    · exact le_trans h4 (mul_le_mul_of_nonpos_left hyd h)
  have hay_hi : a * y ≤ hi := by
    rcases le_total 0 a with h | h
    · exact le_trans (mul_le_mul_of_nonneg_left hyd h) h6
    · exact le_trans (mul_le_mul_of_nonpos_left hyc h) h5
  have hby_hi : b * y ≤ hi := by
    rcases le_total 0 b with h | h
    · exact le_trans (mul_le_mul_of_nonneg_left hyd h) h8
    · exact le_trans (mul_le_mul_of_nonpos_left hyc h) h7
  constructor
  · rcases le_total 0 y with h | h
    · exact le_trans hay_lo (mul_le_mul_of_nonneg_right hxa h)
    · exact le_trans hby_lo (mul_le_mul_of_nonpos_right hxb h)
  · rcases le_total 0 y with h | h
    · exact le_trans (mul_le_mul_of_nonneg_right hxb h) hby_hi
    · exact le_trans (mul_le_mul_of_nonpos_right hxa h) hay_hi

theorem icc_inv {y c d : ℝ} (hc : 0 < c) (hy : y ∈ Set.Icc c d) : y⁻¹ ∈ Set.Icc d⁻¹ c⁻¹ := by
  have hy0 : 0 < y := lt_of_lt_of_le hc hy.1
  exact ⟨inv_anti₀ hy0 hy.2, inv_anti₀ hc hy.1⟩

/-- A quotient by a positive quantity lies between the least and the greatest of
the quotients of the end points. -/
theorem icc_div (lo hi : ℝ) {x y a b c d : ℝ} (hx : x ∈ Set.Icc a b) (hy : y ∈ Set.Icc c d)
    (hc : 0 < c)
    (h1 : lo ≤ a / d) (h2 : lo ≤ a / c) (h3 : lo ≤ b / d) (h4 : lo ≤ b / c)
    (h5 : a / d ≤ hi) (h6 : a / c ≤ hi) (h7 : b / d ≤ hi) (h8 : b / c ≤ hi) :
    x / y ∈ Set.Icc lo hi := by
  rw [div_eq_mul_inv]
  simp only [div_eq_mul_inv] at h1 h2 h3 h4 h5 h6 h7 h8
  exact icc_mul lo hi hx (icc_inv hc hy) h1 h2 h3 h4 h5 h6 h7 h8

theorem icc_sqrt (lo hi : ℝ) {x a b : ℝ} (hx : x ∈ Set.Icc a b) (hhi : 0 ≤ hi)
    (h1 : lo * lo ≤ a) (h2 : b ≤ hi * hi) : Real.sqrt x ∈ Set.Icc lo hi := by
  constructor
  · apply Real.le_sqrt_of_sq_le
    rw [sq]
    exact le_trans h1 hx.1
  · rw [Real.sqrt_le_iff, sq]
    exact ⟨hhi, le_trans hx.2 h2⟩
/-! ## Enclosures of sine and cosine -/

theorem taylor_sum12 (x : ℝ) :
    (∑ m ∈ Finset.range 12, ((x : ℂ) * Complex.I) ^ m / (m.factorial : ℂ))
      = ((1 - x ^ 2 / 2 + x ^ 4 / 24 - x ^ 6 / 720 + x ^ 8 / 40320 - x ^ 10 / 3628800 : ℝ) : ℂ)
        + ((x - x ^ 3 / 6 + x ^ 5 / 120 - x ^ 7 / 5040 + x ^ 9 / 362880
            - x ^ 11 / 39916800 : ℝ) : ℂ) * Complex.I := by
  simp only [Finset.sum_range_succ, Finset.sum_range_zero, Nat.factorial, mul_pow]
  have h2 : Complex.I ^ 2 = -1 := Complex.I_sq
  have h3 : Complex.I ^ 3 = -Complex.I := by rw [pow_succ, h2]; ring
  have h4 : Complex.I ^ 4 = 1 := by rw [pow_succ, h3]; ring_nf; rw [h2]; ring
  have h5 : Complex.I ^ 5 = Complex.I := by rw [pow_succ, h4]; ring
  have h6 : Complex.I ^ 6 = -1 := by rw [pow_succ, h5, ← sq, h2]
  have h7 : Complex.I ^ 7 = -Complex.I := by rw [pow_succ, h6]; ring
  have h8 : Complex.I ^ 8 = 1 := by rw [pow_succ, h7]; ring_nf; rw [h2]; ring
  have h9 : Complex.I ^ 9 = Complex.I := by rw [pow_succ, h8]; ring
  have h10 : Complex.I ^ 10 = -1 := by rw [pow_succ, h9, ← sq, h2]
  have h11 : Complex.I ^ 11 = -Complex.I := by rw [pow_succ, h10]; ring
  rw [h2, h3, h4, h5, h6, h7, h8, h9, h10, h11]
  push_cast
  ring

theorem sin_cos_taylor (x : ℝ) (hx : |x| ≤ 1) :
    |Real.cos x - (1 - x ^ 2 / 2 + x ^ 4 / 24 - x ^ 6 / 720 + x ^ 8 / 40320
        - x ^ 10 / 3628800)| ≤ 23 / 10000000000 ∧
    |Real.sin x - (x - x ^ 3 / 6 + x ^ 5 / 120 - x ^ 7 / 5040 + x ^ 9 / 362880
        - x ^ 11 / 39916800)| ≤ 23 / 10000000000 := by
  have habs : Complex.abs ((x : ℂ) * Complex.I) ≤ 1 := by
    rw [map_mul, Complex.abs_I, mul_one, Complex.abs_ofReal]; exact hx
  have hb := Complex.exp_bound habs (n := 12) (by norm_num)
  rw [taylor_sum12] at hb
  have hpow : Complex.abs ((x : ℂ) * Complex.I) ^ 12 ≤ 1 := pow_le_one₀ (by positivity) habs
  have hconst : Complex.abs ((x : ℂ) * Complex.I) ^ 12
      * (((12 : ℕ).succ : ℝ) * (((12 : ℕ).factorial : ℝ) * (12 : ℕ))⁻¹) ≤ 23 / 10000000000 := by
    have h0 : (0 : ℝ) ≤ Complex.abs ((x : ℂ) * Complex.I) ^ 12 := by positivity
    have : (((12 : ℕ).succ : ℝ) * (((12 : ℕ).factorial : ℝ) * (12 : ℕ))⁻¹)
        ≤ 23 / 10000000000 := by
      norm_num [Nat.factorial]
    nlinarith
  have hb2 := le_trans hb hconst
  constructor
  · have h := le_trans (Complex.abs_re_le_abs _) hb2
    rw [Complex.sub_re, Complex.add_re, Complex.exp_ofReal_mul_I_re, Complex.ofReal_re,
      Complex.mul_re, Complex.ofReal_re, Complex.ofReal_im, Complex.I_re, Complex.I_im,
      mul_zero, zero_mul, sub_zero, add_zero] at h
    exact h
  · have h := le_trans (Complex.abs_im_le_abs _) hb2
    rw [Complex.sub_im, Complex.add_im, Complex.exp_ofReal_mul_I_im, Complex.ofReal_im,
      Complex.mul_im, Complex.ofReal_re, Complex.ofReal_im, Complex.I_re, Complex.I_im,
      mul_zero, mul_one, zero_add, add_zero] at h
    exact h

theorem abs_cos_sub_cos_le (u v : ℝ) : |Real.cos u - Real.cos v| ≤ |u - v| := by
  have h := abs_sin_sub_sin_le (u + Real.pi / 2) (v + Real.pi / 2)
  rw [Real.sin_add_pi_div_two, Real.sin_add_pi_div_two] at h
  have e : u + Real.pi / 2 - (v + Real.pi / 2) = u - v := by ring
  rw [e] at h
  exact h

/-- Enclosure of `sin x` from the Taylor polynomial at a point `x0` near `x`. -/
theorem sin_icc (lo hi x x0 δ : ℝ) (hx : |x - x0| ≤ δ) (h0 : |x0| ≤ 1)
    (hlo : lo ≤ x0 - x0 ^ 3 / 6 + x0 ^ 5 / 120 - x0 ^ 7 / 5040 + x0 ^ 9 / 362880
      - x0 ^ 11 / 39916800 - 23 / 10000000000 - δ)
    (hhi : x0 - x0 ^ 3 / 6 + x0 ^ 5 / 120 - x0 ^ 7 / 5040 + x0 ^ 9 / 362880
      - x0 ^ 11 / 39916800 + 23 / 10000000000 + δ ≤ hi) :
    Real.sin x ∈ Set.Icc lo hi := by
  have h1 := le_trans (abs_sin_sub_sin_le x x0) hx
  have h2 := (sin_cos_taylor x0 h0).2
  rw [abs_le] at h1 h2
  constructor <;> linarith [h1.1, h1.2, h2.1, h2.2]

/-- Enclosure of `cos x` from the Taylor polynomial at a point `x0` near `x`. -/
theorem cos_icc (lo hi x x0 δ : ℝ) (hx : |x - x0| ≤ δ) (h0 : |x0| ≤ 1)
    (hlo : lo ≤ 1 - x0 ^ 2 / 2 + x0 ^ 4 / 24 - x0 ^ 6 / 720 + x0 ^ 8 / 40320
      - x0 ^ 10 / 3628800 - 23 / 10000000000 - δ)
    (hhi : 1 - x0 ^ 2 / 2 + x0 ^ 4 / 24 - x0 ^ 6 / 720 + x0 ^ 8 / 40320
      - x0 ^ 10 / 3628800 + 23 / 10000000000 + δ ≤ hi) :
    Real.cos x ∈ Set.Icc lo hi := by
  have h1 := le_trans (abs_cos_sub_cos_le x x0) hx
  have h2 := (sin_cos_taylor x0 h0).1
  rw [abs_le] at h1 h2
  constructor <;> linarith [h1.1, h1.2, h2.1, h2.2]

theorem PI_icc : PI ∈ Set.Icc (314159265358979323846 / 100000000000000000000 : ℝ)
    (314159265358979323847 / 100000000000000000000) := by
  have h1 := Real.pi_gt_d20
  have h2 := Real.pi_lt_d20
  unfold PI
  constructor
  · norm_num at h1 ⊢
    linarith
  · norm_num at h2 ⊢
    linarith

/-- The power `pow(x, 1.5)` of a positive number. -/
theorem rpow_three_halves (x : ℝ) (hx : 0 < x) : x ^ ((3 : ℝ) / 2) = x * Real.sqrt x := by
  have h : (3 : ℝ) / 2 = 1 + 1 / 2 := by norm_num
  rw [h, Real.rpow_add hx, Real.rpow_one, Real.sqrt_eq_rpow]


/-- Enclosure of `cos x` for `x` near `π/2 + x0`, from `cos x = -sin (x - π/2)`. -/
theorem cos_icc_half (lo hi x x0 δ : ℝ) (hx : |x - Real.pi / 2 - x0| ≤ δ) (h0 : |x0| ≤ 1)
    (hlo : lo ≤ -(x0 - x0 ^ 3 / 6 + x0 ^ 5 / 120 - x0 ^ 7 / 5040 + x0 ^ 9 / 362880
      - x0 ^ 11 / 39916800 + 23 / 10000000000 + δ))
    (hhi : -(x0 - x0 ^ 3 / 6 + x0 ^ 5 / 120 - x0 ^ 7 / 5040 + x0 ^ 9 / 362880
      - x0 ^ 11 / 39916800 - 23 / 10000000000 - δ) ≤ hi) :
    Real.cos x ∈ Set.Icc lo hi := by
  have h := sin_icc _ _ (x - Real.pi / 2) x0 δ hx h0 le_rfl le_rfl
  rw [Real.sin_sub_pi_div_two] at h
  constructor <;> linarith [h.1, h.2]

/-- Enclosure of `cos x` for `x` near `π + x0`, from `cos x = -cos (x - π)`. -/
theorem cos_icc_pi (lo hi x x0 δ : ℝ) (hx : |x - Real.pi - x0| ≤ δ) (h0 : |x0| ≤ 1)
    (hlo : lo ≤ -(1 - x0 ^ 2 / 2 + x0 ^ 4 / 24 - x0 ^ 6 / 720 + x0 ^ 8 / 40320
      - x0 ^ 10 / 3628800 + 23 / 10000000000 + δ))
    (hhi : -(1 - x0 ^ 2 / 2 + x0 ^ 4 / 24 - x0 ^ 6 / 720 + x0 ^ 8 / 40320
      - x0 ^ 10 / 3628800 - 23 / 10000000000 - δ) ≤ hi) :
    Real.cos x ∈ Set.Icc lo hi := by
  have h := cos_icc _ _ (x - Real.pi) x0 δ hx h0 le_rfl le_rfl
  rw [Real.cos_sub_pi] at h
  constructor <;> linarith [h.1, h.2]

/-- Enclosure of `cos x` for `x` near `2π + x0`, from `cos x = cos (x - 2π)`. -/
theorem cos_icc_two_pi (lo hi x x0 δ : ℝ) (hx : |x - 2 * Real.pi - x0| ≤ δ) (h0 : |x0| ≤ 1)
    (hlo : lo ≤ 1 - x0 ^ 2 / 2 + x0 ^ 4 / 24 - x0 ^ 6 / 720 + x0 ^ 8 / 40320
      - x0 ^ 10 / 3628800 - 23 / 10000000000 - δ)
    (hhi : 1 - x0 ^ 2 / 2 + x0 ^ 4 / 24 - x0 ^ 6 / 720 + x0 ^ 8 / 40320
      - x0 ^ 10 / 3628800 + 23 / 10000000000 + δ ≤ hi) :
    Real.cos x ∈ Set.Icc lo hi := by
  have h := cos_icc lo hi (x - 2 * Real.pi) x0 δ hx h0 hlo hhi
  rw [Real.cos_sub_two_pi] at h
  exact h
/-! ## The known point of the projection -/

/-- The result of `os_lat_lon_to_tm_eas_nor` written with names for the local
variables of the function. -/
theorem tm_unfold (point : os_lat_lon_t ℝ) (proj : os_tm_projection_t ℝ)
    (a b f0 e0 n0 lat0 lon0 lat lon e2 n n2 n3 cosLat sinLat W sw nu rp rho eta2 s1 c1 s2 c2 s3 c3 dlat Ma Mb Mc Md M cos3lat cos5lat tl tan2lat tan4lat I1 I2 I3 I3A I4 I5 I6 dLon dLon2 dLon3 dLon4 dLon5 dLon6 N E : ℝ)
    (u_a : a = proj.ellipsoid.a)
    (u_b : b = proj.ellipsoid.b)
    (u_f0 : f0 = proj.f0)
    (u_e0 : e0 = proj.e0)
    (u_n0 : n0 = proj.n0)
    (u_lat0 : lat0 = DEG_2_RAD PI proj.lat0)
    (u_lon0 : lon0 = DEG_2_RAD PI proj.lon0)
    (u_lat : lat = point.lat)
    (u_lon : lon = point.lon)
    (h_e2 : e2 = (1 - ((b * b) / (a * a))))
    (h_n : n = ((a - b) / (a + b)))
    (h_n2 : n2 = (n * n))
    (h_n3 : n3 = ((n * n) * n))
    (u_cosLat : cosLat = Real.cos lat)
    (u_sinLat : sinLat = Real.sin lat)
    (h_W : W = (1 - ((e2 * sinLat) * sinLat)))
    (u_sw : sw = Real.sqrt W)
    (h_nu : nu = ((a * f0) / sw))
    (u_rp : rp = W ^ ((3 : ℝ) / 2))
    (h_rho : rho = (((a * f0) * (1 - e2)) / rp))
    (h_eta2 : eta2 = ((nu / rho) - 1))
    (u_s1 : s1 = Real.sin (lat - lat0))
    (u_c1 : c1 = Real.cos (lat + lat0))
    (u_s2 : s2 = Real.sin (2 * (lat - lat0)))
    (u_c2 : c2 = Real.cos (2 * (lat + lat0)))
    (u_s3 : s3 = Real.sin (3 * (lat - lat0)))
    (u_c3 : c3 = Real.cos (3 * (lat + lat0)))
    (h_dlat : dlat = (lat - lat0))
    (h_Ma : Ma = ((((1 + n) + ((5 / 4) * n2)) + ((5 / 4) * n3)) * dlat))
    (h_Mb : Mb = (((((3 * n) + ((3 * n) * n)) + ((21 / 8) * n3)) * s1) * c1))
    (h_Mc : Mc = (((((15 / 8) * n2) + ((15 / 8) * n3)) * s2) * c2))
    (h_Md : Md = ((((35 / 24) * n3) * s3) * c3))
    (h_M : M = ((b * f0) * (((Ma - Mb) + Mc) - Md)))
    (h_cos3lat : cos3lat = ((cosLat * cosLat) * cosLat))
    (h_cos5lat : cos5lat = ((cos3lat * cosLat) * cosLat))
    (u_tl : tl = Real.tan lat)
    (h_tan2lat : tan2lat = (tl * tl))
    (h_tan4lat : tan4lat = (tan2lat * tan2lat))
    (h_I1 : I1 = (M + n0))
    (h_I2 : I2 = (((nu / 2) * sinLat) * cosLat))
    (h_I3 : I3 = ((((nu / 24) * sinLat) * cos3lat) * ((5 - tan2lat) + (9 * eta2))))
    (h_I3A : I3A = ((((nu / 720) * sinLat) * cos5lat) * ((61 - (58 * tan2lat)) + tan4lat)))
    (h_I4 : I4 = (nu * cosLat))
    (h_I5 : I5 = (((nu / 6) * cos3lat) * ((nu / rho) - tan2lat)))
    (h_I6 : I6 = (((nu / 120) * cos5lat) * ((((5 - (18 * tan2lat)) + tan4lat) + (14 * eta2)) - ((58 * tan2lat) * eta2))))
    (h_dLon : dLon = (lon - lon0))
    (h_dLon2 : dLon2 = (dLon * dLon))
    (h_dLon3 : dLon3 = (dLon2 * dLon))
    (h_dLon4 : dLon4 = (dLon3 * dLon))
    (h_dLon5 : dLon5 = (dLon4 * dLon))
    (h_dLon6 : dLon6 = (dLon5 * dLon))
    (h_N : N = (((I1 + (I2 * dLon2)) + (I3 * dLon4)) + (I3A * dLon6)))
    (h_E : E = (((e0 + (I4 * dLon)) + (I5 * dLon3)) + (I6 * dLon5))) :
    (os_lat_lon_to_tm_eas_nor point proj).e = E ∧
      (os_lat_lon_to_tm_eas_nor point proj).n = N := by
  subst_vars
  exact ⟨rfl, rfl⟩

/-- Interval evaluation of the projection formulas at latitude 52.65757 and
longitude 1.71791 degrees on the Airy 1830 ellipsoid, from enclosures of `π` and
of the sines and cosines involved. -/
theorem tm_interval_evaluation (pi : ℝ)
    (a b f0 e0 n0 lat0 lon0 lat lon e2 n n2 n3 cosLat sinLat W sw nu rp rho eta2 s1 c1 s2 c2 s3 c3 dlat Ma Mb Mc Md M cos3lat cos5lat tl tan2lat tan4lat I1 I2 I3 I3A I4 I5 I6 dLon dLon2 dLon3 dLon4 dLon5 dLon6 N E : ℝ)
    (h_pi : pi ∈ Set.Icc (314159265358979323846 / 100000000000000000000 : ℝ)
      (314159265358979323847 / 100000000000000000000))
    (k_a : a = (6377563396 / 1000))
    (k_b : b = (6356256909 / 1000))
    (k_f0 : f0 = (9996012717 / 10000000000))
    (k_e0 : e0 = 400000)
    (k_n0 : n0 = (-100000))
    (k_lat0 : lat0 = ((49 * pi) / 180))
    (k_lon0 : lon0 = (((-2) * pi) / 180))
    (k_lat : lat = (((5265757 / 100000) * pi) / 180))
    (k_lon : lon = (((171791 / 100000) * pi) / 180))
    (h_e2 : e2 = (1 - ((b * b) / (a * a))))
    (h_n : n = ((a - b) / (a + b)))
    (h_n2 : n2 = (n * n))
    (h_n3 : n3 = ((n * n) * n))
    (h_cosLat : cosLat ∈ Set.Icc ((606577313472 / 1000000000000) : ℝ) (606577318073 / 1000000000000))
    (h_sinLat : sinLat ∈ Set.Icc ((795024499831 / 1000000000000) : ℝ) (795024504432 / 1000000000000))
    (h_W : W = (1 - ((e2 * sinLat) * sinLat)))
    (h_sw : sw = Real.sqrt W)
    (h_nu : nu = ((a * f0) / sw))
    (h_rp : rp = W ^ ((3 : ℝ) / 2))
    (h_rho : rho = (((a * f0) * (1 - e2)) / rp))
    (h_eta2 : eta2 = ((nu / rho) - 1))
    (h_s1 : s1 ∈ Set.Icc ((63793288698 / 1000000000000) : ℝ) (63793293299 / 1000000000000))
    (h_c1 : c1 ∈ Set.Icc ((-202062085323 / 1000000000000) : ℝ) (-202062080722 / 1000000000000))
    (h_s2 : s2 ∈ Set.Icc ((127326702875 / 1000000000000) : ℝ) (127326707476 / 1000000000000))
    (h_c2 : c2 ∈ Set.Icc ((-918341831509 / 1000000000000) : ℝ) (-918341826908 / 1000000000000))
    (h_s3 : s3 ∈ Set.Icc ((190341422076 / 1000000000000) : ℝ) (190341426677 / 1000000000000))
    (h_c3 : c3 ∈ Set.Icc ((573186205317 / 1000000000000) : ℝ) (573186209918 / 1000000000000))
    (h_dlat : dlat = (lat - lat0))
    (h_Ma : Ma = ((((1 + n) + ((5 / 4) * n2)) + ((5 / 4) * n3)) * dlat))
    (h_Mb : Mb = (((((3 * n) + ((3 * n) * n)) + ((21 / 8) * n3)) * s1) * c1))
    (h_Mc : Mc = (((((15 / 8) * n2) + ((15 / 8) * n3)) * s2) * c2))
    (h_Md : Md = ((((35 / 24) * n3) * s3) * c3))
    (h_M : M = ((b * f0) * (((Ma - Mb) + Mc) - Md)))
    (h_cos3lat : cos3lat = ((cosLat * cosLat) * cosLat))
    (h_cos5lat : cos5lat = ((cos3lat * cosLat) * cosLat))
    (h_tl : tl = sinLat / cosLat)
    (h_tan2lat : tan2lat = (tl * tl))
    (h_tan4lat : tan4lat = (tan2lat * tan2lat))
    (h_I1 : I1 = (M + n0))
    (h_I2 : I2 = (((nu / 2) * sinLat) * cosLat))
    (h_I3 : I3 = ((((nu / 24) * sinLat) * cos3lat) * ((5 - tan2lat) + (9 * eta2))))
    (h_I3A : I3A = ((((nu / 720) * sinLat) * cos5lat) * ((61 - (58 * tan2lat)) + tan4lat)))
    (h_I4 : I4 = (nu * cosLat))
    (h_I5 : I5 = (((nu / 6) * cos3lat) * ((nu / rho) - tan2lat)))
    (h_I6 : I6 = (((nu / 120) * cos5lat) * ((((5 - (18 * tan2lat)) + tan4lat) + (14 * eta2)) - ((58 * tan2lat) * eta2))))
    (h_dLon : dLon = (lon - lon0))
    (h_dLon2 : dLon2 = (dLon * dLon))
    (h_dLon3 : dLon3 = (dLon2 * dLon))
    (h_dLon4 : dLon4 = (dLon3 * dLon))
    (h_dLon5 : dLon5 = (dLon4 * dLon))
    (h_dLon6 : dLon6 = (dLon5 * dLon))
    (h_N : N = (((I1 + (I2 * dLon2)) + (I3 * dLon4)) + (I3A * dLon6)))
    (h_E : E = (((e0 + (I4 * dLon)) + (I5 * dLon3)) + (I6 * dLon5))) :
    |E - 651409903 / 1000| < 1 ∧ |N - 313177270 / 1000| < 1 := by
  have i_a : a ∈ Set.Icc (6377563396 / 1000) (6377563396 / 1000) := icc_of_eq k_a (icc_self (6377563396 / 1000))
  have i_b : b ∈ Set.Icc (6356256909 / 1000) (6356256909 / 1000) := icc_of_eq k_b (icc_self (6356256909 / 1000))
  have i_f0 : f0 ∈ Set.Icc (9996012717 / 10000000000) (9996012717 / 10000000000) := icc_of_eq k_f0 (icc_self (9996012717 / 10000000000))
  have i_e0 : e0 ∈ Set.Icc 400000 400000 := icc_of_eq k_e0 (icc_self 400000)
  have i_n0 : n0 ∈ Set.Icc (-100000) (-100000) := icc_of_eq k_n0 (icc_self (-100000))
  have t1 : (49 * pi) ∈ Set.Icc (1539380400258998686845 / 10000000000000000000) (1539380400258998686851 / 10000000000000000000) :=
    icc_mul (1539380400258998686845 / 10000000000000000000) (1539380400258998686851 / 10000000000000000000) (icc_self 49) (h_pi) (by norm_num) (by norm_num) (by norm_num) (by norm_num) (by norm_num) (by norm_num) (by norm_num) (by norm_num)
  have t2 : ((49 * pi) / 180) ∈ Set.Icc (8552113334772214926916 / 10000000000000000000000) (855211333477221492695 / 1000000000000000000000) :=
    icc_div (8552113334772214926916 / 10000000000000000000000) (855211333477221492695 / 1000000000000000000000) (t1) (icc_self 180) (by norm_num) (by norm_num) (by norm_num) (by norm_num) (by norm_num) (by norm_num) (by norm_num) (by norm_num) (by norm_num)
  have i_lat0 : lat0 ∈ Set.Icc (8552113334772214926916 / 10000000000000000000000) (855211333477221492695 / 1000000000000000000000) :=
    icc_of_eq k_lat0 t2
  have t3 : ((-2) * pi) ∈ Set.Icc (-628318530717958647694 / 100000000000000000000) (-628318530717958647692 / 100000000000000000000) :=
    icc_mul (-628318530717958647694 / 100000000000000000000) (-628318530717958647692 / 100000000000000000000) (icc_self (-2)) (h_pi) (by norm_num) (by norm_num) (by norm_num) (by norm_num) (by norm_num) (by norm_num) (by norm_num) (by norm_num)
  have t4 : (((-2) * pi) / 180) ∈ Set.Icc (-3490658503988659153856 / 100000000000000000000000) (-3490658503988659153844 / 100000000000000000000000) :=
    icc_div (-3490658503988659153856 / 100000000000000000000000) (-3490658503988659153844 / 100000000000000000000000) (t3) (icc_self 180) (by norm_num) (by norm_num) (by norm_num) (by norm_num) (by norm_num) (by norm_num) (by norm_num) (by norm_num) (by norm_num)
  have i_lon0 : lon0 ∈ Set.Icc (-3490658503988659153856 / 100000000000000000000000) (-3490658503988659153844 / 100000000000000000000000) :=
    icc_of_eq k_lon0 t4
  have t5 : ((5265757 / 100000) * pi) ∈ Set.Icc (1654286350678902887397 / 10000000000000000000) (1654286350678902887403 / 10000000000000000000) :=
    icc_mul (1654286350678902887397 / 10000000000000000000) (1654286350678902887403 / 10000000000000000000) (icc_self (5265757 / 100000)) (h_pi) (by norm_num) (by norm_num) (by norm_num) (by norm_num) (by norm_num) (by norm_num) (by norm_num) (by norm_num)
  have t6 : (((5265757 / 100000) * pi) / 180) ∈ Set.Icc (9190479725993904929983 / 10000000000000000000000) (9190479725993904930017 / 10000000000000000000000) :=
    icc_div (9190479725993904929983 / 10000000000000000000000) (9190479725993904930017 / 10000000000000000000000) (t5) (icc_self 180) (by norm_num) (by norm_num) (by norm_num) (by norm_num) (by norm_num) (by norm_num) (by norm_num) (by norm_num) (by norm_num)
  have i_lat : lat ∈ Set.Icc (9190479725993904929983 / 10000000000000000000000) (9190479725993904930017 / 10000000000000000000000) :=
    icc_of_eq k_lat t6
  have t7 : ((171791 / 100000) * pi) ∈ Set.Icc (5396973435528441702282 / 1000000000000000000000) (53969734355284417023 / 10000000000000000000) :=
    icc_mul (5396973435528441702282 / 1000000000000000000000) (53969734355284417023 / 10000000000000000000) (icc_self (171791 / 100000)) (h_pi) (by norm_num) (by norm_num) (by norm_num) (by norm_num) (by norm_num) (by norm_num) (by norm_num) (by norm_num)
  have t8 : (((171791 / 100000) * pi) / 180) ∈ Set.Icc (299831857529357872349 / 10000000000000000000000) (29983185752935787235 / 1000000000000000000000) :=
    icc_div (299831857529357872349 / 10000000000000000000000) (29983185752935787235 / 1000000000000000000000) (t7) (icc_self 180) (by norm_num) (by norm_num) (by norm_num) (by norm_num) (by norm_num) (by norm_num) (by norm_num) (by norm_num) (by norm_num)
  have i_lon : lon ∈ Set.Icc (299831857529357872349 / 10000000000000000000000) (29983185752935787235 / 1000000000000000000000) :=
    icc_of_eq k_lon t8
  have t9 : (b * b) ∈ Set.Icc (40402001893210234281 / 1000000) (40402001893210234281 / 1000000) :=
    icc_mul (40402001893210234281 / 1000000) (40402001893210234281 / 1000000) (i_b) (i_b) (by norm_num) (by norm_num) (by norm_num) (by norm_num) (by norm_num) (by norm_num) (by norm_num) (by norm_num)
  have t10 : (a * a) ∈ Set.Icc (40673314869999052816 / 1000000) (40673314869999052816 / 1000000) :=
    icc_mul (40673314869999052816 / 1000000) (40673314869999052816 / 1000000) (i_a) (i_a) (by norm_num) (by norm_num) (by norm_num) (by norm_num) (by norm_num) (by norm_num) (by norm_num) (by norm_num)
  have t11 : ((b * b) / (a * a)) ∈ Set.Icc (9933294599258507681788 / 10000000000000000000000) (9933294599258507681789 / 10000000000000000000000) :=
    icc_div (9933294599258507681788 / 10000000000000000000000) (9933294599258507681789 / 10000000000000000000000) (t9) (t10) (by norm_num) (by norm_num) (by norm_num) (by norm_num) (by norm_num) (by norm_num) (by norm_num) (by norm_num) (by norm_num)
  have t12 : (1 - ((b * b) / (a * a))) ∈ Set.Icc (66705400741492318211 / 10000000000000000000000) (66705400741492318212 / 10000000000000000000000) :=
    icc_sub (66705400741492318211 / 10000000000000000000000) (66705400741492318212 / 10000000000000000000000) (icc_self 1) (t11) (by norm_num) (by norm_num)
  have i_e2 : e2 ∈ Set.Icc (66705400741492318211 / 10000000000000000000000) (66705400741492318212 / 10000000000000000000000) :=
    icc_of_eq h_e2 t12
  have t13 : (a - b) ∈ Set.Icc (21306487 / 1000) (21306487 / 1000) :=
    icc_sub (21306487 / 1000) (21306487 / 1000) (i_a) (i_b) (by norm_num) (by norm_num)
  have t14 : (a + b) ∈ Set.Icc (12733820305 / 1000) (12733820305 / 1000) :=
    icc_add (12733820305 / 1000) (12733820305 / 1000) (i_a) (i_b) (by norm_num) (by norm_num)
  have t15 : ((a - b) / (a + b)) ∈ Set.Icc (1673220328987515110061 / 1000000000000000000000000) (1673220328987515110062 / 1000000000000000000000000) :=
    icc_div (1673220328987515110061 / 1000000000000000000000000) (1673220328987515110062 / 1000000000000000000000000) (t13) (t14) (by norm_num) (by norm_num) (by norm_num) (by norm_num) (by norm_num) (by norm_num) (by norm_num) (by norm_num) (by norm_num)
  have i_n : n ∈ Set.Icc (1673220328987515110061 / 1000000000000000000000000) (1673220328987515110062 / 1000000000000000000000000) :=
    icc_of_eq h_n t15
  have t16 : (n * n) ∈ Set.Icc (2799666269337088297697 / 1000000000000000000000000000) (2799666269337088297701 / 1000000000000000000000000000) :=
    icc_mul (2799666269337088297697 / 1000000000000000000000000000) (2799666269337088297701 / 1000000000000000000000000000) (i_n) (i_n) (by norm_num) (by norm_num) (by norm_num) (by norm_num) (by norm_num) (by norm_num) (by norm_num) (by norm_num)
  have i_n2 : n2 ∈ Set.Icc (2799666269337088297697 / 1000000000000000000000000000) (2799666269337088297701 / 1000000000000000000000000000) :=
    icc_of_eq h_n2 t16
  have t17 : (n * n) ∈ Set.Icc (2799666269337088297697 / 1000000000000000000000000000) (2799666269337088297701 / 1000000000000000000000000000) :=
    icc_mul (2799666269337088297697 / 1000000000000000000000000000) (2799666269337088297701 / 1000000000000000000000000000) (i_n) (i_n) (by norm_num) (by norm_num) (by norm_num) (by norm_num) (by norm_num) (by norm_num) (by norm_num) (by norm_num)
  have t18 : ((n * n) * n) ∈ Set.Icc (4684458516235451968136 / 1000000000000000000000000000000) (4684458516235451968146 / 1000000000000000000000000000000) :=
    icc_mul (4684458516235451968136 / 1000000000000000000000000000000) (4684458516235451968146 / 1000000000000000000000000000000) (t17) (i_n) (by norm_num) (by norm_num) (by norm_num) (by norm_num) (by norm_num) (by norm_num) (by norm_num) (by norm_num)
  have i_n3 : n3 ∈ Set.Icc (4684458516235451968136 / 1000000000000000000000000000000) (4684458516235451968146 / 1000000000000000000000000000000) :=
    icc_of_eq h_n3 t18
  have t19 : (e2 * sinLat) ∈ Set.Icc (5303242786053134681422 / 1000000000000000000000000) (5303242816744289562664 / 1000000000000000000000000) :=
    icc_mul (5303242786053134681422 / 1000000000000000000000000) (5303242816744289562664 / 1000000000000000000000000) (i_e2) (h_sinLat) (by norm_num) (by norm_num) (by norm_num) (by norm_num) (by norm_num) (by norm_num) (by norm_num) (by norm_num)
  have t20 : ((e2 * sinLat) * sinLat) ∈ Set.Icc (4216207943464252342687 / 1000000000000000000000000) (4216207992264692601223 / 1000000000000000000000000) :=
    icc_mul (4216207943464252342687 / 1000000000000000000000000) (4216207992264692601223 / 1000000000000000000000000) (t19) (h_sinLat) (by norm_num) (by norm_num) (by norm_num) (by norm_num) (by norm_num) (by norm_num) (by norm_num) (by norm_num)
  have t21 : (1 - ((e2 * sinLat) * sinLat)) ∈ Set.Icc (9957837920077353073987 / 10000000000000000000000) (9957837920565357476574 / 10000000000000000000000) :=
    icc_sub (9957837920077353073987 / 10000000000000000000000) (9957837920565357476574 / 10000000000000000000000) (icc_self 1) (t20) (by norm_num) (by norm_num)
  have i_W : W ∈ Set.Icc (9957837920077353073987 / 10000000000000000000000) (9957837920565357476574 / 10000000000000000000000) :=
    icc_of_eq h_W t21
  have i_sw : sw ∈ Set.Icc (9978896692559429976 / 10000000000000000000) (99788966928039481917 / 100000000000000000000) :=
    icc_of_eq h_sw (icc_sqrt (9978896692559429976 / 10000000000000000000) (99788966928039481917 / 100000000000000000000) i_W (by norm_num) (by norm_num) (by norm_num))
  have t22 : (a * f0) ∈ Set.Icc (63750204809889706932 / 10000000000000) (63750204809889706932 / 10000000000000) :=
    icc_mul (63750204809889706932 / 10000000000000) (63750204809889706932 / 10000000000000) (i_a) (i_f0) (by norm_num) (by norm_num) (by norm_num) (by norm_num) (by norm_num) (by norm_num) (by norm_num) (by norm_num)
  have t23 : ((a * f0) / sw) ∈ Set.Icc (6388502333716081127773 / 1000000000000000) (6388502333872621999952 / 1000000000000000) :=
    icc_div (6388502333716081127773 / 1000000000000000) (6388502333872621999952 / 1000000000000000) (t22) (i_sw) (by norm_num) (by norm_num) (by norm_num) (by norm_num) (by norm_num) (by norm_num) (by norm_num) (by norm_num) (by norm_num)
  have i_nu : nu ∈ Set.Icc (6388502333716081127773 / 1000000000000000) (6388502333872621999952 / 1000000000000000) :=
    icc_of_eq h_nu t23
  have t24 : (W * sw) ∈ Set.Icc (9936823588570277200276 / 10000000000000000000000) (9936823589300739028227 / 10000000000000000000000) :=
    icc_mul (9936823588570277200276 / 10000000000000000000000) (9936823589300739028227 / 10000000000000000000000) (i_W) (i_sw) (by norm_num) (by norm_num) (by norm_num) (by norm_num) (by norm_num) (by norm_num) (by norm_num) (by norm_num)
  have i_rp : rp ∈ Set.Icc (9936823588570277200276 / 10000000000000000000000) (9936823589300739028227 / 10000000000000000000000) := by
    rw [h_rp, rpow_three_halves W (lt_of_lt_of_le (by norm_num) i_W.1), ← h_sw]
    exact t24
  have t25 : (a * f0) ∈ Set.Icc (63750204809889706932 / 10000000000000) (63750204809889706932 / 10000000000000) :=
    icc_mul (63750204809889706932 / 10000000000000) (63750204809889706932 / 10000000000000) (i_a) (i_f0) (by norm_num) (by norm_num) (by norm_num) (by norm_num) (by norm_num) (by norm_num) (by norm_num) (by norm_num)
  have t26 : (1 - e2) ∈ Set.Icc (9933294599258507681788 / 10000000000000000000000) (9933294599258507681789 / 10000000000000000000000) :=
    icc_sub (9933294599258507681788 / 10000000000000000000000) (9933294599258507681789 / 10000000000000000000000) (icc_self 1) (i_e2) (by norm_num) (by norm_num)
  have t27 : ((a * f0) * (1 - e2)) ∈ Set.Icc (6332495651397011653122 / 1000000000000000) (6332495651397011653124 / 1000000000000000) :=
    icc_mul (6332495651397011653122 / 1000000000000000) (6332495651397011653124 / 1000000000000000) (t25) (t26) (by norm_num) (by norm_num) (by norm_num) (by norm_num) (by norm_num) (by norm_num) (by norm_num) (by norm_num)
  have t28 : (((a * f0) * (1 - e2)) / rp) ∈ Set.Icc (637275643920597531628 / 100000000000000) (6372756439674440442606 / 1000000000000000) :=
    icc_div (637275643920597531628 / 100000000000000) (6372756439674440442606 / 1000000000000000) (t27) (i_rp) (by norm_num) (by norm_num) (by norm_num) (by norm_num) (by norm_num) (by norm_num) (by norm_num) (by norm_num) (by norm_num)
  have i_rho : rho ∈ Set.Icc (637275643920597531628 / 100000000000000) (6372756439674440442606 / 1000000000000000) :=
    icc_of_eq h_rho t28
  have t29 : (nu / rho) ∈ Set.Icc (1002470813719415437472 / 1000000000000000000000) (1002470813817671740619 / 1000000000000000000000) :=
    icc_div (1002470813719415437472 / 1000000000000000000000) (1002470813817671740619 / 1000000000000000000000) (i_nu) (i_rho) (by norm_num) (by norm_num) (by norm_num) (by norm_num) (by norm_num) (by norm_num) (by norm_num) (by norm_num) (by norm_num)
  have t30 : ((nu / rho) - 1) ∈ Set.Icc (2470813719415437472 / 1000000000000000000000) (2470813817671740619 / 1000000000000000000000) :=
    icc_sub (2470813719415437472 / 1000000000000000000000) (2470813817671740619 / 1000000000000000000000) (t29) (icc_self 1) (by norm_num) (by norm_num)
  have i_eta2 : eta2 ∈ Set.Icc (2470813719415437472 / 1000000000000000000000) (2470813817671740619 / 1000000000000000000000) :=
    icc_of_eq h_eta2 t30
  have t31 : (lat - lat0) ∈ Set.Icc (638366391221690003033 / 10000000000000000000000) (638366391221690003101 / 10000000000000000000000) :=
    icc_sub (638366391221690003033 / 10000000000000000000000) (638366391221690003101 / 10000000000000000000000) (i_lat) (i_lat0) (by norm_num) (by norm_num)
  have i_dlat : dlat ∈ Set.Icc (638366391221690003033 / 10000000000000000000000) (638366391221690003101 / 10000000000000000000000) :=
    icc_of_eq h_dlat t31
  have t32 : (1 + n) ∈ Set.Icc (100167322032898751511 / 100000000000000000000) (1001673220328987515111 / 1000000000000000000000) :=
    icc_add (100167322032898751511 / 100000000000000000000) (1001673220328987515111 / 1000000000000000000000) (icc_self 1) (i_n) (by norm_num) (by norm_num)
  have t33 : ((5 / 4) * n2) ∈ Set.Icc (3499582836671360372121 / 1000000000000000000000000000) (3499582836671360372127 / 1000000000000000000000000000) :=
    icc_mul (3499582836671360372121 / 1000000000000000000000000000) (3499582836671360372127 / 1000000000000000000000000000) (icc_self (5 / 4)) (i_n2) (by norm_num) (by norm_num) (by norm_num) (by norm_num) (by norm_num) (by norm_num) (by norm_num) (by norm_num)
  have t34 : ((1 + n) + ((5 / 4) * n2)) ∈ Set.Icc (100167671991182418647 / 100000000000000000000) (1001676719911824186472 / 1000000000000000000000) :=
    icc_add (100167671991182418647 / 100000000000000000000) (1001676719911824186472 / 1000000000000000000000) (t32) (t33) (by norm_num) (by norm_num)
  have t35 : ((5 / 4) * n3) ∈ Set.Icc (585557314529431496017 / 100000000000000000000000000000) (5855573145294314960183 / 1000000000000000000000000000000) :=
    icc_mul (585557314529431496017 / 100000000000000000000000000000) (5855573145294314960183 / 1000000000000000000000000000000) (icc_self (5 / 4)) (i_n3) (by norm_num) (by norm_num) (by norm_num) (by norm_num) (by norm_num) (by norm_num) (by norm_num) (by norm_num)
  have t36 : (((1 + n) + ((5 / 4) * n2)) + ((5 / 4) * n3)) ∈ Set.Icc (1001676725767397331764 / 1000000000000000000000) (1001676725767397331767 / 1000000000000000000000) :=
    icc_add (1001676725767397331764 / 1000000000000000000000) (1001676725767397331767 / 1000000000000000000000) (t34) (t35) (by norm_num) (by norm_num)
  have t37 : ((((1 + n) + ((5 / 4) * n2)) + ((5 / 4) * n3)) * dlat) ∈ Set.Icc (6394367565988918565146 / 100000000000000000000000) (6394367565988918565848 / 100000000000000000000000) :=
    icc_mul (6394367565988918565146 / 100000000000000000000000) (6394367565988918565848 / 100000000000000000000000) (t36) (i_dlat) (by norm_num) (by norm_num) (by norm_num) (by norm_num) (by norm_num) (by norm_num) (by norm_num) (by norm_num)
  have i_Ma : Ma ∈ Set.Icc (6394367565988918565146 / 100000000000000000000000) (6394367565988918565848 / 100000000000000000000000) :=
    icc_of_eq h_Ma t37
  have t38 : (3 * n) ∈ Set.Icc (5019660986962545330183 / 1000000000000000000000000) (5019660986962545330186 / 1000000000000000000000000) :=
    icc_mul (5019660986962545330183 / 1000000000000000000000000) (5019660986962545330186 / 1000000000000000000000000) (icc_self 3) (i_n) (by norm_num) (by norm_num) (by norm_num) (by norm_num) (by norm_num) (by norm_num) (by norm_num) (by norm_num)
  have t39 : (3 * n) ∈ Set.Icc (5019660986962545330183 / 1000000000000000000000000) (5019660986962545330186 / 1000000000000000000000000) :=
    icc_mul (5019660986962545330183 / 1000000000000000000000000) (5019660986962545330186 / 1000000000000000000000000) (icc_self 3) (i_n) (by norm_num) (by norm_num) (by norm_num) (by norm_num) (by norm_num) (by norm_num) (by norm_num) (by norm_num)
  have t40 : ((3 * n) * n) ∈ Set.Icc (8398998808011264893092 / 1000000000000000000000000000) (8398998808011264893103 / 1000000000000000000000000000) :=
    icc_mul (8398998808011264893092 / 1000000000000000000000000000) (8398998808011264893103 / 1000000000000000000000000000) (t39) (i_n) (by norm_num) (by norm_num) (by norm_num) (by norm_num) (by norm_num) (by norm_num) (by norm_num) (by norm_num)
  have t41 : ((3 * n) + ((3 * n) * n)) ∈ Set.Icc (5028059985770556595076 / 1000000000000000000000000) (502805998577055659508 / 100000000000000000000000) :=
    icc_add (5028059985770556595076 / 1000000000000000000000000) (502805998577055659508 / 100000000000000000000000) (t38) (t40) (by norm_num) (by norm_num)
  have t42 : ((21 / 8) * n3) ∈ Set.Icc (1229670360511806141635 / 100000000000000000000000000000) (1229670360511806141639 / 100000000000000000000000000000) :=
    icc_mul (1229670360511806141635 / 100000000000000000000000000000) (1229670360511806141639 / 100000000000000000000000000000) (icc_self (21 / 8)) (i_n3) (by norm_num) (by norm_num) (by norm_num) (by norm_num) (by norm_num) (by norm_num) (by norm_num) (by norm_num)
  have t43 : (((3 * n) + ((3 * n) * n)) + ((21 / 8) * n3)) ∈ Set.Icc (5028072282474161713137 / 1000000000000000000000000) (5028072282474161713142 / 1000000000000000000000000) :=
    icc_add (5028072282474161713137 / 1000000000000000000000000) (5028072282474161713142 / 1000000000000000000000000) (t41) (t42) (by norm_num) (by norm_num)
  have t44 : ((((3 * n) + ((3 * n) * n)) + ((21 / 8) * n3)) * s1) ∈ Set.Icc (3207572667102860038916 / 10000000000000000000000000) (3207572898444465755557 / 10000000000000000000000000) :=
    icc_mul (3207572667102860038916 / 10000000000000000000000000) (3207572898444465755557 / 10000000000000000000000000) (t43) (h_s1) (by norm_num) (by norm_num) (by norm_num) (by norm_num) (by norm_num) (by norm_num) (by norm_num) (by norm_num)
  have t45 : (((((3 * n) + ((3 * n) * n)) + ((21 / 8) * n3)) * s1) * c1) ∈ Set.Icc (-6481288686852280534766 / 100000000000000000000000000) (-6481288071818189390605 / 100000000000000000000000000) :=
    icc_mul (-6481288686852280534766 / 100000000000000000000000000) (-6481288071818189390605 / 100000000000000000000000000) (t44) (h_c1) (by norm_num) (by norm_num) (by norm_num) (by norm_num) (by norm_num) (by norm_num) (by norm_num) (by norm_num)
  have i_Mb : Mb ∈ Set.Icc (-6481288686852280534766 / 100000000000000000000000000) (-6481288071818189390605 / 100000000000000000000000000) :=
    icc_of_eq h_Mb t45
  have t46 : ((15 / 8) * n2) ∈ Set.Icc (5249374255007040558181 / 1000000000000000000000000000) (524937425500704055819 / 100000000000000000000000000) :=
    icc_mul (5249374255007040558181 / 1000000000000000000000000000) (524937425500704055819 / 100000000000000000000000000) (icc_self (15 / 8)) (i_n2) (by norm_num) (by norm_num) (by norm_num) (by norm_num) (by norm_num) (by norm_num) (by norm_num) (by norm_num)
  have t47 : ((15 / 8) * n3) ∈ Set.Icc (8783359717941472440255 / 1000000000000000000000000000000) (8783359717941472440274 / 1000000000000000000000000000000) :=
    icc_mul (8783359717941472440255 / 1000000000000000000000000000000) (8783359717941472440274 / 1000000000000000000000000000000) (icc_self (15 / 8)) (i_n3) (by norm_num) (by norm_num) (by norm_num) (by norm_num) (by norm_num) (by norm_num) (by norm_num) (by norm_num)
  have t48 : (((15 / 8) * n2) + ((15 / 8) * n3)) ∈ Set.Icc (5258157614724982030621 / 1000000000000000000000000000) (5258157614724982030631 / 1000000000000000000000000000) :=
    icc_add (5258157614724982030621 / 1000000000000000000000000000) (5258157614724982030631 / 1000000000000000000000000000) (t46) (t47) (by norm_num) (by norm_num)
  have t49 : ((((15 / 8) * n2) + ((15 / 8) * n3)) * s2) ∈ Set.Icc (6695038722800065118525 / 10000000000000000000000000000) (6695038964727896972036 / 10000000000000000000000000000) :=
    icc_mul (6695038722800065118525 / 10000000000000000000000000000) (6695038964727896972036 / 10000000000000000000000000000) (t48) (h_s2) (by norm_num) (by norm_num) (by norm_num) (by norm_num) (by norm_num) (by norm_num) (by norm_num) (by norm_num)
  have t50 : (((((15 / 8) * n2) + ((15 / 8) * n3)) * s2) * c2) ∈ Set.Icc (-6148334344892336155126 / 10000000000000000000000000000) (-6148334091916014794167 / 10000000000000000000000000000) :=
    icc_mul (-6148334344892336155126 / 10000000000000000000000000000) (-6148334091916014794167 / 10000000000000000000000000000) (t49) (h_c2) (by norm_num) (by norm_num) (by norm_num) (by norm_num) (by norm_num) (by norm_num) (by norm_num) (by norm_num)
  have i_Mc : Mc ∈ Set.Icc (-6148334344892336155126 / 10000000000000000000000000000) (-6148334091916014794167 / 10000000000000000000000000000) :=
    icc_of_eq h_Mc t50
  have t51 : ((35 / 24) * n3) ∈ Set.Icc (6831502002843367453531 / 1000000000000000000000000000000) (6831502002843367453547 / 1000000000000000000000000000000) :=
    icc_mul (6831502002843367453531 / 1000000000000000000000000000000) (6831502002843367453547 / 1000000000000000000000000000000) (icc_self (35 / 24)) (i_n3) (by norm_num) (by norm_num) (by norm_num) (by norm_num) (by norm_num) (by norm_num) (by norm_num) (by norm_num)
  have t52 : (((35 / 24) * n3) * s3) ∈ Set.Icc (1300317806136248756589 / 1000000000000000000000000000000) (1300317837567989471676 / 1000000000000000000000000000000) :=
    icc_mul (1300317806136248756589 / 1000000000000000000000000000000) (1300317837567989471676 / 1000000000000000000000000000000) (t51) (h_s3) (by norm_num) (by norm_num) (by norm_num) (by norm_num) (by norm_num) (by norm_num) (by norm_num) (by norm_num)
  have t53 : ((((35 / 24) * n3) * s3) * c3) ∈ Set.Icc (7453242290053628822704 / 10000000000000000000000000000000) (7453242530043654399093 / 10000000000000000000000000000000) :=
    icc_mul (7453242290053628822704 / 10000000000000000000000000000000) (7453242530043654399093 / 10000000000000000000000000000000) (t52) (h_c3) (by norm_num) (by norm_num) (by norm_num) (by norm_num) (by norm_num) (by norm_num) (by norm_num) (by norm_num)
  have i_Md : Md ∈ Set.Icc (7453242290053628822704 / 10000000000000000000000000000000) (7453242530043654399093 / 10000000000000000000000000000000) :=
    icc_of_eq h_Md t53
  have t54 : (b * f0) ∈ Set.Icc (63537224894883111753 / 10000000000000) (63537224894883111753 / 10000000000000) :=
    icc_mul (63537224894883111753 / 10000000000000) (63537224894883111753 / 10000000000000) (i_b) (i_f0) (by norm_num) (by norm_num) (by norm_num) (by norm_num) (by norm_num) (by norm_num) (by norm_num) (by norm_num)
  have t55 : (Ma - Mb) ∈ Set.Icc (6400848854060736754536 / 100000000000000000000000) (6400848854675770846383 / 100000000000000000000000) :=
    icc_sub (6400848854060736754536 / 100000000000000000000000) (6400848854675770846383 / 100000000000000000000000) (i_Ma) (i_Mb) (by norm_num) (by norm_num)
  have t56 : ((Ma - Mb) + Mc) ∈ Set.Icc (6400787370717287831174 / 100000000000000000000000) (6400787371334851686236 / 100000000000000000000000) :=
    icc_add (6400787370717287831174 / 100000000000000000000000) (6400787371334851686236 / 100000000000000000000000) (t55) (i_Mc) (by norm_num) (by norm_num)
  have t57 : (((Ma - Mb) + Mc) - Md) ∈ Set.Icc (6400787296184862530737 / 100000000000000000000000) (64007872968024287857 / 1000000000000000000000) :=
    icc_sub (6400787296184862530737 / 100000000000000000000000) (64007872968024287857 / 1000000000000000000000) (t56) (i_Md) (by norm_num) (by norm_num)
  have t58 : ((b * f0) * (((Ma - Mb) + Mc) - Md)) ∈ Set.Icc (4066882619420084093036 / 10000000000000000) (4066882619812468553327 / 10000000000000000) :=
    icc_mul (4066882619420084093036 / 10000000000000000) (4066882619812468553327 / 10000000000000000) (t54) (t57) (by norm_num) (by norm_num) (by norm_num) (by norm_num) (by norm_num) (by norm_num) (by norm_num) (by norm_num)
  have i_M : M ∈ Set.Icc (4066882619420084093036 / 10000000000000000) (4066882619812468553327 / 10000000000000000) :=
    icc_of_eq h_M t58
  have t59 : (cosLat * cosLat) ∈ Set.Icc (3679360372189089526947 / 10000000000000000000000) (3679360428006334124334 / 10000000000000000000000) :=
    icc_mul (3679360372189089526947 / 10000000000000000000000) (3679360428006334124334 / 10000000000000000000000) (h_cosLat) (h_cosLat) (by norm_num) (by norm_num) (by norm_num) (by norm_num) (by norm_num) (by norm_num) (by norm_num) (by norm_num)
  have t60 : ((cosLat * cosLat) * cosLat) ∈ Set.Icc (2231816529857795948845 / 10000000000000000000000) (2231816580644007551395 / 10000000000000000000000) :=
    icc_mul (2231816529857795948845 / 10000000000000000000000) (2231816580644007551395 / 10000000000000000000000) (t59) (h_cosLat) (by norm_num) (by norm_num) (by norm_num) (by norm_num) (by norm_num) (by norm_num) (by norm_num) (by norm_num)
  have i_cos3lat : cos3lat ∈ Set.Icc (2231816529857795948845 / 10000000000000000000000) (2231816580644007551395 / 10000000000000000000000) :=
    icc_of_eq h_cos3lat t60
  have t61 : (cos3lat * cosLat) ∈ Set.Icc (1353769274843543540845 / 10000000000000000000000) (1353769315917895423684 / 10000000000000000000000) :=
    icc_mul (1353769274843543540845 / 10000000000000000000000) (1353769315917895423684 / 10000000000000000000000) (i_cos3lat) (h_cosLat) (by norm_num) (by norm_num) (by norm_num) (by norm_num) (by norm_num) (by norm_num) (by norm_num) (by norm_num)
  have t62 : ((cos3lat * cosLat) * cosLat) ∈ Set.Icc (8211657297955342341304 / 100000000000000000000000) (8211657609389968743648 / 100000000000000000000000) :=
    icc_mul (8211657297955342341304 / 100000000000000000000000) (8211657609389968743648 / 100000000000000000000000) (t61) (h_cosLat) (by norm_num) (by norm_num) (by norm_num) (by norm_num) (by norm_num) (by norm_num) (by norm_num) (by norm_num)
  have i_cos5lat : cos5lat ∈ Set.Icc (8211657297955342341304 / 100000000000000000000000) (8211657609389968743648 / 100000000000000000000000) :=
    icc_of_eq h_cos5lat t62
  have t63 : (sinLat / cosLat) ∈ Set.Icc (1310672977942312166394 / 1000000000000000000000) (1310672995469189837865 / 1000000000000000000000) :=
    icc_div (1310672977942312166394 / 1000000000000000000000) (1310672995469189837865 / 1000000000000000000000) (h_sinLat) (h_cosLat) (by norm_num) (by norm_num) (by norm_num) (by norm_num) (by norm_num) (by norm_num) (by norm_num) (by norm_num) (by norm_num)
  have i_tl : tl ∈ Set.Icc (1310672977942312166394 / 1000000000000000000000) (1310672995469189837865 / 1000000000000000000000) :=
    icc_of_eq h_tl t63
  have t64 : (tl * tl) ∈ Set.Icc (1717863655108168714669 / 1000000000000000000000) (1717863701052178925257 / 1000000000000000000000) :=
    icc_mul (1717863655108168714669 / 1000000000000000000000) (1717863701052178925257 / 1000000000000000000000) (i_tl) (i_tl) (by norm_num) (by norm_num) (by norm_num) (by norm_num) (by norm_num) (by norm_num) (by norm_num) (by norm_num)
  have i_tan2lat : tan2lat ∈ Set.Icc (1717863655108168714669 / 1000000000000000000000) (1717863701052178925257 / 1000000000000000000000) :=
    icc_of_eq h_tan2lat t64
  have t65 : (tan2lat * tan2lat) ∈ Set.Icc (2951055537541597232087 / 1000000000000000000000) (2951055695392689964316 / 1000000000000000000000) :=
    icc_mul (2951055537541597232087 / 1000000000000000000000) (2951055695392689964316 / 1000000000000000000000) (i_tan2lat) (i_tan2lat) (by norm_num) (by norm_num) (by norm_num) (by norm_num) (by norm_num) (by norm_num) (by norm_num) (by norm_num)
  have i_tan4lat : tan4lat ∈ Set.Icc (2951055537541597232087 / 1000000000000000000000) (2951055695392689964316 / 1000000000000000000000) :=
    icc_of_eq h_tan4lat t65
  have t66 : (M + n0) ∈ Set.Icc (3066882619420084093036 / 10000000000000000) (3066882619812468553327 / 10000000000000000) :=
    icc_add (3066882619420084093036 / 10000000000000000) (3066882619812468553327 / 10000000000000000) (i_M) (i_n0) (by norm_num) (by norm_num)
  have i_I1 : I1 ∈ Set.Icc (3066882619420084093036 / 10000000000000000) (3066882619812468553327 / 10000000000000000) :=
    icc_of_eq h_I1 t66
  have t67 : (nu / 2) ∈ Set.Icc (3194251166858040563886 / 1000000000000000) (3194251166936310999976 / 1000000000000000) :=
    icc_div (3194251166858040563886 / 1000000000000000) (3194251166936310999976 / 1000000000000000) (i_nu) (icc_self 2) (by norm_num) (by norm_num) (by norm_num) (by norm_num) (by norm_num) (by norm_num) (by norm_num) (by norm_num) (by norm_num)
  have t68 : ((nu / 2) * sinLat) ∈ Set.Icc (2539507936265901823084 / 1000000000000000) (2539507951024878356463 / 1000000000000000) :=
    icc_mul (2539507936265901823084 / 1000000000000000) (2539507951024878356463 / 1000000000000000) (t67) (h_sinLat) (by norm_num) (by norm_num) (by norm_num) (by norm_num) (by norm_num) (by norm_num) (by norm_num) (by norm_num)
  have t69 : (((nu / 2) * sinLat) * cosLat) ∈ Set.Icc (1540407901520993727285 / 1000000000000000) (1540407922157730145165 / 1000000000000000) :=
    icc_mul (1540407901520993727285 / 1000000000000000) (1540407922157730145165 / 1000000000000000) (t68) (h_cosLat) (by norm_num) (by norm_num) (by norm_num) (by norm_num) (by norm_num) (by norm_num) (by norm_num) (by norm_num)
  have i_I2 : I2 ∈ Set.Icc (1540407901520993727285 / 1000000000000000) (1540407922157730145165 / 1000000000000000) :=
    icc_of_eq h_I2 t69
  have t70 : (nu / 24) ∈ Set.Icc (2661875972381700469905 / 10000000000000000) (2661875972446925833314 / 10000000000000000) :=
    icc_div (2661875972381700469905 / 10000000000000000) (2661875972446925833314 / 10000000000000000) (i_nu) (icc_self 24) (by norm_num) (by norm_num) (by norm_num) (by norm_num) (by norm_num) (by norm_num) (by norm_num) (by norm_num) (by norm_num)
  have t71 : ((nu / 24) * sinLat) ∈ Set.Icc (2116256613554918185903 / 10000000000000000) (2116256625854065297053 / 10000000000000000) :=
    icc_mul (2116256613554918185903 / 10000000000000000) (2116256625854065297053 / 10000000000000000) (t70) (h_sinLat) (by norm_num) (by norm_num) (by norm_num) (by norm_num) (by norm_num) (by norm_num) (by norm_num) (by norm_num)
  have t72 : (((nu / 24) * sinLat) * cos3lat) ∈ Set.Icc (4723096491552748206364 / 100000000000000000) (4723096626478844838106 / 100000000000000000) :=
    icc_mul (4723096491552748206364 / 100000000000000000) (4723096626478844838106 / 100000000000000000) (t71) (i_cos3lat) (by norm_num) (by norm_num) (by norm_num) (by norm_num) (by norm_num) (by norm_num) (by norm_num) (by norm_num)
  have t73 : (5 - tan2lat) ∈ Set.Icc (3282136298947821074743 / 1000000000000000000000) (3282136344891831285331 / 1000000000000000000000) :=
    icc_sub (3282136298947821074743 / 1000000000000000000000) (3282136344891831285331 / 1000000000000000000000) (icc_self 5) (i_tan2lat) (by norm_num) (by norm_num)
  have t74 : (9 * eta2) ∈ Set.Icc (22237323474738937248 / 1000000000000000000000) (22237324359045665571 / 1000000000000000000000) :=
    icc_mul (22237323474738937248 / 1000000000000000000000) (22237324359045665571 / 1000000000000000000000) (icc_self 9) (i_eta2) (by norm_num) (by norm_num) (by norm_num) (by norm_num) (by norm_num) (by norm_num) (by norm_num) (by norm_num)
  have t75 : ((5 - tan2lat) + (9 * eta2)) ∈ Set.Icc (3304373622422560011991 / 1000000000000000000000) (3304373669250876950902 / 1000000000000000000000) :=
    icc_add (3304373622422560011991 / 1000000000000000000000) (3304373669250876950902 / 1000000000000000000000) (t73) (t74) (by norm_num) (by norm_num)
  have t76 : ((((nu / 24) * sinLat) * cos3lat) * ((5 - tan2lat) + (9 * eta2))) ∈ Set.Icc (1560687546284343870482 / 10000000000000000) (1560687612986433914905 / 10000000000000000) :=
    icc_mul (1560687546284343870482 / 10000000000000000) (1560687612986433914905 / 10000000000000000) (t72) (t75) (by norm_num) (by norm_num) (by norm_num) (by norm_num) (by norm_num) (by norm_num) (by norm_num) (by norm_num)
  have i_I3 : I3 ∈ Set.Icc (1560687546284343870482 / 10000000000000000) (1560687612986433914905 / 10000000000000000) :=
    icc_of_eq h_I3 t76
  have t77 : (nu / 720) ∈ Set.Icc (8872919907939001566351 / 1000000000000000000) (8872919908156419444378 / 1000000000000000000) :=
    icc_div (8872919907939001566351 / 1000000000000000000) (8872919908156419444378 / 1000000000000000000) (i_nu) (icc_self 720) (by norm_num) (by norm_num) (by norm_num) (by norm_num) (by norm_num) (by norm_num) (by norm_num) (by norm_num) (by norm_num)
  have t78 : ((nu / 720) * sinLat) ∈ Set.Icc (7054188711849727286345 / 1000000000000000000) (7054188752846884323507 / 1000000000000000000) :=
    icc_mul (7054188711849727286345 / 1000000000000000000) (7054188752846884323507 / 1000000000000000000) (t77) (h_sinLat) (by norm_num) (by norm_num) (by norm_num) (by norm_num) (by norm_num) (by norm_num) (by norm_num) (by norm_num)
  have t79 : (((nu / 720) * sinLat) * cos5lat) ∈ Set.Icc (5792658021681500859835 / 10000000000000000000) (5792658275038825119248 / 10000000000000000000) :=
    icc_mul (5792658021681500859835 / 10000000000000000000) (5792658275038825119248 / 10000000000000000000) (t78) (i_cos5lat) (by norm_num) (by norm_num) (by norm_num) (by norm_num) (by norm_num) (by norm_num) (by norm_num) (by norm_num)
  have t80 : (58 * tan2lat) ∈ Set.Icc (996360919962737854508 / 10000000000000000000) (9963609466102637766491 / 100000000000000000000) :=
    icc_mul (996360919962737854508 / 10000000000000000000) (9963609466102637766491 / 100000000000000000000) (icc_self 58) (i_tan2lat) (by norm_num) (by norm_num) (by norm_num) (by norm_num) (by norm_num) (by norm_num) (by norm_num) (by norm_num)
  have t81 : (61 - (58 * tan2lat)) ∈ Set.Icc (-3863609466102637766491 / 100000000000000000000) (-386360919962737854508 / 10000000000000000000) :=
    icc_sub (-3863609466102637766491 / 100000000000000000000) (-386360919962737854508 / 10000000000000000000) (icc_self 61) (t80) (by norm_num) (by norm_num)
  have t82 : ((61 - (58 * tan2lat)) + tan4lat) ∈ Set.Icc (-3568503912348478043283 / 100000000000000000000) (-3568503630088109548648 / 100000000000000000000) :=
    icc_add (-3568503912348478043283 / 100000000000000000000) (-3568503630088109548648 / 100000000000000000000) (t81) (i_tan4lat) (by norm_num) (by norm_num)
  have t83 : ((((nu / 720) * sinLat) * cos5lat) * ((61 - (58 * tan2lat)) + tan4lat)) ∈ Set.Icc (-2067112371737383361102 / 100000000000000000) (-2067112117822944300593 / 100000000000000000) :=
    icc_mul (-2067112371737383361102 / 100000000000000000) (-2067112117822944300593 / 100000000000000000) (t79) (t82) (by norm_num) (by norm_num) (by norm_num) (by norm_num) (by norm_num) (by norm_num) (by norm_num) (by norm_num)
  have i_I3A : I3A ∈ Set.Icc (-2067112371737383361102 / 100000000000000000) (-2067112117822944300593 / 100000000000000000) :=
    icc_of_eq h_I3A t83
  have t84 : (nu * cosLat) ∈ Set.Icc (3875120582695102896888 / 1000000000000000) (3875120612183556276732 / 1000000000000000) :=
    icc_mul (3875120582695102896888 / 1000000000000000) (3875120612183556276732 / 1000000000000000) (i_nu) (h_cosLat) (by norm_num) (by norm_num) (by norm_num) (by norm_num) (by norm_num) (by norm_num) (by norm_num) (by norm_num)
  have i_I4 : I4 ∈ Set.Icc (3875120582695102896888 / 1000000000000000) (3875120612183556276732 / 1000000000000000) :=
    icc_of_eq h_I4 t84
  have t85 : (nu / 6) ∈ Set.Icc (1064750388952680187962 / 1000000000000000) (1064750388978770333326 / 1000000000000000) :=
    icc_div (1064750388952680187962 / 1000000000000000) (1064750388978770333326 / 1000000000000000) (i_nu) (icc_self 6) (by norm_num) (by norm_num) (by norm_num) (by norm_num) (by norm_num) (by norm_num) (by norm_num) (by norm_num) (by norm_num)
  have t86 : ((nu / 6) * cos3lat) ∈ Set.Icc (2376327518237109212519 / 10000000000000000) (2376327572369976188783 / 10000000000000000) :=
    icc_mul (2376327518237109212519 / 10000000000000000) (2376327572369976188783 / 10000000000000000) (t85) (i_cos3lat) (by norm_num) (by norm_num) (by norm_num) (by norm_num) (by norm_num) (by norm_num) (by norm_num) (by norm_num)
  have t87 : (nu / rho) ∈ Set.Icc (1002470813719415437472 / 1000000000000000000000) (1002470813817671740619 / 1000000000000000000000) :=
    icc_div (1002470813719415437472 / 1000000000000000000000) (1002470813817671740619 / 1000000000000000000000) (i_nu) (i_rho) (by norm_num) (by norm_num) (by norm_num) (by norm_num) (by norm_num) (by norm_num) (by norm_num) (by norm_num) (by norm_num)
  have t88 : ((nu / rho) - tan2lat) ∈ Set.Icc (-715392887332763487785 / 1000000000000000000000) (-71539284129049697405 / 100000000000000000000) :=
    icc_sub (-715392887332763487785 / 1000000000000000000000) (-71539284129049697405 / 100000000000000000000) (t87) (i_tan2lat) (by norm_num) (by norm_num)
  have t89 : (((nu / 6) * cos3lat) * ((nu / rho) - tan2lat)) ∈ Set.Icc (-1700007843246213748917 / 10000000000000000) (-170000769510844082457 / 1000000000000000) :=
    icc_mul (-1700007843246213748917 / 10000000000000000) (-170000769510844082457 / 1000000000000000) (t86) (t88) (by norm_num) (by norm_num) (by norm_num) (by norm_num) (by norm_num) (by norm_num) (by norm_num) (by norm_num)
  have i_I5 : I5 ∈ Set.Icc (-1700007843246213748917 / 10000000000000000) (-170000769510844082457 / 1000000000000000) :=
    icc_of_eq h_I5 t89
  have t90 : (nu / 120) ∈ Set.Icc (532375194476340093981 / 10000000000000000) (5323751944893851666627 / 100000000000000000) :=
    icc_div (532375194476340093981 / 10000000000000000) (5323751944893851666627 / 100000000000000000) (i_nu) (icc_self 120) (by norm_num) (by norm_num) (by norm_num) (by norm_num) (by norm_num) (by norm_num) (by norm_num) (by norm_num) (by norm_num)
  have t91 : ((nu / 120) * cos5lat) ∈ Set.Icc (4371682650972032791335 / 1000000000000000000) (4371682816879224259302 / 1000000000000000000) :=
    icc_mul (4371682650972032791335 / 1000000000000000000) (4371682816879224259302 / 1000000000000000000) (t90) (i_cos5lat) (by norm_num) (by norm_num) (by norm_num) (by norm_num) (by norm_num) (by norm_num) (by norm_num) (by norm_num)
  have t92 : (18 * tan2lat) ∈ Set.Icc (3092154579194703686404 / 100000000000000000000) (3092154661893922065463 / 100000000000000000000) :=
    icc_mul (3092154579194703686404 / 100000000000000000000) (3092154661893922065463 / 100000000000000000000) (icc_self 18) (i_tan2lat) (by norm_num) (by norm_num) (by norm_num) (by norm_num) (by norm_num) (by norm_num) (by norm_num) (by norm_num)
  have t93 : (5 - (18 * tan2lat)) ∈ Set.Icc (-2592154661893922065463 / 100000000000000000000) (-2592154579194703686404 / 100000000000000000000) :=
    icc_sub (-2592154661893922065463 / 100000000000000000000) (-2592154579194703686404 / 100000000000000000000) (icc_self 5) (t92) (by norm_num) (by norm_num)
  have t94 : ((5 - (18 * tan2lat)) + tan4lat) ∈ Set.Icc (-2297049108139762342255 / 100000000000000000000) (-2297049009655434689972 / 100000000000000000000) :=
    icc_add (-2297049108139762342255 / 100000000000000000000) (-2297049009655434689972 / 100000000000000000000) (t93) (i_tan4lat) (by norm_num) (by norm_num)
  have t95 : (14 * eta2) ∈ Set.Icc (34591392071816124608 / 1000000000000000000000) (34591393447404368666 / 1000000000000000000000) :=
    icc_mul (34591392071816124608 / 1000000000000000000000) (34591393447404368666 / 1000000000000000000000) (icc_self 14) (i_eta2) (by norm_num) (by norm_num) (by norm_num) (by norm_num) (by norm_num) (by norm_num) (by norm_num) (by norm_num)
  have t96 : (((5 - (18 * tan2lat)) + tan4lat) + (14 * eta2)) ∈ Set.Icc (-2293589968932580729795 / 100000000000000000000) (-2293589870310694253105 / 100000000000000000000) :=
    icc_add (-2293589968932580729795 / 100000000000000000000) (-2293589870310694253105 / 100000000000000000000) (t94) (t95) (by norm_num) (by norm_num)
  have t97 : (58 * tan2lat) ∈ Set.Icc (996360919962737854508 / 10000000000000000000) (9963609466102637766491 / 100000000000000000000) :=
    icc_mul (996360919962737854508 / 10000000000000000000) (9963609466102637766491 / 100000000000000000000) (icc_self 58) (i_tan2lat) (by norm_num) (by norm_num) (by norm_num) (by norm_num) (by norm_num) (by norm_num) (by norm_num) (by norm_num)
  have t98 : ((58 * tan2lat) * eta2) ∈ Set.Icc (2461822230533319321507 / 10000000000000000000000) (2461822394273135172383 / 10000000000000000000000) :=
    icc_mul (2461822230533319321507 / 10000000000000000000000) (2461822394273135172383 / 10000000000000000000000) (t97) (i_eta2) (by norm_num) (by norm_num) (by norm_num) (by norm_num) (by norm_num) (by norm_num) (by norm_num) (by norm_num)
  have t99 : ((((5 - (18 * tan2lat)) + tan4lat) + (14 * eta2)) - ((58 * tan2lat) * eta2)) ∈ Set.Icc (-2318208192875312081519 / 100000000000000000000) (-231820809261602744632 / 10000000000000000000) :=
    icc_sub (-2318208192875312081519 / 100000000000000000000) (-231820809261602744632 / 10000000000000000000) (t96) (t98) (by norm_num) (by norm_num)
  have t100 : (((nu / 120) * cos5lat) * ((((5 - (18 * tan2lat)) + tan4lat) + (14 * eta2)) - ((58 * tan2lat) * eta2))) ∈ Set.Icc (-1013447092274164033871 / 10000000000000000) (-1013447009983245458216 / 10000000000000000) :=
    icc_mul (-1013447092274164033871 / 10000000000000000) (-1013447009983245458216 / 10000000000000000) (t91) (t99) (by norm_num) (by norm_num) (by norm_num) (by norm_num) (by norm_num) (by norm_num) (by norm_num) (by norm_num)
  have i_I6 : I6 ∈ Set.Icc (-1013447092274164033871 / 10000000000000000) (-1013447009983245458216 / 10000000000000000) :=
    icc_of_eq h_I6 t100
  have t101 : (lon - lon0) ∈ Set.Icc (6488977079282237877334 / 100000000000000000000000) (6488977079282237877356 / 100000000000000000000000) :=
    icc_sub (6488977079282237877334 / 100000000000000000000000) (6488977079282237877356 / 100000000000000000000000) (i_lon) (i_lon0) (by norm_num) (by norm_num)
  have i_dLon : dLon ∈ Set.Icc (6488977079282237877334 / 100000000000000000000000) (6488977079282237877356 / 100000000000000000000000) :=
    icc_of_eq h_dLon t101
  have t102 : (dLon * dLon) ∈ Set.Icc (4210682353545024247477 / 1000000000000000000000000) (4210682353545024247506 / 1000000000000000000000000) :=
    icc_mul (4210682353545024247477 / 1000000000000000000000000) (4210682353545024247506 / 1000000000000000000000000) (i_dLon) (i_dLon) (by norm_num) (by norm_num) (by norm_num) (by norm_num) (by norm_num) (by norm_num) (by norm_num) (by norm_num)
  have i_dLon2 : dLon2 ∈ Set.Icc (4210682353545024247477 / 1000000000000000000000000) (4210682353545024247506 / 1000000000000000000000000) :=
    icc_of_eq h_dLon2 t102
  have t103 : (dLon2 * dLon) ∈ Set.Icc (2732302128029185078596 / 10000000000000000000000000) (2732302128029185078626 / 10000000000000000000000000) :=
    icc_mul (2732302128029185078596 / 10000000000000000000000000) (2732302128029185078626 / 10000000000000000000000000) (i_dLon2) (i_dLon) (by norm_num) (by norm_num) (by norm_num) (by norm_num) (by norm_num) (by norm_num) (by norm_num) (by norm_num)
  have i_dLon3 : dLon3 ∈ Set.Icc (2732302128029185078596 / 10000000000000000000000000) (2732302128029185078626 / 10000000000000000000000000) :=
    icc_of_eq h_dLon3 t103
  have t104 : (dLon3 * dLon) ∈ Set.Icc (177298458824554645709 / 10000000000000000000000000) (1772984588245546457117 / 100000000000000000000000000) :=
    icc_mul (177298458824554645709 / 10000000000000000000000000) (1772984588245546457117 / 100000000000000000000000000) (i_dLon3) (i_dLon) (by norm_num) (by norm_num) (by norm_num) (by norm_num) (by norm_num) (by norm_num) (by norm_num) (by norm_num)
  have i_dLon4 : dLon4 ∈ Set.Icc (177298458824554645709 / 10000000000000000000000000) (1772984588245546457117 / 100000000000000000000000000) :=
    icc_of_eq h_dLon4 t104
  have t105 : (dLon4 * dLon) ∈ Set.Icc (1150485635504600719061 / 1000000000000000000000000000) (1150485635504600719084 / 1000000000000000000000000000) :=
    icc_mul (1150485635504600719061 / 1000000000000000000000000000) (1150485635504600719084 / 1000000000000000000000000000) (i_dLon4) (i_dLon) (by norm_num) (by norm_num) (by norm_num) (by norm_num) (by norm_num) (by norm_num) (by norm_num) (by norm_num)
  have i_dLon5 : dLon5 ∈ Set.Icc (1150485635504600719061 / 1000000000000000000000000000) (1150485635504600719084 / 1000000000000000000000000000) :=
    icc_of_eq h_dLon5 t105
  have t106 : (dLon5 * dLon) ∈ Set.Icc (7465474918832813288701 / 100000000000000000000000000000) (7465474918832813288877 / 100000000000000000000000000000) :=
    icc_mul (7465474918832813288701 / 100000000000000000000000000000) (7465474918832813288877 / 100000000000000000000000000000) (i_dLon5) (i_dLon) (by norm_num) (by norm_num) (by norm_num) (by norm_num) (by norm_num) (by norm_num) (by norm_num) (by norm_num)
  have i_dLon6 : dLon6 ∈ Set.Icc (7465474918832813288701 / 100000000000000000000000000000) (7465474918832813288877 / 100000000000000000000000000000) :=
    icc_of_eq h_dLon6 t106
  have t107 : (I2 * dLon2) ∈ Set.Icc (6486168368195769803836 / 1000000000000000000) (6486168455090511673409 / 1000000000000000000) :=
    icc_mul (6486168368195769803836 / 1000000000000000000) (6486168455090511673409 / 1000000000000000000) (i_I2) (i_dLon2) (by norm_num) (by norm_num) (by norm_num) (by norm_num) (by norm_num) (by norm_num) (by norm_num) (by norm_num)
  have t108 : (I1 + (I2 * dLon2)) ∈ Set.Icc (3131744303102041791074 / 10000000000000000) (3131744304363373670062 / 10000000000000000) :=
    icc_add (3131744303102041791074 / 10000000000000000) (3131744304363373670062 / 10000000000000000) (i_I1) (t107) (by norm_num) (by norm_num)
  have t109 : (I3 * dLon4) ∈ Set.Icc (2767074966628899645671 / 1000000000000000000000) (2767075084890677298243 / 1000000000000000000000) :=
    icc_mul (2767074966628899645671 / 1000000000000000000000) (2767075084890677298243 / 1000000000000000000000) (i_I3) (i_dLon4) (by norm_num) (by norm_num) (by norm_num) (by norm_num) (by norm_num) (by norm_num) (by norm_num) (by norm_num)
  have t110 : ((I1 + (I2 * dLon2)) + (I3 * dLon4)) ∈ Set.Icc (313177197385170808007 / 1000000000000000) (3131771975114222576835 / 10000000000000000) :=
    icc_add (313177197385170808007 / 1000000000000000) (3131771975114222576835 / 10000000000000000) (t108) (t109) (by norm_num) (by norm_num)
  have t111 : (I3A * dLon6) ∈ Set.Icc (-1543197556561444621805 / 1000000000000000000000000) (-1543197367002256988194 / 1000000000000000000000000) :=
    icc_mul (-1543197556561444621805 / 1000000000000000000000000) (-1543197367002256988194 / 1000000000000000000000000) (i_I3A) (i_dLon6) (by norm_num) (by norm_num) (by norm_num) (by norm_num) (by norm_num) (by norm_num) (by norm_num) (by norm_num)
  have t112 : (((I1 + (I2 * dLon2)) + (I3 * dLon4)) + (I3A * dLon6)) ∈ Set.Icc (3131771958419732514455 / 10000000000000000) (3131771959682248906813 / 10000000000000000) :=
    icc_add (3131771958419732514455 / 10000000000000000) (3131771959682248906813 / 10000000000000000) (t110) (t111) (by norm_num) (by norm_num)
  have i_N : N ∈ Set.Icc (3131771958419732514455 / 10000000000000000) (3131771959682248906813 / 10000000000000000) :=
    icc_of_eq h_N t112
  have t113 : (I4 * dLon) ∈ Set.Icc (2514556864056335255112 / 10000000000000000) (2514556883191325063651 / 10000000000000000) :=
    icc_mul (2514556864056335255112 / 10000000000000000) (2514556883191325063651 / 10000000000000000) (i_I4) (i_dLon) (by norm_num) (by norm_num) (by norm_num) (by norm_num) (by norm_num) (by norm_num) (by norm_num) (by norm_num)
  have t114 : (e0 + (I4 * dLon)) ∈ Set.Icc (6514556864056335255112 / 10000000000000000) (6514556883191325063651 / 10000000000000000) :=
    icc_add (6514556864056335255112 / 10000000000000000) (6514556883191325063651 / 10000000000000000) (i_e0) (t113) (by norm_num) (by norm_num)
  have t115 : (I5 * dLon3) ∈ Set.Icc (-4644935047767935116679 / 100000000000000000000) (-464493464301078291393 / 10000000000000000000) :=
    icc_mul (-4644935047767935116679 / 100000000000000000000) (-464493464301078291393 / 10000000000000000000) (i_I5) (i_dLon3) (by norm_num) (by norm_num) (by norm_num) (by norm_num) (by norm_num) (by norm_num) (by norm_num) (by norm_num)
  have t116 : ((e0 + (I4 * dLon)) + (I5 * dLon3)) ∈ Set.Icc (65140923705515584616 / 100000000000000) (651409238972702398536 / 1000000000000000) :=
    icc_add (65140923705515584616 / 100000000000000) (651409238972702398536 / 1000000000000000) (t114) (t115) (by norm_num) (by norm_num)
  have t117 : (I6 * dLon5) ∈ Set.Icc (-1165956322005331334118 / 10000000000000000000000) (-1165956227330811580324 / 10000000000000000000000) :=
    icc_mul (-1165956322005331334118 / 10000000000000000000000) (-1165956227330811580324 / 10000000000000000000000) (i_I6) (i_dLon5) (by norm_num) (by norm_num) (by norm_num) (by norm_num) (by norm_num) (by norm_num) (by norm_num) (by norm_num)
  have t118 : (((e0 + (I4 * dLon)) + (I5 * dLon3)) + (I6 * dLon5)) ∈ Set.Icc (6514091204595236456268 / 10000000000000000) (6514091223770796654549 / 10000000000000000) :=
    icc_add (6514091204595236456268 / 10000000000000000) (6514091223770796654549 / 10000000000000000) (t116) (t117) (by norm_num) (by norm_num)
  have i_E : E ∈ Set.Icc (6514091204595236456268 / 10000000000000000) (6514091223770796654549 / 10000000000000000) :=
    icc_of_eq h_E t118
  rw [abs_lt, abs_lt]
  exact ⟨⟨by linarith [i_E.1], by linarith [i_E.2]⟩, ⟨by linarith [i_N.1], by linarith [i_N.2]⟩⟩

theorem tm_atom_cosLat :
    Real.cos (((5265757 / 100000) * PI) / 180) ∈ Set.Icc ((606577313472 / 1000000000000) : ℝ) (606577318073 / 1000000000000) := by
  have hpi := PI_icc
  apply cos_icc _ _ _ (91904797259939 / 100000000000000) (2 / 1000000000000000)
  · rw [abs_le]
    unfold PI at hpi ⊢
    constructor <;> linarith [hpi.1, hpi.2]
  · norm_num [abs_le]
  · norm_num
  · norm_num

theorem tm_atom_sinLat :
    Real.sin (((5265757 / 100000) * PI) / 180) ∈ Set.Icc ((795024499831 / 1000000000000) : ℝ) (795024504432 / 1000000000000) := by
  have hpi := PI_icc
  apply sin_icc _ _ _ (91904797259939 / 100000000000000) (2 / 1000000000000000)
  · rw [abs_le]
    unfold PI at hpi ⊢
    constructor <;> linarith [hpi.1, hpi.2]
  · norm_num [abs_le]
  · norm_num
  · norm_num

theorem tm_atom_s1 :
    Real.sin ((((5265757 / 100000) * PI) / 180) - ((49 * PI) / 180)) ∈ Set.Icc ((63793288698 / 1000000000000) : ℝ) (63793293299 / 1000000000000) := by
  have hpi := PI_icc
  apply sin_icc _ _ _ (63836639122169 / 1000000000000000) (2 / 1000000000000000)
  · rw [abs_le]
    unfold PI at hpi ⊢
    constructor <;> linarith [hpi.1, hpi.2]
  · norm_num [abs_le]
  · norm_num
  · norm_num

theorem tm_atom_c1 :
    Real.cos ((((5265757 / 100000) * PI) / 180) + ((49 * PI) / 180)) ∈ Set.Icc ((-202062085323 / 1000000000000) : ℝ) (-202062080722 / 1000000000000) := by
  have hpi := PI_icc
  apply cos_icc_half _ _ _ (203462979281715 / 1000000000000000) (2 / 1000000000000000)
  · rw [abs_le]
    unfold PI at hpi ⊢
    constructor <;> linarith [hpi.1, hpi.2]
  · norm_num [abs_le]
  · norm_num
  · norm_num

theorem tm_atom_s2 :
    Real.sin (2 * ((((5265757 / 100000) * PI) / 180) - ((49 * PI) / 180))) ∈ Set.Icc ((127326702875 / 1000000000000) : ℝ) (127326707476 / 1000000000000) := by
  have hpi := PI_icc
  apply sin_icc _ _ _ (127673278244338 / 1000000000000000) (2 / 1000000000000000)
  · rw [abs_le]
    unfold PI at hpi ⊢
    constructor <;> linarith [hpi.1, hpi.2]
  · norm_num [abs_le]
  · norm_num
  · norm_num

theorem tm_atom_c2 :
    Real.cos (2 * ((((5265757 / 100000) * PI) / 180) + ((49 * PI) / 180))) ∈ Set.Icc ((-918341831509 / 1000000000000) : ℝ) (-918341826908 / 1000000000000) := by
  have hpi := PI_icc
  apply cos_icc_pi _ _ _ (406925958563431 / 1000000000000000) (2 / 1000000000000000)
  · rw [abs_le]
    unfold PI at hpi ⊢
    constructor <;> linarith [hpi.1, hpi.2]
  · norm_num [abs_le]
  · norm_num
  · norm_num

theorem tm_atom_s3 :
    Real.sin (3 * ((((5265757 / 100000) * PI) / 180) - ((49 * PI) / 180))) ∈ Set.Icc ((190341422076 / 1000000000000) : ℝ) (190341426677 / 1000000000000) := by
  have hpi := PI_icc
  apply sin_icc _ _ _ (191509917366507 / 1000000000000000) (2 / 1000000000000000)
  · rw [abs_le]
    unfold PI at hpi ⊢
    constructor <;> linarith [hpi.1, hpi.2]
  · norm_num [abs_le]
  · norm_num
  · norm_num

theorem tm_atom_c3 :
    Real.cos (3 * ((((5265757 / 100000) * PI) / 180) + ((49 * PI) / 180))) ∈ Set.Icc ((573186205317 / 1000000000000) : ℝ) (573186209918 / 1000000000000) := by
  have hpi := PI_icc
  apply cos_icc_two_pi _ _ _ (-960407388949751 / 1000000000000000) (2 / 1000000000000000)
  · rw [abs_le]
    unfold PI at hpi ⊢
    constructor <;> linarith [hpi.1, hpi.2]
  · norm_num [abs_le]
  · norm_num
  · norm_num
/-- **C11**: for latitude 52.65757 degrees and longitude 1.71791 degrees (passed in
radians) and the projection of the British national grid on the Airy 1830
ellipsoid, `os_lat_lon_to_tm_eas_nor` returns an easting within 1 metre of
651409.903 and a northing within 1 metre of 313177.270 (for every height). -/
theorem tm_known_point (h : ℝ) :
    |(os_lat_lon_to_tm_eas_nor
        { lat := DEG_2_RAD PI (5265757 / 100000), lon := DEG_2_RAD PI (171791 / 100000), eh := h }
        OS_TM_NATIONAL_GRID).e - 651409903 / 1000| < 1 ∧
      |(os_lat_lon_to_tm_eas_nor
        { lat := DEG_2_RAD PI (5265757 / 100000), lon := DEG_2_RAD PI (171791 / 100000), eh := h }
        OS_TM_NATIONAL_GRID).n - 313177270 / 1000| < 1 := by
  have hpi := PI_icc
  obtain ⟨a, u_a⟩ : ∃ v : ℝ, v = OS_TM_NATIONAL_GRID.ellipsoid.a := ⟨_, rfl⟩
  obtain ⟨b, u_b⟩ : ∃ v : ℝ, v = OS_TM_NATIONAL_GRID.ellipsoid.b := ⟨_, rfl⟩
  obtain ⟨f0, u_f0⟩ : ∃ v : ℝ, v = OS_TM_NATIONAL_GRID.f0 := ⟨_, rfl⟩
  obtain ⟨e0, u_e0⟩ : ∃ v : ℝ, v = OS_TM_NATIONAL_GRID.e0 := ⟨_, rfl⟩
  obtain ⟨n0, u_n0⟩ : ∃ v : ℝ, v = OS_TM_NATIONAL_GRID.n0 := ⟨_, rfl⟩
  obtain ⟨lat0, u_lat0⟩ : ∃ v : ℝ, v = DEG_2_RAD PI OS_TM_NATIONAL_GRID.lat0 := ⟨_, rfl⟩
  obtain ⟨lon0, u_lon0⟩ : ∃ v : ℝ, v = DEG_2_RAD PI OS_TM_NATIONAL_GRID.lon0 := ⟨_, rfl⟩
  obtain ⟨lat, u_lat⟩ : ∃ v : ℝ, v = DEG_2_RAD PI (5265757 / 100000) := ⟨_, rfl⟩
  obtain ⟨lon, u_lon⟩ : ∃ v : ℝ, v = DEG_2_RAD PI (171791 / 100000) := ⟨_, rfl⟩
  obtain ⟨e2, h_e2⟩ : ∃ v : ℝ, v = (1 - ((b * b) / (a * a))) := ⟨_, rfl⟩
  obtain ⟨n, h_n⟩ : ∃ v : ℝ, v = ((a - b) / (a + b)) := ⟨_, rfl⟩
  obtain ⟨n2, h_n2⟩ : ∃ v : ℝ, v = (n * n) := ⟨_, rfl⟩
  obtain ⟨n3, h_n3⟩ : ∃ v : ℝ, v = ((n * n) * n) := ⟨_, rfl⟩
  obtain ⟨cosLat, u_cosLat⟩ : ∃ v : ℝ, v = Real.cos lat := ⟨_, rfl⟩
  obtain ⟨sinLat, u_sinLat⟩ : ∃ v : ℝ, v = Real.sin lat := ⟨_, rfl⟩
  obtain ⟨W, h_W⟩ : ∃ v : ℝ, v = (1 - ((e2 * sinLat) * sinLat)) := ⟨_, rfl⟩
  obtain ⟨sw, u_sw⟩ : ∃ v : ℝ, v = Real.sqrt W := ⟨_, rfl⟩
  obtain ⟨nu, h_nu⟩ : ∃ v : ℝ, v = ((a * f0) / sw) := ⟨_, rfl⟩
  obtain ⟨rp, u_rp⟩ : ∃ v : ℝ, v = W ^ ((3 : ℝ) / 2) := ⟨_, rfl⟩
  obtain ⟨rho, h_rho⟩ : ∃ v : ℝ, v = (((a * f0) * (1 - e2)) / rp) := ⟨_, rfl⟩
  obtain ⟨eta2, h_eta2⟩ : ∃ v : ℝ, v = ((nu / rho) - 1) := ⟨_, rfl⟩
  obtain ⟨s1, u_s1⟩ : ∃ v : ℝ, v = Real.sin (lat - lat0) := ⟨_, rfl⟩
  obtain ⟨c1, u_c1⟩ : ∃ v : ℝ, v = Real.cos (lat + lat0) := ⟨_, rfl⟩
  obtain ⟨s2, u_s2⟩ : ∃ v : ℝ, v = Real.sin (2 * (lat - lat0)) := ⟨_, rfl⟩
  obtain ⟨c2, u_c2⟩ : ∃ v : ℝ, v = Real.cos (2 * (lat + lat0)) := ⟨_, rfl⟩
  obtain ⟨s3, u_s3⟩ : ∃ v : ℝ, v = Real.sin (3 * (lat - lat0)) := ⟨_, rfl⟩
  obtain ⟨c3, u_c3⟩ : ∃ v : ℝ, v = Real.cos (3 * (lat + lat0)) := ⟨_, rfl⟩
  obtain ⟨dlat, h_dlat⟩ : ∃ v : ℝ, v = (lat - lat0) := ⟨_, rfl⟩
  obtain ⟨Ma, h_Ma⟩ : ∃ v : ℝ, v = ((((1 + n) + ((5 / 4) * n2)) + ((5 / 4) * n3)) * dlat) := ⟨_, rfl⟩
  obtain ⟨Mb, h_Mb⟩ : ∃ v : ℝ, v = (((((3 * n) + ((3 * n) * n)) + ((21 / 8) * n3)) * s1) * c1) := ⟨_, rfl⟩
  obtain ⟨Mc, h_Mc⟩ : ∃ v : ℝ, v = (((((15 / 8) * n2) + ((15 / 8) * n3)) * s2) * c2) := ⟨_, rfl⟩
  obtain ⟨Md, h_Md⟩ : ∃ v : ℝ, v = ((((35 / 24) * n3) * s3) * c3) := ⟨_, rfl⟩
  obtain ⟨M, h_M⟩ : ∃ v : ℝ, v = ((b * f0) * (((Ma - Mb) + Mc) - Md)) := ⟨_, rfl⟩
  obtain ⟨cos3lat, h_cos3lat⟩ : ∃ v : ℝ, v = ((cosLat * cosLat) * cosLat) := ⟨_, rfl⟩
  obtain ⟨cos5lat, h_cos5lat⟩ : ∃ v : ℝ, v = ((cos3lat * cosLat) * cosLat) := ⟨_, rfl⟩
  obtain ⟨tl, u_tl⟩ : ∃ v : ℝ, v = Real.tan lat := ⟨_, rfl⟩
  obtain ⟨tan2lat, h_tan2lat⟩ : ∃ v : ℝ, v = (tl * tl) := ⟨_, rfl⟩
  obtain ⟨tan4lat, h_tan4lat⟩ : ∃ v : ℝ, v = (tan2lat * tan2lat) := ⟨_, rfl⟩
  obtain ⟨I1, h_I1⟩ : ∃ v : ℝ, v = (M + n0) := ⟨_, rfl⟩
  obtain ⟨I2, h_I2⟩ : ∃ v : ℝ, v = (((nu / 2) * sinLat) * cosLat) := ⟨_, rfl⟩
  obtain ⟨I3, h_I3⟩ : ∃ v : ℝ, v = ((((nu / 24) * sinLat) * cos3lat) * ((5 - tan2lat) + (9 * eta2))) := ⟨_, rfl⟩
  obtain ⟨I3A, h_I3A⟩ : ∃ v : ℝ, v = ((((nu / 720) * sinLat) * cos5lat) * ((61 - (58 * tan2lat)) + tan4lat)) := ⟨_, rfl⟩
  obtain ⟨I4, h_I4⟩ : ∃ v : ℝ, v = (nu * cosLat) := ⟨_, rfl⟩
  obtain ⟨I5, h_I5⟩ : ∃ v : ℝ, v = (((nu / 6) * cos3lat) * ((nu / rho) - tan2lat)) := ⟨_, rfl⟩
  obtain ⟨I6, h_I6⟩ : ∃ v : ℝ, v = (((nu / 120) * cos5lat) * ((((5 - (18 * tan2lat)) + tan4lat) + (14 * eta2)) - ((58 * tan2lat) * eta2))) := ⟨_, rfl⟩
  obtain ⟨dLon, h_dLon⟩ : ∃ v : ℝ, v = (lon - lon0) := ⟨_, rfl⟩
  obtain ⟨dLon2, h_dLon2⟩ : ∃ v : ℝ, v = (dLon * dLon) := ⟨_, rfl⟩
  obtain ⟨dLon3, h_dLon3⟩ : ∃ v : ℝ, v = (dLon2 * dLon) := ⟨_, rfl⟩
  obtain ⟨dLon4, h_dLon4⟩ : ∃ v : ℝ, v = (dLon3 * dLon) := ⟨_, rfl⟩
  obtain ⟨dLon5, h_dLon5⟩ : ∃ v : ℝ, v = (dLon4 * dLon) := ⟨_, rfl⟩
  obtain ⟨dLon6, h_dLon6⟩ : ∃ v : ℝ, v = (dLon5 * dLon) := ⟨_, rfl⟩
  obtain ⟨N, h_N⟩ : ∃ v : ℝ, v = (((I1 + (I2 * dLon2)) + (I3 * dLon4)) + (I3A * dLon6)) := ⟨_, rfl⟩
  obtain ⟨E, h_E⟩ : ∃ v : ℝ, v = (((e0 + (I4 * dLon)) + (I5 * dLon3)) + (I6 * dLon5)) := ⟨_, rfl⟩
  have k_a : a = (6377563396 / 1000) := by
    rw [u_a]; norm_num [OS_TM_NATIONAL_GRID, AIRY_1830]
  have k_b : b = (6356256909 / 1000) := by
    rw [u_b]; norm_num [OS_TM_NATIONAL_GRID, AIRY_1830]
  have k_f0 : f0 = (9996012717 / 10000000000) := by
    rw [u_f0]; norm_num [OS_TM_NATIONAL_GRID, AIRY_1830]
  have k_e0 : e0 = 400000 := by
    rw [u_e0]; norm_num [OS_TM_NATIONAL_GRID, AIRY_1830]
  have k_n0 : n0 = (-100000) := by
    rw [u_n0]; norm_num [OS_TM_NATIONAL_GRID, AIRY_1830]
  have k_lat0 : lat0 = ((49 * PI) / 180) := by
    rw [u_lat0]; simp only [DEG_2_RAD, OS_TM_NATIONAL_GRID]
  have k_lon0 : lon0 = (((-2) * PI) / 180) := by
    rw [u_lon0]; simp only [DEG_2_RAD, OS_TM_NATIONAL_GRID]
  have k_lat : lat = (((5265757 / 100000) * PI) / 180) := by
    rw [u_lat]; simp only [DEG_2_RAD, OS_TM_NATIONAL_GRID]
  have k_lon : lon = (((171791 / 100000) * PI) / 180) := by
    rw [u_lon]; simp only [DEG_2_RAD, OS_TM_NATIONAL_GRID]
  have h_cosLat : cosLat ∈ Set.Icc ((606577313472 / 1000000000000) : ℝ) (606577318073 / 1000000000000) := by
    rw [u_cosLat]
    simp only [k_lat, k_lat0]
    exact tm_atom_cosLat
  have h_sinLat : sinLat ∈ Set.Icc ((795024499831 / 1000000000000) : ℝ) (795024504432 / 1000000000000) := by
    rw [u_sinLat]
    simp only [k_lat, k_lat0]
    exact tm_atom_sinLat
  have h_s1 : s1 ∈ Set.Icc ((63793288698 / 1000000000000) : ℝ) (63793293299 / 1000000000000) := by
    rw [u_s1]
    simp only [k_lat, k_lat0]
    exact tm_atom_s1
  have h_c1 : c1 ∈ Set.Icc ((-202062085323 / 1000000000000) : ℝ) (-202062080722 / 1000000000000) := by
    rw [u_c1]
    simp only [k_lat, k_lat0]
    exact tm_atom_c1
  have h_s2 : s2 ∈ Set.Icc ((127326702875 / 1000000000000) : ℝ) (127326707476 / 1000000000000) := by
    rw [u_s2]
    simp only [k_lat, k_lat0]
    exact tm_atom_s2
  have h_c2 : c2 ∈ Set.Icc ((-918341831509 / 1000000000000) : ℝ) (-918341826908 / 1000000000000) := by
    rw [u_c2]
    simp only [k_lat, k_lat0]
    exact tm_atom_c2
  have h_s3 : s3 ∈ Set.Icc ((190341422076 / 1000000000000) : ℝ) (190341426677 / 1000000000000) := by
    rw [u_s3]
    simp only [k_lat, k_lat0]
    exact tm_atom_s3
  have h_c3 : c3 ∈ Set.Icc ((573186205317 / 1000000000000) : ℝ) (573186209918 / 1000000000000) := by
    rw [u_c3]
    simp only [k_lat, k_lat0]
    exact tm_atom_c3
  have h_tl : tl = sinLat / cosLat := by
    rw [u_tl, u_sinLat, u_cosLat, Real.tan_eq_sin_div_cos]
  have hk := tm_interval_evaluation PI a b f0 e0 n0 lat0 lon0 lat lon e2 n n2 n3 cosLat sinLat W sw nu rp rho eta2 s1 c1 s2 c2 s3 c3 dlat Ma Mb Mc Md M cos3lat cos5lat tl tan2lat tan4lat I1 I2 I3 I3A I4 I5 I6 dLon dLon2 dLon3 dLon4 dLon5 dLon6 N E hpi
    k_a k_b k_f0 k_e0 k_n0 k_lat0 k_lon0 k_lat k_lon h_e2 h_n h_n2 h_n3 h_cosLat h_sinLat h_W u_sw h_nu u_rp h_rho h_eta2 h_s1 h_c1 h_s2 h_c2 h_s3 h_c3 h_dlat h_Ma h_Mb h_Mc h_Md h_M h_cos3lat h_cos5lat h_tl h_tan2lat h_tan4lat h_I1 h_I2 h_I3 h_I3A h_I4 h_I5 h_I6 h_dLon h_dLon2 h_dLon3 h_dLon4 h_dLon5 h_dLon6 h_N h_E
  obtain ⟨hE, hN⟩ := tm_unfold
    { lat := DEG_2_RAD PI (5265757 / 100000), lon := DEG_2_RAD PI (171791 / 100000), eh := h }
    OS_TM_NATIONAL_GRID a b f0 e0 n0 lat0 lon0 lat lon e2 n n2 n3 cosLat sinLat W sw nu rp rho eta2 s1 c1 s2 c2 s3 c3 dlat Ma Mb Mc Md M cos3lat cos5lat tl tan2lat tan4lat I1 I2 I3 I3A I4 I5 I6 dLon dLon2 dLon3 dLon4 dLon5 dLon6 N E
    u_a u_b u_f0 u_e0 u_n0 u_lat0 u_lon0 u_lat u_lon h_e2 h_n h_n2 h_n3 u_cosLat u_sinLat h_W u_sw h_nu u_rp h_rho h_eta2 u_s1 u_c1 u_s2 u_c2 u_s3 u_c3 h_dlat h_Ma h_Mb h_Mc h_Md h_M h_cos3lat h_cos5lat u_tl h_tan2lat h_tan4lat h_I1 h_I2 h_I3 h_I3A h_I4 h_I5 h_I6 h_dLon h_dLon2 h_dLon3 h_dLon4 h_dLon5 h_dLon6 h_N h_E
  rw [hE, hN]
  exact hk

/-! ## Accuracy of the round trip -/

/-- When the cartesian `z` is negative and the point is off the axis, a loop that
starts from a negative latitude ends at a negative latitude. -/
theorem lat_loop_stays_negative (τ a e z p : ℝ) (ha : 0 < a) (he0 : 0 ≤ e) (he1 : e < 1)
    (hp : 0 < p) (hz : z < 0) :
    ∀ (fuel : Nat) (s s' : lat_loop_state), -Real.pi < s.phi → s.phi < 0 →
      lat_loop τ a e z p fuel s = some s' → s'.phi < 0 := by
  intro fuel
  induction fuel with
  | zero =>
    intro s s' _ _ h
    simp [lat_loop] at h
  | succ k ih =>
    intro s s' h0 h1 h
    rw [lat_loop] at h
    split_ifs at h with htest
    · refine ih _ s' ?_ ?_ h
      · have := (atan2_mem_of_pos (z + e * (a / Real.sqrt (1 - e * (Real.sin s.phi
          * Real.sin s.phi))) * Real.sin s.phi) p hp).1
        have hpi := Real.pi_pos
        show -Real.pi < atan2 _ p
        linarith
      · show atan2 (z + e * (a / Real.sqrt (1 - e * (Real.sin s.phi * Real.sin s.phi)))
          * Real.sin s.phi) p < 0
        rw [atan2_of_pos _ _ hp, ← Real.arctan_zero]
        apply Real.arctan_strictMono
        apply div_neg_of_neg_of_pos _ hp
        have hsin : Real.sin s.phi < 0 := Real.sin_neg_of_neg_of_neg_pi_lt h1 h0
        have hnu : 0 < a / Real.sqrt (1 - e * (Real.sin s.phi * Real.sin s.phi)) :=
          div_pos ha (Real.sqrt_pos.mpr
            (one_sub_eSq_sin_pos e _ he0 he1 (sin_mul_self_le_one s.phi)))
        have := mul_nonneg he0 hnu.le
        nlinarith
    · cases h
      exact h1

/-- A geodetic point of positive latitude so deep below the surface that its
cartesian `z` is negative: every result of the round trip has a negative
latitude. -/
theorem round_trip_wrong_hemisphere (PREC : ℝ) (fuel : Nat) (E : os_ellipsoid_t ℝ)
    (p r : os_lat_lon_t ℝ) (hab : E.b ≤ E.a) (hb : 0 < E.b)
    (hlat0 : -(Real.pi / 2) < p.lat) (hlat1 : p.lat < Real.pi / 2)
    (hlon0 : -Real.pi < p.lon) (hlon1 : p.lon ≤ Real.pi) (hh : -E.b < p.eh)
    (hz : (os_lat_lon_to_cartesian p E).z < 0)
    (hrun : os_cartesian_to_lat_lon PREC fuel (os_lat_lon_to_cartesian p E) E = Except.ok r) :
    r.lat < 0 := by
  obtain ⟨he0, he1, -⟩ := eSq_bounds E.a E.b hb hab
  have ha : 0 < E.a := lt_of_lt_of_le hb hab
  obtain ⟨hr, hP, -⟩ := cartesian_polar E p hab hb hlat0 hlat1 hlon0 hlon1 hh
  have hcos : 0 < Real.cos p.lat := Real.cos_pos_of_mem_Ioo ⟨hlat0, hlat1⟩
  have hPpos : 0 < Real.sqrt ((os_lat_lon_to_cartesian p E).x * (os_lat_lon_to_cartesian p E).x
      + (os_lat_lon_to_cartesian p E).y * (os_lat_lon_to_cartesian p E).y) := by
    rw [hP]; exact mul_pos hr hcos
  have hx : 0 < Real.sqrt ((os_lat_lon_to_cartesian p E).x * (os_lat_lon_to_cartesian p E).x
      + (os_lat_lon_to_cartesian p E).y * (os_lat_lon_to_cartesian p E).y)
      * (1 - (E.a * E.a - E.b * E.b) / (E.a * E.a)) := mul_pos hPpos (by linarith)
  have hphi0 := atan2_mem_of_pos (os_lat_lon_to_cartesian p E).z _ hx
  have hneg : atan2 (os_lat_lon_to_cartesian p E).z
      (Real.sqrt ((os_lat_lon_to_cartesian p E).x * (os_lat_lon_to_cartesian p E).x
        + (os_lat_lon_to_cartesian p E).y * (os_lat_lon_to_cartesian p E).y)
      * (1 - (E.a * E.a - E.b * E.b) / (E.a * E.a))) < 0 := by
    rw [atan2_of_pos _ _ hx, ← Real.arctan_zero]
    exact Real.arctan_strictMono (div_neg_of_neg_of_pos hz hx)
  have hpi := Real.pi_pos
  unfold os_cartesian_to_lat_lon at hrun
  dsimp only at hrun
  cases hl : lat_loop (PREC / E.a) E.a ((E.a * E.a - E.b * E.b) / (E.a * E.a))
      (os_lat_lon_to_cartesian p E).z
      (Real.sqrt ((os_lat_lon_to_cartesian p E).x * (os_lat_lon_to_cartesian p E).x
        + (os_lat_lon_to_cartesian p E).y * (os_lat_lon_to_cartesian p E).y)) fuel
      { phi := atan2 (os_lat_lon_to_cartesian p E).z
          (Real.sqrt ((os_lat_lon_to_cartesian p E).x * (os_lat_lon_to_cartesian p E).x
            + (os_lat_lon_to_cartesian p E).y * (os_lat_lon_to_cartesian p E).y)
          * (1 - (E.a * E.a - E.b * E.b) / (E.a * E.a)))
        phiP := 2 * PI, nu := none } with
  | none =>
    rw [hl] at hrun
    cases hrun
  | some s =>
    rw [hl] at hrun
    have hs := lat_loop_stays_negative _ _ _ _ _ ha he0 he1 hPpos hz fuel _ s
      (by show -Real.pi < atan2 _ _; linarith [hphi0.1]) hneg hl
    cases hn : s.nu with
    | none =>
      simp [hn] at hrun
    | some nu =>
      simp only [hn] at hrun
      cases hrun
      exact hs

theorem sin_pi_div_four_mul_self :
    Real.sin (Real.pi / 4) * Real.sin (Real.pi / 4) = 1 / 2 := by
  rw [Real.sin_pi_div_four]
  have := Real.mul_self_sqrt (show (0 : ℝ) ≤ 2 by norm_num)
  linear_combination this / 4

theorem sin_pi_div_four_pos : 0 < Real.sin (Real.pi / 4) := by
  rw [Real.sin_pi_div_four]
  positivity

/-- On the ellipsoid with axes `8 u` and `4 u`, the point of latitude `π/4` and
height `-3 u`, which is above `-b = -4 u`, has a negative cartesian `z`. -/
theorem deep_point_z_neg (u : ℝ) (hu : 0 < u) :
    (os_lat_lon_to_cartesian { lat := Real.pi / 4, lon := 0, eh := -(3 * u) }
      { a := 8 * u, b := 4 * u }).z < 0 := by
  have he : (8 * u * (8 * u) - 4 * u * (4 * u)) / (8 * u * (8 * u)) = 3 / 4 := by
    field_simp
    ring
  have hsq : (2 / 3 : ℝ) < Real.sqrt (1 - 3 / 4 * (1 / 2)) := by
    rw [Real.lt_sqrt (by norm_num)]
    norm_num
  have hs0 : 0 < Real.sqrt (1 - 3 / 4 * (1 / 2)) := by linarith
  simp only [os_lat_lon_to_cartesian, he, sin_pi_div_four_mul_self]
  apply mul_neg_of_neg_of_pos _ sin_pi_div_four_pos
  have h1 : 8 * u / Real.sqrt (1 - 3 / 4 * (1 / 2)) < 12 * u := by
    rw [div_lt_iff₀ hs0]
    nlinarith
  linarith

/-- The claim **C10** fails also when the tolerance is small.  Whatever positive
value the constant `OS_CART_TO_LAT_LON_PRECISION` has, on the ellipsoid with axes
`a = 2000000 PRECISION` and `b = 1000000 PRECISION` (tolerance half a
microradian) the point of latitude `π/4`, longitude 0 and height
`-750000 PRECISION > -b` has a negative cartesian `z`, and the latitude returned
is negative: it is not within the tolerance of `π/4`. -/
theorem round_trip_deep_counterexample :
    ¬ ∃ PREC : ℝ, 0 < PREC ∧
      ∀ (E : os_ellipsoid_t ℝ) (p : os_lat_lon_t ℝ),
        E.b ≤ E.a → 0 < E.b → -(Real.pi / 2) < p.lat → p.lat < Real.pi / 2 →
        -Real.pi < p.lon → p.lon ≤ Real.pi → -E.b < p.eh →
        PREC / E.a ≤ 1 / 1000000 →
        ∃ fuel r, os_cartesian_to_lat_lon PREC fuel (os_lat_lon_to_cartesian p E) E
            = Except.ok r ∧
          |r.lat - p.lat| ≤ PREC / E.a ∧ |r.lon - p.lon| ≤ PREC / E.a ∧
          |r.eh - p.eh| ≤ 1 := by
  rintro ⟨PREC, hP, h⟩
  have hu : 0 < 250000 * PREC := by positivity
  have hpi := Real.pi_gt_three
  have hab : 4 * (250000 * PREC) ≤ 8 * (250000 * PREC) := by linarith
  have hb : 0 < 4 * (250000 * PREC) := by linarith
  have hτ : PREC / (8 * (250000 * PREC)) ≤ 1 / 1000000 := by
    rw [div_le_iff₀ (by positivity)]
    linarith
  obtain ⟨fuel, r, hr, hlat, -⟩ := h { a := 8 * (250000 * PREC), b := 4 * (250000 * PREC) }
    { lat := Real.pi / 4, lon := 0, eh := -(3 * (250000 * PREC)) }
    hab hb (by show -(Real.pi / 2) < Real.pi / 4; linarith)
    (by show Real.pi / 4 < Real.pi / 2; linarith) (by show -Real.pi < 0; linarith)
    (by show (0 : ℝ) ≤ Real.pi; linarith)
    (by show -(4 * (250000 * PREC)) < -(3 * (250000 * PREC)); linarith) hτ
  have hneg := round_trip_wrong_hemisphere PREC fuel _ _ r hab hb
    (by show -(Real.pi / 2) < Real.pi / 4; linarith)
    (by show Real.pi / 4 < Real.pi / 2; linarith) (by show -Real.pi < 0; linarith)
    (by show (0 : ℝ) ≤ Real.pi; linarith)
    (by show -(4 * (250000 * PREC)) < -(3 * (250000 * PREC)); linarith)
    (deep_point_z_neg _ hu) hr
  have h1 := (abs_le.mp hlat).1
  have h2 : PREC / (8 * (250000 * PREC)) ≤ 1 / 1000000 := hτ
  have h3 : -(PREC / (8 * (250000 * PREC))) ≤ r.lat - Real.pi / 4 := h1
  linarith

/-- On the Airy 1830 ellipsoid the point of latitude `π/4`, longitude 0 and
height -6350000 m (above `-b`) has a negative cartesian `z`: whatever the
precision, every result of the round trip has a negative latitude, more than
`π/4` away from the original. -/
theorem round_trip_airy_deep (PREC : ℝ) (fuel : Nat) (r : os_lat_lon_t ℝ)
    (hrun : os_cartesian_to_lat_lon PREC fuel
      (os_lat_lon_to_cartesian { lat := Real.pi / 4, lon := 0, eh := -6350000 } AIRY_1830)
      AIRY_1830 = Except.ok r) :
    r.lat < 0 ∧ Real.pi / 4 < |r.lat - Real.pi / 4| := by
  have hpi := Real.pi_gt_three
  have hab : AIRY_1830.b ≤ AIRY_1830.a := by norm_num [AIRY_1830]
  have hb : 0 < AIRY_1830.b := by norm_num [AIRY_1830]
  have hz : (os_lat_lon_to_cartesian { lat := Real.pi / 4, lon := 0, eh := -6350000 }
      AIRY_1830).z < 0 := by
    simp only [os_lat_lon_to_cartesian, sin_pi_div_four_mul_self, AIRY_1830]
    apply mul_neg_of_neg_of_pos _ sin_pi_div_four_pos
    have hsq : (998 / 1000 : ℝ) < Real.sqrt (1 - (6377563396 / 1000 * (6377563396 / 1000)
        - 6356256909 / 1000 * (6356256909 / 1000))
        / (6377563396 / 1000 * (6377563396 / 1000)) * (1 / 2)) := by
      rw [Real.lt_sqrt (by norm_num)]
      norm_num
    have hs0 := lt_trans (by norm_num : (0 : ℝ) < 998 / 1000) hsq
    have h1 : (1 - (6377563396 / 1000 * (6377563396 / 1000)
        - 6356256909 / 1000 * (6356256909 / 1000))
        / (6377563396 / 1000 * (6377563396 / 1000)))
        * (6377563396 / 1000 / Real.sqrt (1 - (6377563396 / 1000 * (6377563396 / 1000)
          - 6356256909 / 1000 * (6356256909 / 1000))
          / (6377563396 / 1000 * (6377563396 / 1000)) * (1 / 2))) < 6350000 := by
      rw [← mul_div_assoc, div_lt_iff₀ hs0]
      have : (1 - (6377563396 / 1000 * (6377563396 / 1000)
          - 6356256909 / 1000 * (6356256909 / 1000))
          / (6377563396 / 1000 * (6377563396 / 1000))) * (6377563396 / 1000)
          < 6350000 * (998 / 1000 : ℝ) := by norm_num
      nlinarith
    linarith
  have hneg := round_trip_wrong_hemisphere PREC fuel AIRY_1830 _ r hab hb
    (by show -(Real.pi / 2) < Real.pi / 4; linarith)
    (by show Real.pi / 4 < Real.pi / 2; linarith) (by show -Real.pi < 0; linarith)
    (by show (0 : ℝ) ≤ Real.pi; linarith)
    (by show -AIRY_1830.b < -6350000; norm_num [AIRY_1830]) hz hrun
  refine ⟨hneg, ?_⟩
  rw [abs_of_neg (by linarith)]
  linarith

/-! ## The northing in double arithmetic -/

theorem isDouble_zero : IsDouble 0 := ⟨0, 0, by norm_num, by norm_num, by norm_num⟩

theorem isDouble_one : IsDouble 1 := ⟨1, 1074, by norm_num, by norm_num, by norm_num⟩

/-- Rounding leaves a double as it is. -/
theorem fl_of_isDouble (fl : ℝ → ℝ) (hfl : RoundsToNearest fl) (x : ℝ) (hx : IsDouble x) :
    fl x = x := by
  have h := (hfl x).2 x hx
  rw [sub_self, abs_zero] at h
  have := abs_nonneg (x - fl x)
  have h0 : |x - fl x| = 0 := le_antisymm h this
  rw [abs_eq_zero] at h0
  linarith

/-- No double other than 1 lies within `2 ^ (-53)` of 1. -/
theorem isDouble_near_one (y : ℝ) (hy : IsDouble y) (hne : y ≠ 1) :
    1 / 2 ^ 53 ≤ |y - 1| := by
  obtain ⟨m, e, hm, he, rfl⟩ := hy
  have hmR : |(m : ℝ)| < 2 ^ 53 := by exact_mod_cast hm
  rcases Nat.lt_or_ge e 1021 with hlt | hge
  · -- the double is below 1/2 in absolute value
    have hpow : (2 : ℝ) ^ e ≤ 2 ^ 1020 := pow_le_pow_right₀ (by norm_num) (by omega)
    have habs : |(m : ℝ) * 2 ^ e / 2 ^ 1074| ≤ 1 / 2 := by
      rw [abs_div, abs_mul, abs_of_pos (by positivity : (0 : ℝ) < 2 ^ e),
        abs_of_pos (by positivity : (0 : ℝ) < 2 ^ 1074), div_le_iff₀ (by positivity)]
      calc |(m : ℝ)| * 2 ^ e ≤ 2 ^ 53 * 2 ^ 1020 :=
            mul_le_mul hmR.le hpow (by positivity) (by positivity)
        _ = 1 / 2 * 2 ^ 1074 := by norm_num
    have h1 := abs_le.mp habs
    have h2 : (1 : ℝ) / 2 ^ 53 ≤ 1 / 2 := by norm_num
    rw [abs_sub_comm]
    calc (1 : ℝ) / 2 ^ 53 ≤ 1 / 2 := h2
      _ ≤ 1 - (m : ℝ) * 2 ^ e / 2 ^ 1074 := by linarith [h1.2]
      _ ≤ |1 - (m : ℝ) * 2 ^ e / 2 ^ 1074| := le_abs_self _
  · -- the double is an integer multiple of 2 ^ (-53)
    obtain ⟨k, rfl⟩ : ∃ k, e = 1021 + k := ⟨e - 1021, by omega⟩
    have hval : (m : ℝ) * 2 ^ (1021 + k) / 2 ^ 1074 = ((m * 2 ^ k : ℤ) : ℝ) / 2 ^ 53 := by
      push_cast
      rw [pow_add, div_eq_div_iff (by positivity) (by positivity)]
      have : (2 : ℝ) ^ 1074 = 2 ^ 1021 * 2 ^ 53 := by norm_num
      rw [this]
      ring
    rw [hval] at hne ⊢
    have hz : m * 2 ^ k - 2 ^ 53 ≠ 0 := by
      intro h0
      apply hne
      have : m * 2 ^ k = 2 ^ 53 := by linarith
      rw [this]
      norm_num
    have hone : (1 : ℝ) ≤ |((m * 2 ^ k - 2 ^ 53 : ℤ) : ℝ)| := by
      rw [← Int.cast_abs]
      exact_mod_cast Int.one_le_abs hz
    have hsub : ((m * 2 ^ k : ℤ) : ℝ) / 2 ^ 53 - 1 = ((m * 2 ^ k - 2 ^ 53 : ℤ) : ℝ) / 2 ^ 53 := by
      rw [Int.cast_sub, sub_div]
      congr 1
      norm_num
    rw [hsub, abs_div, abs_of_pos (by positivity : (0 : ℝ) < 2 ^ 53)]
    exact div_le_div_of_nonneg_right hone (by positivity)

/-- Absorption: a real number within `2 ^ (-55)` of 1 is rounded to 1. -/
theorem fl_near_one (fl : ℝ → ℝ) (hfl : RoundsToNearest fl) (x : ℝ)
    (hx : |x - 1| ≤ 1 / 2 ^ 55) : fl x = 1 := by
  by_contra hne
  have h1 := isDouble_near_one (fl x) (hfl x).1 hne
  have h2 := (hfl x).2 1 isDouble_one
  have h3 : |fl x - 1| ≤ |x - fl x| + |x - 1| := by
    have : fl x - 1 = -(x - fl x) + (x - 1) := by ring
    rw [this]
    calc |-(x - fl x) + (x - 1)| ≤ |-(x - fl x)| + |x - 1| := abs_add _ _
      _ = |x - fl x| + |x - 1| := by rw [abs_neg]
  have h4 : (1 : ℝ) / 2 ^ 55 + 1 / 2 ^ 55 < 1 / 2 ^ 53 := by norm_num
  linarith

/-- On the central meridian of `UNIT_SPHERE_TM`, in double arithmetic, every
latitude that is a double of absolute value at most `2 ^ (-55)` has northing
exactly 1: the meridional arc is the latitude itself and adding the northing 1 of
the origin absorbs it. -/
theorem tm_fl_northing_near_origin (fl : ℝ → ℝ) (hfl : RoundsToNearest fl) (m : math_h ℝ)
    (PI h lat : ℝ) (hlat : IsDouble lat) (hsmall : |lat| ≤ 1 / 2 ^ 55) :
    (os_lat_lon_to_tm_eas_nor_fl fl m PI
      { lat := lat, lon := DEG_2_RAD_fl fl PI UNIT_SPHERE_TM.lon0, eh := h } UNIT_SPHERE_TM).n
      = 1 := by
  have f0 : fl 0 = 0 := fl_of_isDouble fl hfl 0 isDouble_zero
  have f1 : fl 1 = 1 := fl_of_isDouble fl hfl 1 isDouble_one
  have flat : fl lat = lat := fl_of_isDouble fl hfl lat hlat
  have fabs : fl (lat + 1) = 1 := fl_near_one fl hfl (lat + 1) (by simpa using hsmall)
  simp [os_lat_lon_to_tm_eas_nor_fl, DEG_2_RAD_fl, UNIT_SPHERE_TM, f0, f1, flat, fabs]

theorem isDouble_two_pow_neg (k : ℕ) (hk : k ≤ 1074) : IsDouble (1 / 2 ^ k) := by
  refine ⟨1, 1074 - k, by norm_num, by omega, ?_⟩
  rw [Int.cast_one, one_mul, div_eq_div_iff (by positivity) (by positivity), one_mul,
    ← pow_add]
  congr 1
  omega

/-- Counterexample to **C12** as stated, for the doubles the code computes.  On the
projection `UNIT_SPHERE_TM` (`f0 = 1 > 0`, `a = b = 1`, third flattening 0) with
the longitude on the central meridian, the latitudes `2 ^ (-60) < 2 ^ (-59)`, both
doubles in `[-π/2, π/2]`, have the same northing 1, whatever the rounding to
nearest and whatever the library functions: the northing is not strictly
increasing. -/
theorem tm_northing_double_counterexample :
    ∃ lat1 lat2 : ℝ,
      (0 < UNIT_SPHERE_TM.f0 ∧ 0 < UNIT_SPHERE_TM.ellipsoid.b ∧
        UNIT_SPHERE_TM.ellipsoid.b ≤ UNIT_SPHERE_TM.ellipsoid.a ∧
        (UNIT_SPHERE_TM.ellipsoid.a - UNIT_SPHERE_TM.ellipsoid.b)
          / (UNIT_SPHERE_TM.ellipsoid.a + UNIT_SPHERE_TM.ellipsoid.b) ≤ 1 / 100) ∧
      (IsDouble lat1 ∧ IsDouble lat2 ∧ -(Real.pi / 2) ≤ lat1 ∧ lat1 < lat2 ∧
        lat2 ≤ Real.pi / 2) ∧
      ∀ (fl : ℝ → ℝ) (m : math_h ℝ) (PI h1 h2 : ℝ), RoundsToNearest fl →
        ¬ ((os_lat_lon_to_tm_eas_nor_fl fl m PI
            { lat := lat1, lon := DEG_2_RAD_fl fl PI UNIT_SPHERE_TM.lon0, eh := h1 }
            UNIT_SPHERE_TM).n
          < (os_lat_lon_to_tm_eas_nor_fl fl m PI
            { lat := lat2, lon := DEG_2_RAD_fl fl PI UNIT_SPHERE_TM.lon0, eh := h2 }
            UNIT_SPHERE_TM).n) := by
  have hpi := Real.pi_pos
  refine ⟨1 / 2 ^ 60, 1 / 2 ^ 59, ⟨by norm_num [UNIT_SPHERE_TM], by norm_num [UNIT_SPHERE_TM],
    by norm_num [UNIT_SPHERE_TM], by norm_num [UNIT_SPHERE_TM]⟩,
    ⟨isDouble_two_pow_neg 60 (by norm_num), isDouble_two_pow_neg 59 (by norm_num), ?_, by norm_num,
      ?_⟩, ?_⟩
  · have : (0 : ℝ) < 1 / 2 ^ 60 := by positivity
    linarith
  · have : (1 : ℝ) / 2 ^ 59 ≤ 1 := by norm_num
    have := Real.pi_gt_three
    linarith
  · intro fl m PI h1 h2 hfl
    rw [tm_fl_northing_near_origin fl hfl m PI h1 _ (isDouble_two_pow_neg 60 (by norm_num))
        (by rw [abs_of_pos (by positivity)]; norm_num),
      tm_fl_northing_near_origin fl hfl m PI h2 _ (isDouble_two_pow_neg 59 (by norm_num))
        (by rw [abs_of_pos (by positivity)]; norm_num)]
    exact lt_irrefl 1

/-- The doubles are finitely many. -/
theorem isDouble_finite : ∃ S : Finset ℝ, ∀ y, y ∈ S ↔ IsDouble y := by
  classical
  refine ⟨(Finset.Ioo (-(2 ^ 53) : ℤ) (2 ^ 53) ×ˢ Finset.range 2046).image
    (fun q => (q.1 : ℝ) * 2 ^ q.2 / 2 ^ 1074), ?_⟩
  intro y
  simp only [Finset.mem_image, Finset.mem_product, Finset.mem_Ioo, Finset.mem_range,
    Prod.exists]
  constructor
  · rintro ⟨m, e, ⟨⟨h1, h2⟩, h3⟩, rfl⟩
    exact ⟨m, e, abs_lt.mpr ⟨h1, h2⟩, by omega, rfl⟩
  · rintro ⟨m, e, hm, he, rfl⟩
    exact ⟨m, e, ⟨⟨(abs_lt.mp hm).1, (abs_lt.mp hm).2⟩, by omega⟩, rfl⟩

/-- A rounding to nearest exists: every real number has a nearest double. -/
theorem roundsToNearest_exists : ∃ fl : ℝ → ℝ, RoundsToNearest fl := by
  obtain ⟨S, hS⟩ := isDouble_finite
  have h0 : (0 : ℝ) ∈ S := (hS 0).mpr isDouble_zero
  have h : ∀ x : ℝ, ∃ y, IsDouble y ∧ ∀ y', IsDouble y' → |x - y| ≤ |x - y'| := by
    intro x
    obtain ⟨y, hy, hmin⟩ := Finset.exists_min_image S (fun y => |x - y|) ⟨0, h0⟩
    exact ⟨y, (hS y).mp hy, fun y' hy' => hmin y' ((hS y').mpr hy')⟩
  choose fl hfl using h
  exact ⟨fl, fun x => hfl x⟩

end OsCoord
